import Mathlib

/-!
# CRC-32, CRC-32/RFC1510 and CRC-24/RFC2440 (`cipher/crc.c`)

A shallow embedding of `cipher/crc.c`.  Unsigned machine words (`u32`, `byte`,
`size_t`) are natural numbers; a word is in range when it is below `2 ^ 32`, a
byte when it is below `256`.  No operation of the file can overflow on in-range
arguments (right shifts, masks and exclusive-or only), so no reduction modulo
`2 ^ 32` is needed.  An input pointer is `Option (List Nat)`: `none` is the
null pointer, `some p` points at the bytes `p`; `&inbuf[k]` and `inbuf += k`
are `List.drop k`.  The context is passed and returned explicitly.

What the file takes from outside (the `USE_*` configuration macros, the `HWF_*`
masks and the accelerated update routines) is a `Platform`.  Statements about
the portable path hold for every platform; `portable P ctx` says that no
backend is both compiled in and selected in `ctx`.
-/

namespace Crc

/-! ## Data model -/

/-- The `CRC_CONTEXT` struct.  The three one-bit fields exist in the C struct
only when the matching `USE_*` macro is defined; here they are always present
and are neither written nor read when the macro is off. -/
structure CRC_CONTEXT where
  CRC : Nat
  use_pclmul : Bool
  use_pmull : Bool
  use_vpmsum : Bool
  buf : List Nat
deriving DecidableEq, Repr

/-- What `crc.c` takes from outside the file: the three `USE_*` configuration
macros, the `HWF_*` feature masks of `g10lib.h`, and the six accelerated update
routines of `crc-intel-pclmul.c`, `crc-armv8-ce.c` and `crc-ppc.c`.  A routine
`void f (u32 *pcrc, const byte *inbuf, size_t inlen)` is a function from the
old register, the buffer pointer and the length to the new register. -/
structure Platform where
  USE_INTEL_PCLMUL : Bool
  USE_ARM_PMULL : Bool
  USE_PPC_VPMSUM : Bool
  HWF_INTEL_SSE4_1 : Nat
  HWF_INTEL_PCLMUL : Nat
  HWF_ARM_NEON : Nat
  HWF_ARM_PMULL : Nat
  HWF_PPC_ARCH_2_07 : Nat
  _gcry_crc32_intel_pclmul : Nat → Option (List Nat) → Nat → Nat
  _gcry_crc24rfc2440_intel_pclmul : Nat → Option (List Nat) → Nat → Nat
  _gcry_crc32_armv8_ce_pmull : Nat → Option (List Nat) → Nat → Nat
  _gcry_crc24rfc2440_armv8_ce_pmull : Nat → Option (List Nat) → Nat → Nat
  _gcry_crc32_ppc8_vpmsum : Nat → Option (List Nat) → Nat → Nat
  _gcry_crc24rfc2440_ppc8_vpmsum : Nat → Option (List Nat) → Nat → Nat

/-- Modelled from the spec: `buf_get_le32` of `bufhelp.h`, which is not among
the sources: the four bytes at the pointer packed in little-endian order. -/
def buf_get_le32 (p : List Nat) : Nat :=
  p.getD 0 0 ||| (p.getD 1 0 <<< 8) ||| (p.getD 2 0 <<< 16) ||| (p.getD 3 0 <<< 24)

/-- Modelled from the spec: `buf_put_be32` of `bufhelp.h`, which is not among
the sources: the four bytes of a 32-bit value, most significant first. -/
def buf_put_be32 (val : Nat) : List Nat :=
  [(val >>> 24) % 256, (val >>> 16) % 256, (val >>> 8) % 256, val % 256]

/-- Modelled from the spec: `buf_put_le32` of `bufhelp.h`, which is not among
the sources: the four bytes of a 32-bit value, least significant first. -/
def buf_put_le32 (val : Nat) : List Nat :=
  [val % 256, (val >>> 8) % 256, (val >>> 16) % 256, (val >>> 24) % 256]

/-! ## CRC-32 -/

/-- The table `crc32_table[1024]`. -/
def crc32_table : List Nat := [
  0x00000000, 0x77073096, 0xee0e612c, 0x990951ba,
  0x076dc419, 0x706af48f, 0xe963a535, 0x9e6495a3,
  0x0edb8832, 0x79dcb8a4, 0xe0d5e91e, 0x97d2d988,
  0x09b64c2b, 0x7eb17cbd, 0xe7b82d07, 0x90bf1d91,
  0x1db71064, 0x6ab020f2, 0xf3b97148, 0x84be41de,
  0x1adad47d, 0x6ddde4eb, 0xf4d4b551, 0x83d385c7,
  0x136c9856, 0x646ba8c0, 0xfd62f97a, 0x8a65c9ec,
  0x14015c4f, 0x63066cd9, 0xfa0f3d63, 0x8d080df5,
  0x3b6e20c8, 0x4c69105e, 0xd56041e4, 0xa2677172,
  0x3c03e4d1, 0x4b04d447, 0xd20d85fd, 0xa50ab56b,
  0x35b5a8fa, 0x42b2986c, 0xdbbbc9d6, 0xacbcf940,
  0x32d86ce3, 0x45df5c75, 0xdcd60dcf, 0xabd13d59,
  0x26d930ac, 0x51de003a, 0xc8d75180, 0xbfd06116,
  0x21b4f4b5, 0x56b3c423, 0xcfba9599, 0xb8bda50f,
  0x2802b89e, 0x5f058808, 0xc60cd9b2, 0xb10be924,
  0x2f6f7c87, 0x58684c11, 0xc1611dab, 0xb6662d3d,
  0x76dc4190, 0x01db7106, 0x98d220bc, 0xefd5102a,
  0x71b18589, 0x06b6b51f, 0x9fbfe4a5, 0xe8b8d433,
  0x7807c9a2, 0x0f00f934, 0x9609a88e, 0xe10e9818,
  0x7f6a0dbb, 0x086d3d2d, 0x91646c97, 0xe6635c01,
  0x6b6b51f4, 0x1c6c6162, 0x856530d8, 0xf262004e,
  0x6c0695ed, 0x1b01a57b, 0x8208f4c1, 0xf50fc457,
  0x65b0d9c6, 0x12b7e950, 0x8bbeb8ea, 0xfcb9887c,
  0x62dd1ddf, 0x15da2d49, 0x8cd37cf3, 0xfbd44c65,
  0x4db26158, 0x3ab551ce, 0xa3bc0074, 0xd4bb30e2,
  0x4adfa541, 0x3dd895d7, 0xa4d1c46d, 0xd3d6f4fb,
  0x4369e96a, 0x346ed9fc, 0xad678846, 0xda60b8d0,
  0x44042d73, 0x33031de5, 0xaa0a4c5f, 0xdd0d7cc9,
  0x5005713c, 0x270241aa, 0xbe0b1010, 0xc90c2086,
  0x5768b525, 0x206f85b3, 0xb966d409, 0xce61e49f,
  0x5edef90e, 0x29d9c998, 0xb0d09822, 0xc7d7a8b4,
  0x59b33d17, 0x2eb40d81, 0xb7bd5c3b, 0xc0ba6cad,
  0xedb88320, 0x9abfb3b6, 0x03b6e20c, 0x74b1d29a,
  0xead54739, 0x9dd277af, 0x04db2615, 0x73dc1683,
  0xe3630b12, 0x94643b84, 0x0d6d6a3e, 0x7a6a5aa8,
  0xe40ecf0b, 0x9309ff9d, 0x0a00ae27, 0x7d079eb1,
  0xf00f9344, 0x8708a3d2, 0x1e01f268, 0x6906c2fe,
  0xf762575d, 0x806567cb, 0x196c3671, 0x6e6b06e7,
  0xfed41b76, 0x89d32be0, 0x10da7a5a, 0x67dd4acc,
  0xf9b9df6f, 0x8ebeeff9, 0x17b7be43, 0x60b08ed5,
  0xd6d6a3e8, 0xa1d1937e, 0x38d8c2c4, 0x4fdff252,
  0xd1bb67f1, 0xa6bc5767, 0x3fb506dd, 0x48b2364b,
  0xd80d2bda, 0xaf0a1b4c, 0x36034af6, 0x41047a60,
  0xdf60efc3, 0xa867df55, 0x316e8eef, 0x4669be79,
  0xcb61b38c, 0xbc66831a, 0x256fd2a0, 0x5268e236,
  0xcc0c7795, 0xbb0b4703, 0x220216b9, 0x5505262f,
  0xc5ba3bbe, 0xb2bd0b28, 0x2bb45a92, 0x5cb36a04,
  0xc2d7ffa7, 0xb5d0cf31, 0x2cd99e8b, 0x5bdeae1d,
  0x9b64c2b0, 0xec63f226, 0x756aa39c, 0x026d930a,
  0x9c0906a9, 0xeb0e363f, 0x72076785, 0x05005713,
  0x95bf4a82, 0xe2b87a14, 0x7bb12bae, 0x0cb61b38,
  0x92d28e9b, 0xe5d5be0d, 0x7cdcefb7, 0x0bdbdf21,
  0x86d3d2d4, 0xf1d4e242, 0x68ddb3f8, 0x1fda836e,
  0x81be16cd, 0xf6b9265b, 0x6fb077e1, 0x18b74777,
  0x88085ae6, 0xff0f6a70, 0x66063bca, 0x11010b5c,
  0x8f659eff, 0xf862ae69, 0x616bffd3, 0x166ccf45,
  0xa00ae278, 0xd70dd2ee, 0x4e048354, 0x3903b3c2,
  0xa7672661, 0xd06016f7, 0x4969474d, 0x3e6e77db,
  0xaed16a4a, 0xd9d65adc, 0x40df0b66, 0x37d83bf0,
  0xa9bcae53, 0xdebb9ec5, 0x47b2cf7f, 0x30b5ffe9,
  0xbdbdf21c, 0xcabac28a, 0x53b39330, 0x24b4a3a6,
  0xbad03605, 0xcdd70693, 0x54de5729, 0x23d967bf,
  0xb3667a2e, 0xc4614ab8, 0x5d681b02, 0x2a6f2b94,
  0xb40bbe37, 0xc30c8ea1, 0x5a05df1b, 0x2d02ef8d,
  0x00000000, 0x191b3141, 0x32366282, 0x2b2d53c3,
  0x646cc504, 0x7d77f445, 0x565aa786, 0x4f4196c7,
  0xc8d98a08, 0xd1c2bb49, 0xfaefe88a, 0xe3f4d9cb,
  0xacb54f0c, 0xb5ae7e4d, 0x9e832d8e, 0x87981ccf,
  0x4ac21251, 0x53d92310, 0x78f470d3, 0x61ef4192,
  0x2eaed755, 0x37b5e614, 0x1c98b5d7, 0x05838496,
  0x821b9859, 0x9b00a918, 0xb02dfadb, 0xa936cb9a,
  0xe6775d5d, 0xff6c6c1c, 0xd4413fdf, 0xcd5a0e9e,
  0x958424a2, 0x8c9f15e3, 0xa7b24620, 0xbea97761,
  0xf1e8e1a6, 0xe8f3d0e7, 0xc3de8324, 0xdac5b265,
  0x5d5daeaa, 0x44469feb, 0x6f6bcc28, 0x7670fd69,
  0x39316bae, 0x202a5aef, 0x0b07092c, 0x121c386d,
  0xdf4636f3, 0xc65d07b2, 0xed705471, 0xf46b6530,
  0xbb2af3f7, 0xa231c2b6, 0x891c9175, 0x9007a034,
  0x179fbcfb, 0x0e848dba, 0x25a9de79, 0x3cb2ef38,
  0x73f379ff, 0x6ae848be, 0x41c51b7d, 0x58de2a3c,
  0xf0794f05, 0xe9627e44, 0xc24f2d87, 0xdb541cc6,
  0x94158a01, 0x8d0ebb40, 0xa623e883, 0xbf38d9c2,
  0x38a0c50d, 0x21bbf44c, 0x0a96a78f, 0x138d96ce,
  0x5ccc0009, 0x45d73148, 0x6efa628b, 0x77e153ca,
  0xbabb5d54, 0xa3a06c15, 0x888d3fd6, 0x91960e97,
  0xded79850, 0xc7cca911, 0xece1fad2, 0xf5facb93,
  0x7262d75c, 0x6b79e61d, 0x4054b5de, 0x594f849f,
  0x160e1258, 0x0f152319, 0x243870da, 0x3d23419b,
  0x65fd6ba7, 0x7ce65ae6, 0x57cb0925, 0x4ed03864,
  0x0191aea3, 0x188a9fe2, 0x33a7cc21, 0x2abcfd60,
  0xad24e1af, 0xb43fd0ee, 0x9f12832d, 0x8609b26c,
  0xc94824ab, 0xd05315ea, 0xfb7e4629, 0xe2657768,
  0x2f3f79f6, 0x362448b7, 0x1d091b74, 0x04122a35,
  0x4b53bcf2, 0x52488db3, 0x7965de70, 0x607eef31,
  0xe7e6f3fe, 0xfefdc2bf, 0xd5d0917c, 0xcccba03d,
  0x838a36fa, 0x9a9107bb, 0xb1bc5478, 0xa8a76539,
  0x3b83984b, 0x2298a90a, 0x09b5fac9, 0x10aecb88,
  0x5fef5d4f, 0x46f46c0e, 0x6dd93fcd, 0x74c20e8c,
  0xf35a1243, 0xea412302, 0xc16c70c1, 0xd8774180,
  0x9736d747, 0x8e2de606, 0xa500b5c5, 0xbc1b8484,
  0x71418a1a, 0x685abb5b, 0x4377e898, 0x5a6cd9d9,
  0x152d4f1e, 0x0c367e5f, 0x271b2d9c, 0x3e001cdd,
  0xb9980012, 0xa0833153, 0x8bae6290, 0x92b553d1,
  0xddf4c516, 0xc4eff457, 0xefc2a794, 0xf6d996d5,
  0xae07bce9, 0xb71c8da8, 0x9c31de6b, 0x852aef2a,
  0xca6b79ed, 0xd37048ac, 0xf85d1b6f, 0xe1462a2e,
  0x66de36e1, 0x7fc507a0, 0x54e85463, 0x4df36522,
  0x02b2f3e5, 0x1ba9c2a4, 0x30849167, 0x299fa026,
  0xe4c5aeb8, 0xfdde9ff9, 0xd6f3cc3a, 0xcfe8fd7b,
  0x80a96bbc, 0x99b25afd, 0xb29f093e, 0xab84387f,
  0x2c1c24b0, 0x350715f1, 0x1e2a4632, 0x07317773,
  0x4870e1b4, 0x516bd0f5, 0x7a468336, 0x635db277,
  0xcbfad74e, 0xd2e1e60f, 0xf9ccb5cc, 0xe0d7848d,
  0xaf96124a, 0xb68d230b, 0x9da070c8, 0x84bb4189,
  0x03235d46, 0x1a386c07, 0x31153fc4, 0x280e0e85,
  0x674f9842, 0x7e54a903, 0x5579fac0, 0x4c62cb81,
  0x8138c51f, 0x9823f45e, 0xb30ea79d, 0xaa1596dc,
  0xe554001b, 0xfc4f315a, 0xd7626299, 0xce7953d8,
  0x49e14f17, 0x50fa7e56, 0x7bd72d95, 0x62cc1cd4,
  0x2d8d8a13, 0x3496bb52, 0x1fbbe891, 0x06a0d9d0,
  0x5e7ef3ec, 0x4765c2ad, 0x6c48916e, 0x7553a02f,
  0x3a1236e8, 0x230907a9, 0x0824546a, 0x113f652b,
  0x96a779e4, 0x8fbc48a5, 0xa4911b66, 0xbd8a2a27,
  0xf2cbbce0, 0xebd08da1, 0xc0fdde62, 0xd9e6ef23,
  0x14bce1bd, 0x0da7d0fc, 0x268a833f, 0x3f91b27e,
  0x70d024b9, 0x69cb15f8, 0x42e6463b, 0x5bfd777a,
  0xdc656bb5, 0xc57e5af4, 0xee530937, 0xf7483876,
  0xb809aeb1, 0xa1129ff0, 0x8a3fcc33, 0x9324fd72,
  0x00000000, 0x01c26a37, 0x0384d46e, 0x0246be59,
  0x0709a8dc, 0x06cbc2eb, 0x048d7cb2, 0x054f1685,
  0x0e1351b8, 0x0fd13b8f, 0x0d9785d6, 0x0c55efe1,
  0x091af964, 0x08d89353, 0x0a9e2d0a, 0x0b5c473d,
  0x1c26a370, 0x1de4c947, 0x1fa2771e, 0x1e601d29,
  0x1b2f0bac, 0x1aed619b, 0x18abdfc2, 0x1969b5f5,
  0x1235f2c8, 0x13f798ff, 0x11b126a6, 0x10734c91,
  0x153c5a14, 0x14fe3023, 0x16b88e7a, 0x177ae44d,
  0x384d46e0, 0x398f2cd7, 0x3bc9928e, 0x3a0bf8b9,
  0x3f44ee3c, 0x3e86840b, 0x3cc03a52, 0x3d025065,
  0x365e1758, 0x379c7d6f, 0x35dac336, 0x3418a901,
  0x3157bf84, 0x3095d5b3, 0x32d36bea, 0x331101dd,
  0x246be590, 0x25a98fa7, 0x27ef31fe, 0x262d5bc9,
  0x23624d4c, 0x22a0277b, 0x20e69922, 0x2124f315,
  0x2a78b428, 0x2bbade1f, 0x29fc6046, 0x283e0a71,
  0x2d711cf4, 0x2cb376c3, 0x2ef5c89a, 0x2f37a2ad,
  0x709a8dc0, 0x7158e7f7, 0x731e59ae, 0x72dc3399,
  0x7793251c, 0x76514f2b, 0x7417f172, 0x75d59b45,
  0x7e89dc78, 0x7f4bb64f, 0x7d0d0816, 0x7ccf6221,
  0x798074a4, 0x78421e93, 0x7a04a0ca, 0x7bc6cafd,
  0x6cbc2eb0, 0x6d7e4487, 0x6f38fade, 0x6efa90e9,
  0x6bb5866c, 0x6a77ec5b, 0x68315202, 0x69f33835,
  0x62af7f08, 0x636d153f, 0x612bab66, 0x60e9c151,
  0x65a6d7d4, 0x6464bde3, 0x662203ba, 0x67e0698d,
  0x48d7cb20, 0x4915a117, 0x4b531f4e, 0x4a917579,
  0x4fde63fc, 0x4e1c09cb, 0x4c5ab792, 0x4d98dda5,
  0x46c49a98, 0x4706f0af, 0x45404ef6, 0x448224c1,
  0x41cd3244, 0x400f5873, 0x4249e62a, 0x438b8c1d,
  0x54f16850, 0x55330267, 0x5775bc3e, 0x56b7d609,
  0x53f8c08c, 0x523aaabb, 0x507c14e2, 0x51be7ed5,
  0x5ae239e8, 0x5b2053df, 0x5966ed86, 0x58a487b1,
  0x5deb9134, 0x5c29fb03, 0x5e6f455a, 0x5fad2f6d,
  0xe1351b80, 0xe0f771b7, 0xe2b1cfee, 0xe373a5d9,
  0xe63cb35c, 0xe7fed96b, 0xe5b86732, 0xe47a0d05,
  0xef264a38, 0xeee4200f, 0xeca29e56, 0xed60f461,
  0xe82fe2e4, 0xe9ed88d3, 0xebab368a, 0xea695cbd,
  0xfd13b8f0, 0xfcd1d2c7, 0xfe976c9e, 0xff5506a9,
  0xfa1a102c, 0xfbd87a1b, 0xf99ec442, 0xf85cae75,
  0xf300e948, 0xf2c2837f, 0xf0843d26, 0xf1465711,
  0xf4094194, 0xf5cb2ba3, 0xf78d95fa, 0xf64fffcd,
  0xd9785d60, 0xd8ba3757, 0xdafc890e, 0xdb3ee339,
  0xde71f5bc, 0xdfb39f8b, 0xddf521d2, 0xdc374be5,
  0xd76b0cd8, 0xd6a966ef, 0xd4efd8b6, 0xd52db281,
  0xd062a404, 0xd1a0ce33, 0xd3e6706a, 0xd2241a5d,
  0xc55efe10, 0xc49c9427, 0xc6da2a7e, 0xc7184049,
  0xc25756cc, 0xc3953cfb, 0xc1d382a2, 0xc011e895,
  0xcb4dafa8, 0xca8fc59f, 0xc8c97bc6, 0xc90b11f1,
  0xcc440774, 0xcd866d43, 0xcfc0d31a, 0xce02b92d,
  0x91af9640, 0x906dfc77, 0x922b422e, 0x93e92819,
  0x96a63e9c, 0x976454ab, 0x9522eaf2, 0x94e080c5,
  0x9fbcc7f8, 0x9e7eadcf, 0x9c381396, 0x9dfa79a1,
  0x98b56f24, 0x99770513, 0x9b31bb4a, 0x9af3d17d,
  0x8d893530, 0x8c4b5f07, 0x8e0de15e, 0x8fcf8b69,
  0x8a809dec, 0x8b42f7db, 0x89044982, 0x88c623b5,
  0x839a6488, 0x82580ebf, 0x801eb0e6, 0x81dcdad1,
  0x8493cc54, 0x8551a663, 0x8717183a, 0x86d5720d,
  0xa9e2d0a0, 0xa820ba97, 0xaa6604ce, 0xaba46ef9,
  0xaeeb787c, 0xaf29124b, 0xad6fac12, 0xacadc625,
  0xa7f18118, 0xa633eb2f, 0xa4755576, 0xa5b73f41,
  0xa0f829c4, 0xa13a43f3, 0xa37cfdaa, 0xa2be979d,
  0xb5c473d0, 0xb40619e7, 0xb640a7be, 0xb782cd89,
  0xb2cddb0c, 0xb30fb13b, 0xb1490f62, 0xb08b6555,
  0xbbd72268, 0xba15485f, 0xb853f606, 0xb9919c31,
  0xbcde8ab4, 0xbd1ce083, 0xbf5a5eda, 0xbe9834ed,
  0x00000000, 0xb8bc6765, 0xaa09c88b, 0x12b5afee,
  0x8f629757, 0x37def032, 0x256b5fdc, 0x9dd738b9,
  0xc5b428ef, 0x7d084f8a, 0x6fbde064, 0xd7018701,
  0x4ad6bfb8, 0xf26ad8dd, 0xe0df7733, 0x58631056,
  0x5019579f, 0xe8a530fa, 0xfa109f14, 0x42acf871,
  0xdf7bc0c8, 0x67c7a7ad, 0x75720843, 0xcdce6f26,
  0x95ad7f70, 0x2d111815, 0x3fa4b7fb, 0x8718d09e,
  0x1acfe827, 0xa2738f42, 0xb0c620ac, 0x087a47c9,
  0xa032af3e, 0x188ec85b, 0x0a3b67b5, 0xb28700d0,
  0x2f503869, 0x97ec5f0c, 0x8559f0e2, 0x3de59787,
  0x658687d1, 0xdd3ae0b4, 0xcf8f4f5a, 0x7733283f,
  0xeae41086, 0x525877e3, 0x40edd80d, 0xf851bf68,
  0xf02bf8a1, 0x48979fc4, 0x5a22302a, 0xe29e574f,
  0x7f496ff6, 0xc7f50893, 0xd540a77d, 0x6dfcc018,
  0x359fd04e, 0x8d23b72b, 0x9f9618c5, 0x272a7fa0,
  0xbafd4719, 0x0241207c, 0x10f48f92, 0xa848e8f7,
  0x9b14583d, 0x23a83f58, 0x311d90b6, 0x89a1f7d3,
  0x1476cf6a, 0xaccaa80f, 0xbe7f07e1, 0x06c36084,
  0x5ea070d2, 0xe61c17b7, 0xf4a9b859, 0x4c15df3c,
  0xd1c2e785, 0x697e80e0, 0x7bcb2f0e, 0xc377486b,
  0xcb0d0fa2, 0x73b168c7, 0x6104c729, 0xd9b8a04c,
  0x446f98f5, 0xfcd3ff90, 0xee66507e, 0x56da371b,
  0x0eb9274d, 0xb6054028, 0xa4b0efc6, 0x1c0c88a3,
  0x81dbb01a, 0x3967d77f, 0x2bd27891, 0x936e1ff4,
  0x3b26f703, 0x839a9066, 0x912f3f88, 0x299358ed,
  0xb4446054, 0x0cf80731, 0x1e4da8df, 0xa6f1cfba,
  0xfe92dfec, 0x462eb889, 0x549b1767, 0xec277002,
  0x71f048bb, 0xc94c2fde, 0xdbf98030, 0x6345e755,
  0x6b3fa09c, 0xd383c7f9, 0xc1366817, 0x798a0f72,
  0xe45d37cb, 0x5ce150ae, 0x4e54ff40, 0xf6e89825,
  0xae8b8873, 0x1637ef16, 0x048240f8, 0xbc3e279d,
  0x21e91f24, 0x99557841, 0x8be0d7af, 0x335cb0ca,
  0xed59b63b, 0x55e5d15e, 0x47507eb0, 0xffec19d5,
  0x623b216c, 0xda874609, 0xc832e9e7, 0x708e8e82,
  0x28ed9ed4, 0x9051f9b1, 0x82e4565f, 0x3a58313a,
  0xa78f0983, 0x1f336ee6, 0x0d86c108, 0xb53aa66d,
  0xbd40e1a4, 0x05fc86c1, 0x1749292f, 0xaff54e4a,
  0x322276f3, 0x8a9e1196, 0x982bbe78, 0x2097d91d,
  0x78f4c94b, 0xc048ae2e, 0xd2fd01c0, 0x6a4166a5,
  0xf7965e1c, 0x4f2a3979, 0x5d9f9697, 0xe523f1f2,
  0x4d6b1905, 0xf5d77e60, 0xe762d18e, 0x5fdeb6eb,
  0xc2098e52, 0x7ab5e937, 0x680046d9, 0xd0bc21bc,
  0x88df31ea, 0x3063568f, 0x22d6f961, 0x9a6a9e04,
  0x07bda6bd, 0xbf01c1d8, 0xadb46e36, 0x15080953,
  0x1d724e9a, 0xa5ce29ff, 0xb77b8611, 0x0fc7e174,
  0x9210d9cd, 0x2aacbea8, 0x38191146, 0x80a57623,
  0xd8c66675, 0x607a0110, 0x72cfaefe, 0xca73c99b,
  0x57a4f122, 0xef189647, 0xfdad39a9, 0x45115ecc,
  0x764dee06, 0xcef18963, 0xdc44268d, 0x64f841e8,
  0xf92f7951, 0x41931e34, 0x5326b1da, 0xeb9ad6bf,
  0xb3f9c6e9, 0x0b45a18c, 0x19f00e62, 0xa14c6907,
  0x3c9b51be, 0x842736db, 0x96929935, 0x2e2efe50,
  0x2654b999, 0x9ee8defc, 0x8c5d7112, 0x34e11677,
  0xa9362ece, 0x118a49ab, 0x033fe645, 0xbb838120,
  0xe3e09176, 0x5b5cf613, 0x49e959fd, 0xf1553e98,
  0x6c820621, 0xd43e6144, 0xc68bceaa, 0x7e37a9cf,
  0xd67f4138, 0x6ec3265d, 0x7c7689b3, 0xc4caeed6,
  0x591dd66f, 0xe1a1b10a, 0xf3141ee4, 0x4ba87981,
  0x13cb69d7, 0xab770eb2, 0xb9c2a15c, 0x017ec639,
  0x9ca9fe80, 0x241599e5, 0x36a0360b, 0x8e1c516e,
  0x866616a7, 0x3eda71c2, 0x2c6fde2c, 0x94d3b949,
  0x090481f0, 0xb1b8e695, 0xa30d497b, 0x1bb12e1e,
  0x43d23e48, 0xfb6e592d, 0xe9dbf6c3, 0x516791a6,
  0xccb0a91f, 0x740cce7a, 0x66b96194, 0xde0506f1
]

/-- The function `crc32_next`. -/
def crc32_next (crc data : Nat) : Nat :=
  (crc >>> 8) ^^^ crc32_table.getD ((crc &&& 0xff) ^^^ data) 0

/-- The function `crc32_next4`: process 4 bytes in one go. -/
def crc32_next4 (crc data : Nat) : Nat :=
  let crc := crc ^^^ data
  crc32_table.getD ((crc &&& 0xff) + 0x300) 0 ^^^
    crc32_table.getD (((crc >>> 8) &&& 0xff) + 0x200) 0 ^^^
    crc32_table.getD (((crc >>> 16) &&& 0xff) + 0x100) 0 ^^^
    crc32_table.getD ((crc >>> 24) &&& 0xff) 0

/-- The function `crc32_init`; `hwf` is the value of `_gcry_get_hw_features ()`,
and the unused `flags` argument is left out.  The output buffer is not touched. -/
def crc32_init (P : Platform) (hwf : Nat) (ctx : CRC_CONTEXT) : CRC_CONTEXT :=
  let ctx := if P.USE_INTEL_PCLMUL then
    { ctx with use_pclmul :=
        (hwf &&& P.HWF_INTEL_SSE4_1 != 0) && (hwf &&& P.HWF_INTEL_PCLMUL != 0) }
    else ctx
  let ctx := if P.USE_ARM_PMULL then
    { ctx with use_pmull := (hwf &&& P.HWF_ARM_NEON != 0) && (hwf &&& P.HWF_ARM_PMULL != 0) }
    else ctx
  let ctx := if P.USE_PPC_VPMSUM then
    { ctx with use_vpmsum := (hwf &&& P.HWF_PPC_ARCH_2_07 != 0) }
    else ctx
  { ctx with CRC := 0 ^^^ 0xffffffff }

/-- The first loop of `crc32_write`, `while (inlen >= 16)`: returns the
register, the advanced pointer and the remaining length. -/
def crc32_write_while16 : Nat → Nat → List Nat → Nat × List Nat × Nat
  | inlen + 16, crc, inbuf =>
    let crc := crc32_next4 crc (buf_get_le32 inbuf)
    let crc := crc32_next4 crc (buf_get_le32 (inbuf.drop 4))
    let crc := crc32_next4 crc (buf_get_le32 (inbuf.drop 8))
    let crc := crc32_next4 crc (buf_get_le32 (inbuf.drop 12))
    crc32_write_while16 inlen crc (inbuf.drop 16)
  | inlen, crc, inbuf => (crc, inbuf, inlen)

/-- The second loop of `crc32_write`, `while (inlen >= 4)`. -/
def crc32_write_while4 : Nat → Nat → List Nat → Nat × List Nat × Nat
  | inlen + 4, crc, inbuf =>
    crc32_write_while4 inlen (crc32_next4 crc (buf_get_le32 inbuf)) (inbuf.drop 4)
  | inlen, crc, inbuf => (crc, inbuf, inlen)

/-- The last loop of `crc32_write`, `while (inlen--)`: returns the register. -/
def crc32_write_while1 : Nat → Nat → List Nat → Nat
  | inlen + 1, crc, inbuf =>
    crc32_write_while1 inlen (crc32_next crc (inbuf.getD 0 0)) (inbuf.drop 1)
  | 0, crc, _ => crc

/-- The function `crc32_write`: the write operation of CRC-32 and of
CRC-32/RFC1510. -/
def crc32_write (P : Platform) (ctx : CRC_CONTEXT) (inbuf : Option (List Nat))
    (inlen : Nat) : CRC_CONTEXT :=
  if P.USE_INTEL_PCLMUL && ctx.use_pclmul then
    { ctx with CRC := P._gcry_crc32_intel_pclmul ctx.CRC inbuf inlen }
  else if P.USE_ARM_PMULL && ctx.use_pmull then
    { ctx with CRC := P._gcry_crc32_armv8_ce_pmull ctx.CRC inbuf inlen }
  else if P.USE_PPC_VPMSUM && ctx.use_vpmsum then
    { ctx with CRC := P._gcry_crc32_ppc8_vpmsum ctx.CRC inbuf inlen }
  else
    match inbuf with
    | none => ctx
    | some inbuf =>
      if inlen = 0 then ctx
      else
        let crc := ctx.CRC
        let (crc, inbuf, inlen) := crc32_write_while16 inlen crc inbuf
        let (crc, inbuf, inlen) := crc32_write_while4 inlen crc inbuf
        let crc := crc32_write_while1 inlen crc inbuf
        { ctx with CRC := crc }

/-- The function `crc32_read`: the read operation of all three variants. -/
def crc32_read (ctx : CRC_CONTEXT) : List Nat :=
  ctx.buf

/-- The function `crc32_final`. -/
def crc32_final (ctx : CRC_CONTEXT) : CRC_CONTEXT :=
  let ctx := { ctx with CRC := ctx.CRC ^^^ 0xffffffff }
  { ctx with buf := buf_put_be32 ctx.CRC }

/-! ## CRC-32 a la RFC 1510 -/

/-- The function `crc32rfc1510_init`, with `hwf` as in `crc32_init`. -/
def crc32rfc1510_init (P : Platform) (hwf : Nat) (ctx : CRC_CONTEXT) : CRC_CONTEXT :=
  let ctx := if P.USE_INTEL_PCLMUL then
    { ctx with use_pclmul :=
        (hwf &&& P.HWF_INTEL_SSE4_1 != 0) && (hwf &&& P.HWF_INTEL_PCLMUL != 0) }
    else ctx
  let ctx := if P.USE_ARM_PMULL then
    { ctx with use_pmull := (hwf &&& P.HWF_ARM_NEON != 0) && (hwf &&& P.HWF_ARM_PMULL != 0) }
    else ctx
  let ctx := if P.USE_PPC_VPMSUM then
    { ctx with use_vpmsum := (hwf &&& P.HWF_PPC_ARCH_2_07 != 0) }
    else ctx
  { ctx with CRC := 0 }

/-- The function `crc32rfc1510_final`. -/
def crc32rfc1510_final (ctx : CRC_CONTEXT) : CRC_CONTEXT :=
  { ctx with buf := buf_put_be32 ctx.CRC }

/-! ## CRC-24 a la RFC 2440 -/

/-- The table `crc24_table[1024]`. -/
def crc24_table : List Nat := [
  0x00000000, 0x00fb4c86, 0x000dd58a, 0x00f6990c,
  0x00e1e693, 0x001aaa15, 0x00ec3319, 0x00177f9f,
  0x003981a1, 0x00c2cd27, 0x0034542b, 0x00cf18ad,
  0x00d86732, 0x00232bb4, 0x00d5b2b8, 0x002efe3e,
  0x00894ec5, 0x00720243, 0x00849b4f, 0x007fd7c9,
  0x0068a856, 0x0093e4d0, 0x00657ddc, 0x009e315a,
  0x00b0cf64, 0x004b83e2, 0x00bd1aee, 0x00465668,
  0x005129f7, 0x00aa6571, 0x005cfc7d, 0x00a7b0fb,
  0x00e9d10c, 0x00129d8a, 0x00e40486, 0x001f4800,
  0x0008379f, 0x00f37b19, 0x0005e215, 0x00feae93,
  0x00d050ad, 0x002b1c2b, 0x00dd8527, 0x0026c9a1,
  0x0031b63e, 0x00cafab8, 0x003c63b4, 0x00c72f32,
  0x00609fc9, 0x009bd34f, 0x006d4a43, 0x009606c5,
  0x0081795a, 0x007a35dc, 0x008cacd0, 0x0077e056,
  0x00591e68, 0x00a252ee, 0x0054cbe2, 0x00af8764,
  0x00b8f8fb, 0x0043b47d, 0x00b52d71, 0x004e61f7,
  0x00d2a319, 0x0029ef9f, 0x00df7693, 0x00243a15,
  0x0033458a, 0x00c8090c, 0x003e9000, 0x00c5dc86,
  0x00eb22b8, 0x00106e3e, 0x00e6f732, 0x001dbbb4,
  0x000ac42b, 0x00f188ad, 0x000711a1, 0x00fc5d27,
  0x005beddc, 0x00a0a15a, 0x00563856, 0x00ad74d0,
  0x00ba0b4f, 0x004147c9, 0x00b7dec5, 0x004c9243,
  0x00626c7d, 0x009920fb, 0x006fb9f7, 0x0094f571,
  0x00838aee, 0x0078c668, 0x008e5f64, 0x007513e2,
  0x003b7215, 0x00c03e93, 0x0036a79f, 0x00cdeb19,
  0x00da9486, 0x0021d800, 0x00d7410c, 0x002c0d8a,
  0x0002f3b4, 0x00f9bf32, 0x000f263e, 0x00f46ab8,
  0x00e31527, 0x001859a1, 0x00eec0ad, 0x00158c2b,
  0x00b23cd0, 0x00497056, 0x00bfe95a, 0x0044a5dc,
  0x0053da43, 0x00a896c5, 0x005e0fc9, 0x00a5434f,
  0x008bbd71, 0x0070f1f7, 0x008668fb, 0x007d247d,
  0x006a5be2, 0x00911764, 0x00678e68, 0x009cc2ee,
  0x00a44733, 0x005f0bb5, 0x00a992b9, 0x0052de3f,
  0x0045a1a0, 0x00beed26, 0x0048742a, 0x00b338ac,
  0x009dc692, 0x00668a14, 0x00901318, 0x006b5f9e,
  0x007c2001, 0x00876c87, 0x0071f58b, 0x008ab90d,
  0x002d09f6, 0x00d64570, 0x0020dc7c, 0x00db90fa,
  0x00ccef65, 0x0037a3e3, 0x00c13aef, 0x003a7669,
  0x00148857, 0x00efc4d1, 0x00195ddd, 0x00e2115b,
  0x00f56ec4, 0x000e2242, 0x00f8bb4e, 0x0003f7c8,
  0x004d963f, 0x00b6dab9, 0x004043b5, 0x00bb0f33,
  0x00ac70ac, 0x00573c2a, 0x00a1a526, 0x005ae9a0,
  0x0074179e, 0x008f5b18, 0x0079c214, 0x00828e92,
  0x0095f10d, 0x006ebd8b, 0x00982487, 0x00636801,
  0x00c4d8fa, 0x003f947c, 0x00c90d70, 0x003241f6,
  0x00253e69, 0x00de72ef, 0x0028ebe3, 0x00d3a765,
  0x00fd595b, 0x000615dd, 0x00f08cd1, 0x000bc057,
  0x001cbfc8, 0x00e7f34e, 0x00116a42, 0x00ea26c4,
  0x0076e42a, 0x008da8ac, 0x007b31a0, 0x00807d26,
  0x009702b9, 0x006c4e3f, 0x009ad733, 0x00619bb5,
  0x004f658b, 0x00b4290d, 0x0042b001, 0x00b9fc87,
  0x00ae8318, 0x0055cf9e, 0x00a35692, 0x00581a14,
  0x00ffaaef, 0x0004e669, 0x00f27f65, 0x000933e3,
  0x001e4c7c, 0x00e500fa, 0x001399f6, 0x00e8d570,
  0x00c62b4e, 0x003d67c8, 0x00cbfec4, 0x0030b242,
  0x0027cddd, 0x00dc815b, 0x002a1857, 0x00d154d1,
  0x009f3526, 0x006479a0, 0x0092e0ac, 0x0069ac2a,
  0x007ed3b5, 0x00859f33, 0x0073063f, 0x00884ab9,
  0x00a6b487, 0x005df801, 0x00ab610d, 0x00502d8b,
  0x00475214, 0x00bc1e92, 0x004a879e, 0x00b1cb18,
  0x00167be3, 0x00ed3765, 0x001bae69, 0x00e0e2ef,
  0x00f79d70, 0x000cd1f6, 0x00fa48fa, 0x0001047c,
  0x002ffa42, 0x00d4b6c4, 0x00222fc8, 0x00d9634e,
  0x00ce1cd1, 0x00355057, 0x00c3c95b, 0x003885dd,
  0x00000000, 0x00488f66, 0x00901ecd, 0x00d891ab,
  0x00db711c, 0x0093fe7a, 0x004b6fd1, 0x0003e0b7,
  0x00b6e338, 0x00fe6c5e, 0x0026fdf5, 0x006e7293,
  0x006d9224, 0x00251d42, 0x00fd8ce9, 0x00b5038f,
  0x006cc771, 0x00244817, 0x00fcd9bc, 0x00b456da,
  0x00b7b66d, 0x00ff390b, 0x0027a8a0, 0x006f27c6,
  0x00da2449, 0x0092ab2f, 0x004a3a84, 0x0002b5e2,
  0x00015555, 0x0049da33, 0x00914b98, 0x00d9c4fe,
  0x00d88ee3, 0x00900185, 0x0048902e, 0x00001f48,
  0x0003ffff, 0x004b7099, 0x0093e132, 0x00db6e54,
  0x006e6ddb, 0x0026e2bd, 0x00fe7316, 0x00b6fc70,
  0x00b51cc7, 0x00fd93a1, 0x0025020a, 0x006d8d6c,
  0x00b44992, 0x00fcc6f4, 0x0024575f, 0x006cd839,
  0x006f388e, 0x0027b7e8, 0x00ff2643, 0x00b7a925,
  0x0002aaaa, 0x004a25cc, 0x0092b467, 0x00da3b01,
  0x00d9dbb6, 0x009154d0, 0x0049c57b, 0x00014a1d,
  0x004b5141, 0x0003de27, 0x00db4f8c, 0x0093c0ea,
  0x0090205d, 0x00d8af3b, 0x00003e90, 0x0048b1f6,
  0x00fdb279, 0x00b53d1f, 0x006dacb4, 0x002523d2,
  0x0026c365, 0x006e4c03, 0x00b6dda8, 0x00fe52ce,
  0x00279630, 0x006f1956, 0x00b788fd, 0x00ff079b,
  0x00fce72c, 0x00b4684a, 0x006cf9e1, 0x00247687,
  0x00917508, 0x00d9fa6e, 0x00016bc5, 0x0049e4a3,
  0x004a0414, 0x00028b72, 0x00da1ad9, 0x009295bf,
  0x0093dfa2, 0x00db50c4, 0x0003c16f, 0x004b4e09,
  0x0048aebe, 0x000021d8, 0x00d8b073, 0x00903f15,
  0x00253c9a, 0x006db3fc, 0x00b52257, 0x00fdad31,
  0x00fe4d86, 0x00b6c2e0, 0x006e534b, 0x0026dc2d,
  0x00ff18d3, 0x00b797b5, 0x006f061e, 0x00278978,
  0x002469cf, 0x006ce6a9, 0x00b47702, 0x00fcf864,
  0x0049fbeb, 0x0001748d, 0x00d9e526, 0x00916a40,
  0x00928af7, 0x00da0591, 0x0002943a, 0x004a1b5c,
  0x0096a282, 0x00de2de4, 0x0006bc4f, 0x004e3329,
  0x004dd39e, 0x00055cf8, 0x00ddcd53, 0x00954235,
  0x002041ba, 0x0068cedc, 0x00b05f77, 0x00f8d011,
  0x00fb30a6, 0x00b3bfc0, 0x006b2e6b, 0x0023a10d,
  0x00fa65f3, 0x00b2ea95, 0x006a7b3e, 0x0022f458,
  0x002114ef, 0x00699b89, 0x00b10a22, 0x00f98544,
  0x004c86cb, 0x000409ad, 0x00dc9806, 0x00941760,
  0x0097f7d7, 0x00df78b1, 0x0007e91a, 0x004f667c,
  0x004e2c61, 0x0006a307, 0x00de32ac, 0x0096bdca,
  0x00955d7d, 0x00ddd21b, 0x000543b0, 0x004dccd6,
  0x00f8cf59, 0x00b0403f, 0x0068d194, 0x00205ef2,
  0x0023be45, 0x006b3123, 0x00b3a088, 0x00fb2fee,
  0x0022eb10, 0x006a6476, 0x00b2f5dd, 0x00fa7abb,
  0x00f99a0c, 0x00b1156a, 0x006984c1, 0x00210ba7,
  0x00940828, 0x00dc874e, 0x000416e5, 0x004c9983,
  0x004f7934, 0x0007f652, 0x00df67f9, 0x0097e89f,
  0x00ddf3c3, 0x00957ca5, 0x004ded0e, 0x00056268,
  0x000682df, 0x004e0db9, 0x00969c12, 0x00de1374,
  0x006b10fb, 0x00239f9d, 0x00fb0e36, 0x00b38150,
  0x00b061e7, 0x00f8ee81, 0x00207f2a, 0x0068f04c,
  0x00b134b2, 0x00f9bbd4, 0x00212a7f, 0x0069a519,
  0x006a45ae, 0x0022cac8, 0x00fa5b63, 0x00b2d405,
  0x0007d78a, 0x004f58ec, 0x0097c947, 0x00df4621,
  0x00dca696, 0x009429f0, 0x004cb85b, 0x0004373d,
  0x00057d20, 0x004df246, 0x009563ed, 0x00ddec8b,
  0x00de0c3c, 0x0096835a, 0x004e12f1, 0x00069d97,
  0x00b39e18, 0x00fb117e, 0x002380d5, 0x006b0fb3,
  0x0068ef04, 0x00206062, 0x00f8f1c9, 0x00b07eaf,
  0x0069ba51, 0x00213537, 0x00f9a49c, 0x00b12bfa,
  0x00b2cb4d, 0x00fa442b, 0x0022d580, 0x006a5ae6,
  0x00df5969, 0x0097d60f, 0x004f47a4, 0x0007c8c2,
  0x00042875, 0x004ca713, 0x009436b8, 0x00dcb9de,
  0x00000000, 0x00d70983, 0x00555f80, 0x00825603,
  0x0051f286, 0x0086fb05, 0x0004ad06, 0x00d3a485,
  0x0059a88b, 0x008ea108, 0x000cf70b, 0x00dbfe88,
  0x00085a0d, 0x00df538e, 0x005d058d, 0x008a0c0e,
  0x00491c91, 0x009e1512, 0x001c4311, 0x00cb4a92,
  0x0018ee17, 0x00cfe794, 0x004db197, 0x009ab814,
  0x0010b41a, 0x00c7bd99, 0x0045eb9a, 0x0092e219,
  0x0041469c, 0x00964f1f, 0x0014191c, 0x00c3109f,
  0x006974a4, 0x00be7d27, 0x003c2b24, 0x00eb22a7,
  0x00388622, 0x00ef8fa1, 0x006dd9a2, 0x00bad021,
  0x0030dc2f, 0x00e7d5ac, 0x006583af, 0x00b28a2c,
  0x00612ea9, 0x00b6272a, 0x00347129, 0x00e378aa,
  0x00206835, 0x00f761b6, 0x007537b5, 0x00a23e36,
  0x00719ab3, 0x00a69330, 0x0024c533, 0x00f3ccb0,
  0x0079c0be, 0x00aec93d, 0x002c9f3e, 0x00fb96bd,
  0x00283238, 0x00ff3bbb, 0x007d6db8, 0x00aa643b,
  0x0029a4ce, 0x00fead4d, 0x007cfb4e, 0x00abf2cd,
  0x00785648, 0x00af5fcb, 0x002d09c8, 0x00fa004b,
  0x00700c45, 0x00a705c6, 0x002553c5, 0x00f25a46,
  0x0021fec3, 0x00f6f740, 0x0074a143, 0x00a3a8c0,
  0x0060b85f, 0x00b7b1dc, 0x0035e7df, 0x00e2ee5c,
  0x00314ad9, 0x00e6435a, 0x00641559, 0x00b31cda,
  0x003910d4, 0x00ee1957, 0x006c4f54, 0x00bb46d7,
  0x0068e252, 0x00bfebd1, 0x003dbdd2, 0x00eab451,
  0x0040d06a, 0x0097d9e9, 0x00158fea, 0x00c28669,
  0x001122ec, 0x00c62b6f, 0x00447d6c, 0x009374ef,
  0x001978e1, 0x00ce7162, 0x004c2761, 0x009b2ee2,
  0x00488a67, 0x009f83e4, 0x001dd5e7, 0x00cadc64,
  0x0009ccfb, 0x00dec578, 0x005c937b, 0x008b9af8,
  0x00583e7d, 0x008f37fe, 0x000d61fd, 0x00da687e,
  0x00506470, 0x00876df3, 0x00053bf0, 0x00d23273,
  0x000196f6, 0x00d69f75, 0x0054c976, 0x0083c0f5,
  0x00a9041b, 0x007e0d98, 0x00fc5b9b, 0x002b5218,
  0x00f8f69d, 0x002fff1e, 0x00ada91d, 0x007aa09e,
  0x00f0ac90, 0x0027a513, 0x00a5f310, 0x0072fa93,
  0x00a15e16, 0x00765795, 0x00f40196, 0x00230815,
  0x00e0188a, 0x00371109, 0x00b5470a, 0x00624e89,
  0x00b1ea0c, 0x0066e38f, 0x00e4b58c, 0x0033bc0f,
  0x00b9b001, 0x006eb982, 0x00ecef81, 0x003be602,
  0x00e84287, 0x003f4b04, 0x00bd1d07, 0x006a1484,
  0x00c070bf, 0x0017793c, 0x00952f3f, 0x004226bc,
  0x00918239, 0x00468bba, 0x00c4ddb9, 0x0013d43a,
  0x0099d834, 0x004ed1b7, 0x00cc87b4, 0x001b8e37,
  0x00c82ab2, 0x001f2331, 0x009d7532, 0x004a7cb1,
  0x00896c2e, 0x005e65ad, 0x00dc33ae, 0x000b3a2d,
  0x00d89ea8, 0x000f972b, 0x008dc128, 0x005ac8ab,
  0x00d0c4a5, 0x0007cd26, 0x00859b25, 0x005292a6,
  0x00813623, 0x00563fa0, 0x00d469a3, 0x00036020,
  0x0080a0d5, 0x0057a956, 0x00d5ff55, 0x0002f6d6,
  0x00d15253, 0x00065bd0, 0x00840dd3, 0x00530450,
  0x00d9085e, 0x000e01dd, 0x008c57de, 0x005b5e5d,
  0x0088fad8, 0x005ff35b, 0x00dda558, 0x000aacdb,
  0x00c9bc44, 0x001eb5c7, 0x009ce3c4, 0x004bea47,
  0x00984ec2, 0x004f4741, 0x00cd1142, 0x001a18c1,
  0x009014cf, 0x00471d4c, 0x00c54b4f, 0x001242cc,
  0x00c1e649, 0x0016efca, 0x0094b9c9, 0x0043b04a,
  0x00e9d471, 0x003eddf2, 0x00bc8bf1, 0x006b8272,
  0x00b826f7, 0x006f2f74, 0x00ed7977, 0x003a70f4,
  0x00b07cfa, 0x00677579, 0x00e5237a, 0x00322af9,
  0x00e18e7c, 0x003687ff, 0x00b4d1fc, 0x0063d87f,
  0x00a0c8e0, 0x0077c163, 0x00f59760, 0x00229ee3,
  0x00f13a66, 0x002633e5, 0x00a465e6, 0x00736c65,
  0x00f9606b, 0x002e69e8, 0x00ac3feb, 0x007b3668,
  0x00a892ed, 0x007f9b6e, 0x00fdcd6d, 0x002ac4ee,
  0x00000000, 0x00520936, 0x00a4126c, 0x00f61b5a,
  0x004825d8, 0x001a2cee, 0x00ec37b4, 0x00be3e82,
  0x006b0636, 0x00390f00, 0x00cf145a, 0x009d1d6c,
  0x002323ee, 0x00712ad8, 0x00873182, 0x00d538b4,
  0x00d60c6c, 0x0084055a, 0x00721e00, 0x00201736,
  0x009e29b4, 0x00cc2082, 0x003a3bd8, 0x006832ee,
  0x00bd0a5a, 0x00ef036c, 0x00191836, 0x004b1100,
  0x00f52f82, 0x00a726b4, 0x00513dee, 0x000334d8,
  0x00ac19d8, 0x00fe10ee, 0x00080bb4, 0x005a0282,
  0x00e43c00, 0x00b63536, 0x00402e6c, 0x0012275a,
  0x00c71fee, 0x009516d8, 0x00630d82, 0x003104b4,
  0x008f3a36, 0x00dd3300, 0x002b285a, 0x0079216c,
  0x007a15b4, 0x00281c82, 0x00de07d8, 0x008c0eee,
  0x0032306c, 0x0060395a, 0x00962200, 0x00c42b36,
  0x00111382, 0x00431ab4, 0x00b501ee, 0x00e708d8,
  0x0059365a, 0x000b3f6c, 0x00fd2436, 0x00af2d00,
  0x00a37f36, 0x00f17600, 0x00076d5a, 0x0055646c,
  0x00eb5aee, 0x00b953d8, 0x004f4882, 0x001d41b4,
  0x00c87900, 0x009a7036, 0x006c6b6c, 0x003e625a,
  0x00805cd8, 0x00d255ee, 0x00244eb4, 0x00764782,
  0x0075735a, 0x00277a6c, 0x00d16136, 0x00836800,
  0x003d5682, 0x006f5fb4, 0x009944ee, 0x00cb4dd8,
  0x001e756c, 0x004c7c5a, 0x00ba6700, 0x00e86e36,
  0x005650b4, 0x00045982, 0x00f242d8, 0x00a04bee,
  0x000f66ee, 0x005d6fd8, 0x00ab7482, 0x00f97db4,
  0x00474336, 0x00154a00, 0x00e3515a, 0x00b1586c,
  0x006460d8, 0x003669ee, 0x00c072b4, 0x00927b82,
  0x002c4500, 0x007e4c36, 0x0088576c, 0x00da5e5a,
  0x00d96a82, 0x008b63b4, 0x007d78ee, 0x002f71d8,
  0x00914f5a, 0x00c3466c, 0x00355d36, 0x00675400,
  0x00b26cb4, 0x00e06582, 0x00167ed8, 0x004477ee,
  0x00fa496c, 0x00a8405a, 0x005e5b00, 0x000c5236,
  0x0046ff6c, 0x0014f65a, 0x00e2ed00, 0x00b0e436,
  0x000edab4, 0x005cd382, 0x00aac8d8, 0x00f8c1ee,
  0x002df95a, 0x007ff06c, 0x0089eb36, 0x00dbe200,
  0x0065dc82, 0x0037d5b4, 0x00c1ceee, 0x0093c7d8,
  0x0090f300, 0x00c2fa36, 0x0034e16c, 0x0066e85a,
  0x00d8d6d8, 0x008adfee, 0x007cc4b4, 0x002ecd82,
  0x00fbf536, 0x00a9fc00, 0x005fe75a, 0x000dee6c,
  0x00b3d0ee, 0x00e1d9d8, 0x0017c282, 0x0045cbb4,
  0x00eae6b4, 0x00b8ef82, 0x004ef4d8, 0x001cfdee,
  0x00a2c36c, 0x00f0ca5a, 0x0006d100, 0x0054d836,
  0x0081e082, 0x00d3e9b4, 0x0025f2ee, 0x0077fbd8,
  0x00c9c55a, 0x009bcc6c, 0x006dd736, 0x003fde00,
  0x003cead8, 0x006ee3ee, 0x0098f8b4, 0x00caf182,
  0x0074cf00, 0x0026c636, 0x00d0dd6c, 0x0082d45a,
  0x0057ecee, 0x0005e5d8, 0x00f3fe82, 0x00a1f7b4,
  0x001fc936, 0x004dc000, 0x00bbdb5a, 0x00e9d26c,
  0x00e5805a, 0x00b7896c, 0x00419236, 0x00139b00,
  0x00ada582, 0x00ffacb4, 0x0009b7ee, 0x005bbed8,
  0x008e866c, 0x00dc8f5a, 0x002a9400, 0x00789d36,
  0x00c6a3b4, 0x0094aa82, 0x0062b1d8, 0x0030b8ee,
  0x00338c36, 0x00618500, 0x00979e5a, 0x00c5976c,
  0x007ba9ee, 0x0029a0d8, 0x00dfbb82, 0x008db2b4,
  0x00588a00, 0x000a8336, 0x00fc986c, 0x00ae915a,
  0x0010afd8, 0x0042a6ee, 0x00b4bdb4, 0x00e6b482,
  0x00499982, 0x001b90b4, 0x00ed8bee, 0x00bf82d8,
  0x0001bc5a, 0x0053b56c, 0x00a5ae36, 0x00f7a700,
  0x00229fb4, 0x00709682, 0x00868dd8, 0x00d484ee,
  0x006aba6c, 0x0038b35a, 0x00cea800, 0x009ca136,
  0x009f95ee, 0x00cd9cd8, 0x003b8782, 0x00698eb4,
  0x00d7b036, 0x0085b900, 0x0073a25a, 0x0021ab6c,
  0x00f493d8, 0x00a69aee, 0x005081b4, 0x00028882,
  0x00bcb600, 0x00eebf36, 0x0018a46c, 0x004aad5a
]

/-- The function `crc24_init`: the seed, `_gcry_bswap (0xb704ce << 8)`. -/
def crc24_init : Nat :=
  0xce04b7

/-- The function `crc24_next`. -/
def crc24_next (crc data : Nat) : Nat :=
  (crc >>> 8) ^^^ crc24_table.getD ((crc &&& 0xff) ^^^ data) 0

/-- The function `crc24_next4`: process 4 bytes in one go.  The last lookup
is indexed by the high byte of `data`, not of `crc ^ data`. -/
def crc24_next4 (crc data : Nat) : Nat :=
  let crc := crc ^^^ data
  crc24_table.getD ((crc &&& 0xff) + 0x300) 0 ^^^
    crc24_table.getD (((crc >>> 8) &&& 0xff) + 0x200) 0 ^^^
    crc24_table.getD (((crc >>> 16) &&& 0xff) + 0x100) 0 ^^^
    crc24_table.getD ((data >>> 24) &&& 0xff) 0

/-- The function `crc24_final`. -/
def crc24_final (crc : Nat) : Nat :=
  crc &&& 0xffffff

/-- The function `crc24rfc2440_init`, with `hwf` as in `crc32_init`. -/
def crc24rfc2440_init (P : Platform) (hwf : Nat) (ctx : CRC_CONTEXT) : CRC_CONTEXT :=
  let ctx := if P.USE_INTEL_PCLMUL then
    { ctx with use_pclmul :=
        (hwf &&& P.HWF_INTEL_SSE4_1 != 0) && (hwf &&& P.HWF_INTEL_PCLMUL != 0) }
    else ctx
  let ctx := if P.USE_ARM_PMULL then
    { ctx with use_pmull := (hwf &&& P.HWF_ARM_NEON != 0) && (hwf &&& P.HWF_ARM_PMULL != 0) }
    else ctx
  let ctx := if P.USE_PPC_VPMSUM then
    { ctx with use_vpmsum := (hwf &&& P.HWF_PPC_ARCH_2_07 != 0) }
    else ctx
  { ctx with CRC := crc24_init }

/-- The first loop of `crc24rfc2440_write`, `while (inlen >= 16)`. -/
def crc24rfc2440_write_while16 : Nat → Nat → List Nat → Nat × List Nat × Nat
  | inlen + 16, crc, inbuf =>
    let crc := crc24_next4 crc (buf_get_le32 inbuf)
    let crc := crc24_next4 crc (buf_get_le32 (inbuf.drop 4))
    let crc := crc24_next4 crc (buf_get_le32 (inbuf.drop 8))
    let crc := crc24_next4 crc (buf_get_le32 (inbuf.drop 12))
    crc24rfc2440_write_while16 inlen crc (inbuf.drop 16)
  | inlen, crc, inbuf => (crc, inbuf, inlen)

/-- The second loop of `crc24rfc2440_write`, `while (inlen >= 4)`. -/
def crc24rfc2440_write_while4 : Nat → Nat → List Nat → Nat × List Nat × Nat
  | inlen + 4, crc, inbuf =>
    crc24rfc2440_write_while4 inlen (crc24_next4 crc (buf_get_le32 inbuf)) (inbuf.drop 4)
  | inlen, crc, inbuf => (crc, inbuf, inlen)

/-- The last loop of `crc24rfc2440_write`, `while (inlen--)`. -/
def crc24rfc2440_write_while1 : Nat → Nat → List Nat → Nat
  | inlen + 1, crc, inbuf =>
    crc24rfc2440_write_while1 inlen (crc24_next crc (inbuf.getD 0 0)) (inbuf.drop 1)
  | 0, crc, _ => crc

/-- The function `crc24rfc2440_write`. -/
def crc24rfc2440_write (P : Platform) (ctx : CRC_CONTEXT) (inbuf : Option (List Nat))
    (inlen : Nat) : CRC_CONTEXT :=
  if P.USE_INTEL_PCLMUL && ctx.use_pclmul then
    { ctx with CRC := P._gcry_crc24rfc2440_intel_pclmul ctx.CRC inbuf inlen }
  else if P.USE_ARM_PMULL && ctx.use_pmull then
    { ctx with CRC := P._gcry_crc24rfc2440_armv8_ce_pmull ctx.CRC inbuf inlen }
  else if P.USE_PPC_VPMSUM && ctx.use_vpmsum then
    { ctx with CRC := P._gcry_crc24rfc2440_ppc8_vpmsum ctx.CRC inbuf inlen }
  else
    match inbuf with
    | none => ctx
    | some inbuf =>
      if inlen = 0 then ctx
      else
        let crc := ctx.CRC
        let (crc, inbuf, inlen) := crc24rfc2440_write_while16 inlen crc inbuf
        let (crc, inbuf, inlen) := crc24rfc2440_write_while4 inlen crc inbuf
        let crc := crc24rfc2440_write_while1 inlen crc inbuf
        { ctx with CRC := crc }

/-- The function `crc24rfc2440_final`. -/
def crc24rfc2440_final (ctx : CRC_CONTEXT) : CRC_CONTEXT :=
  let ctx := { ctx with CRC := crc24_final ctx.CRC }
  { ctx with buf := buf_put_le32 ctx.CRC }

/-- The portable path: no accelerated backend is both compiled in and selected
in the context, so the write operations run their own loops. -/
def portable (P : Platform) (ctx : CRC_CONTEXT) : Prop :=
  (P.USE_INTEL_PCLMUL && ctx.use_pclmul) = false ∧
  (P.USE_ARM_PMULL && ctx.use_pmull) = false ∧
  (P.USE_PPC_VPMSUM && ctx.use_vpmsum) = false

instance (P : Platform) (ctx : CRC_CONTEXT) : Decidable (portable P ctx) :=
  inferInstanceAs (Decidable (_ ∧ _ ∧ _))

/-- A build with none of the `USE_*` macros defined (the accelerated routines
are then not referenced at all; the entries here are never called). -/
def genericPlatform : Platform where
  USE_INTEL_PCLMUL := false
  USE_ARM_PMULL := false
  USE_PPC_VPMSUM := false
  HWF_INTEL_SSE4_1 := 0
  HWF_INTEL_PCLMUL := 0
  HWF_ARM_NEON := 0
  HWF_ARM_PMULL := 0
  HWF_PPC_ARCH_2_07 := 0
  _gcry_crc32_intel_pclmul := fun crc _ _ => crc
  _gcry_crc24rfc2440_intel_pclmul := fun crc _ _ => crc
  _gcry_crc32_armv8_ce_pmull := fun crc _ _ => crc
  _gcry_crc24rfc2440_armv8_ce_pmull := fun crc _ _ => crc
  _gcry_crc32_ppc8_vpmsum := fun crc _ _ => crc
  _gcry_crc24rfc2440_ppc8_vpmsum := fun crc _ _ => crc

/-- A context that selects the Intel routines. -/
def pclmulContext : CRC_CONTEXT :=
  { CRC := 0, use_pclmul := true, use_pmull := false, use_vpmsum := false, buf := [0, 0, 0, 0] }

/-- A context with nothing set yet: the memory handed to an init function. -/
def blankContext : CRC_CONTEXT :=
  { CRC := 0, use_pclmul := false, use_pmull := false, use_vpmsum := false, buf := [0, 0, 0, 0] }

/-- The nine ASCII bytes of the check string `123456789`. -/
def check123456789 : List Nat :=
  [0x31, 0x32, 0x33, 0x34, 0x35, 0x36, 0x37, 0x38, 0x39]

/-! ## Reference definitions and proof vocabulary -/

/-- Every element of a buffer is a byte. -/
def Bytes (p : List Nat) : Prop := ∀ x ∈ p, x < 256

instance (p : List Nat) : Decidable (Bytes p) :=
  inferInstanceAs (Decidable (∀ x ∈ p, x < 256))

/-- The three loops of `crc32_write` in sequence, on the register alone. -/
def crc32_engine (crc : Nat) (inbuf : List Nat) (inlen : Nat) : Nat :=
  let r16 := crc32_write_while16 inlen crc inbuf
  let r4 := crc32_write_while4 r16.2.2 r16.1 r16.2.1
  crc32_write_while1 r4.2.2 r4.1 r4.2.1

/-- The three loops of `crc24rfc2440_write` in sequence, on the register alone. -/
def crc24_engine (crc : Nat) (inbuf : List Nat) (inlen : Nat) : Nat :=
  let r16 := crc24rfc2440_write_while16 inlen crc inbuf
  let r4 := crc24rfc2440_write_while4 r16.2.2 r16.1 r16.2.1
  crc24rfc2440_write_while1 r4.2.2 r4.1 r4.2.1

/-- Successive `crc32_write` calls, one per sub-buffer, each with its own length. -/
def crc32_write_all (P : Platform) (ctx : CRC_CONTEXT) (chunks : List (List Nat)) :
    CRC_CONTEXT :=
  chunks.foldl (fun c ch => crc32_write P c (some ch) ch.length) ctx

/-- Successive `crc24rfc2440_write` calls, one per sub-buffer. -/
def crc24rfc2440_write_all (P : Platform) (ctx : CRC_CONTEXT) (chunks : List (List Nat)) :
    CRC_CONTEXT :=
  chunks.foldl (fun c ch => crc24rfc2440_write P c (some ch) ch.length) ctx

/-- One bit step of the reflected CRC-32: shift right, and fold the reflected
polynomial in when the bit shifted out was set. -/
def crc32_bit (r : Nat) : Nat :=
  if r % 2 = 1 then (r >>> 1) ^^^ 0xEDB88320 else r >>> 1

/-- The bit-by-bit CRC-32 register after the bytes `m`, from the register `r`. -/
def crc32_bitwise (r : Nat) (m : List Nat) : Nat :=
  m.foldl (fun r b => crc32_bit^[8] (r ^^^ b)) r

/-- The bit-by-bit definition of CRC-32: init all-ones, final complement. -/
def crc32_reference (m : List Nat) : Nat :=
  crc32_bitwise 0xFFFFFFFF m ^^^ 0xFFFFFFFF

/-- The bit-by-bit definition of CRC-32/RFC1510: init zero, no final complement. -/
def crc32rfc1510_reference (m : List Nat) : Nat :=
  crc32_bitwise 0 m

/-- One bit step of the RFC 2440 CRC-24: shift left, and fold the polynomial
in when bit 24 got set. -/
def crc24_bit (r : Nat) : Nat :=
  let r := r <<< 1
  if r &&& 0x1000000 ≠ 0 then r ^^^ 0x1864CFB else r

/-- The bit-by-bit CRC-24 register after the bytes `m`, from the register `r`. -/
def crc24_bitwise (r : Nat) (m : List Nat) : Nat :=
  m.foldl (fun r b => crc24_bit^[8] (r ^^^ (b <<< 16))) r

/-- The bit-by-bit definition of CRC-24/RFC2440 (the `crc_octets` of RFC 2440). -/
def crc24_reference (m : List Nat) : Nat :=
  crc24_bitwise 0xB704CE m &&& 0xFFFFFF

/-- The big-endian four-byte encoding of a 32-bit value. -/
def bigEndian4 (v : Nat) : List Nat :=
  [v / 16777216 % 256, v / 65536 % 256, v / 256 % 256, v % 256]

/-- The most-significant, middle and least-significant byte of a 24-bit value. -/
def bigEndian3 (v : Nat) : List Nat :=
  [v / 65536 % 256, v / 256 % 256, v % 256]

/-- The four bytes of a 32-bit word in reverse order. -/
def bswap32 (y : Nat) : Nat :=
  ((y &&& 0xff) <<< 24) ||| (((y >>> 8) &&& 0xff) <<< 16) |||
    (((y >>> 16) &&& 0xff) <<< 8) ||| ((y >>> 24) &&& 0xff)

/-- The three low bytes in reverse order, as an exclusive-or of the moved bytes. -/
def swap24 (r : Nat) : Nat :=
  ((r >>> 16) &&& 0xff) ^^^ (((r >>> 8) &&& 0xff) <<< 8) ^^^ ((r &&& 0xff) <<< 16)

/-- One table-driven step on a zero byte, `next (x, 0)`, for the table `T`. -/
def zeroStep (T : Nat → Nat) (x : Nat) : Nat := (x >>> 8) ^^^ T (x &&& 0xff)

/-- The first slice of `T` is linear over exclusive-or. -/
def SliceLinear (T : Nat → Nat) : Prop :=
  ∀ i j, i < 256 → j < 256 → T (i ^^^ j) = T i ^^^ T j

/-- Each higher slice of `T` is the previous one advanced by a zero byte. -/
def SlicesAdvance (T : Nat → Nat) : Prop :=
  ∀ i, i < 256 → T (i + 0x100) = zeroStep T (T i) ∧
    T (i + 0x200) = zeroStep T (T (i + 0x100)) ∧
    T (i + 0x300) = zeroStep T (T (i + 0x200))

/-- The 1024-entry table generated from its first slice `g0`: entry `256 * k + i`
is entry `i` advanced by `k` zero bytes. -/
def tableGen (g0 : Nat → Nat) (i : Nat) : Nat := (zeroStep g0)^[i / 256] (g0 (i % 256))

/-- The classic reflected byte table of CRC-32. -/
def crc32_slice0 (i : Nat) : Nat := crc32_bit^[8] i

/-- The classic byte table of CRC-24, multiplied by x^8 and byte swapped. -/
def crc24_slice0 (i : Nat) : Nat := bswap32 ((crc24_bit^[8] (i <<< 16) &&& 0xffffff) <<< 8)

/-- Lookup in `crc32_table`. -/
def T32 (i : Nat) : Nat := crc32_table.getD i 0

/-- Lookup in `crc24_table`. -/
def T24 (i : Nat) : Nat := crc24_table.getD i 0

/-- Modelled from the spec: the accelerated CRC-32 update routines
`_gcry_crc32_intel_pclmul`, `_gcry_crc32_armv8_ce_pmull` and
`_gcry_crc32_ppc8_vpmsum`, which are not among the sources.  The spec has them
as black boxes that consume a running CRC value and a byte range and return the
updated value, observationally equivalent to the scalar/slicing path for every
input: the register that the portable part of `crc32_write` leaves. -/
def crc32_accelerated (crc : Nat) (inbuf : Option (List Nat)) (inlen : Nat) : Nat :=
  match inbuf with
  | none => crc
  | some inbuf => if inlen = 0 then crc else crc32_engine crc inbuf inlen

/-- Modelled from the spec: the accelerated CRC-24 update routines
`_gcry_crc24rfc2440_intel_pclmul`, `_gcry_crc24rfc2440_armv8_ce_pmull` and
`_gcry_crc24rfc2440_ppc8_vpmsum`, which are not among the sources: the register
that the portable part of `crc24rfc2440_write` leaves. -/
def crc24rfc2440_accelerated (crc : Nat) (inbuf : Option (List Nat)) (inlen : Nat) : Nat :=
  match inbuf with
  | none => crc
  | some inbuf => if inlen = 0 then crc else crc24_engine crc inbuf inlen

/-- The accelerated routines of the platform are the ones modelled from the spec. -/
def SpecBackends (P : Platform) : Prop :=
  P._gcry_crc32_intel_pclmul = crc32_accelerated ∧
  P._gcry_crc32_armv8_ce_pmull = crc32_accelerated ∧
  P._gcry_crc32_ppc8_vpmsum = crc32_accelerated ∧
  P._gcry_crc24rfc2440_intel_pclmul = crc24rfc2440_accelerated ∧
  P._gcry_crc24rfc2440_armv8_ce_pmull = crc24rfc2440_accelerated ∧
  P._gcry_crc24rfc2440_ppc8_vpmsum = crc24rfc2440_accelerated

/-- An x86 build with the Intel routines compiled in, the routines being the
ones modelled from the spec; the two feature masks are example values. -/
def pclmulPlatform : Platform where
  USE_INTEL_PCLMUL := true
  USE_ARM_PMULL := false
  USE_PPC_VPMSUM := false
  HWF_INTEL_SSE4_1 := 256
  HWF_INTEL_PCLMUL := 512
  HWF_ARM_NEON := 0
  HWF_ARM_PMULL := 0
  HWF_PPC_ARCH_2_07 := 0
  _gcry_crc32_intel_pclmul := crc32_accelerated
  _gcry_crc24rfc2440_intel_pclmul := crc24rfc2440_accelerated
  _gcry_crc32_armv8_ce_pmull := crc32_accelerated
  _gcry_crc24rfc2440_armv8_ce_pmull := crc24rfc2440_accelerated
  _gcry_crc32_ppc8_vpmsum := crc32_accelerated
  _gcry_crc24rfc2440_ppc8_vpmsum := crc24rfc2440_accelerated

/-- Zero-length `crc32_write` calls, one per buffer pointer of the list. -/
def crc32_write_empty (P : Platform) (ctx : CRC_CONTEXT) (bufs : List (Option (List Nat))) :
    CRC_CONTEXT :=
  bufs.foldl (fun c p => crc32_write P c p 0) ctx

/-- Zero-length `crc24rfc2440_write` calls, one per buffer pointer of the list. -/
def crc24rfc2440_write_empty (P : Platform) (ctx : CRC_CONTEXT)
    (bufs : List (Option (List Nat))) : CRC_CONTEXT :=
  bufs.foldl (fun c p => crc24rfc2440_write P c p 0) ctx

/-- Two contexts agree on everything but the register. -/
def sameFrame (a b : CRC_CONTEXT) : Prop :=
  a.use_pclmul = b.use_pclmul ∧ a.use_pmull = b.use_pmull ∧ a.use_vpmsum = b.use_vpmsum ∧
    a.buf = b.buf

/-! ## Descriptors, builds and further vocabulary -/

/-- The fields of a `gcry_md_spec_t` that `crc.c` fills in with its own
functions and sizes: name, digest length and the four operations. -/
structure gcry_md_spec_t where
  name : String
  mdlen : Nat
  init : Platform → Nat → CRC_CONTEXT → CRC_CONTEXT
  write : Platform → CRC_CONTEXT → Option (List Nat) → Nat → CRC_CONTEXT
  final : CRC_CONTEXT → CRC_CONTEXT
  read : CRC_CONTEXT → List Nat

/-- The descriptor `_gcry_digest_spec_crc32`. -/
def _gcry_digest_spec_crc32 : gcry_md_spec_t :=
  { name := "CRC32", mdlen := 4,
    init := crc32_init, write := crc32_write, final := crc32_final, read := crc32_read }

/-- The descriptor `_gcry_digest_spec_crc32_rfc1510`. -/
def _gcry_digest_spec_crc32_rfc1510 : gcry_md_spec_t :=
  { name := "CRC32RFC1510", mdlen := 4,
    init := crc32rfc1510_init, write := crc32_write, final := crc32rfc1510_final,
    read := crc32_read }

/-- The descriptor `_gcry_digest_spec_crc24_rfc2440`. -/
def _gcry_digest_spec_crc24_rfc2440 : gcry_md_spec_t :=
  { name := "CRC24RFC2440", mdlen := 3,
    init := crc24rfc2440_init, write := crc24rfc2440_write, final := crc24rfc2440_final,
    read := crc32_read }

/-- A call of a read operation in state-passing form: the returned buffer and
the context after the call.  `crc32_read` assigns to nothing, so the context
after the call is the context before it. -/
def read_call (read : CRC_CONTEXT → List Nat) (ctx : CRC_CONTEXT) :
    List Nat × CRC_CONTEXT :=
  (read ctx, ctx)

/-- The buffers returned by `n` successive calls of a read operation, and the
context after the last call. -/
def read_calls (read : CRC_CONTEXT → List Nat) : Nat → CRC_CONTEXT →
    List (List Nat) × CRC_CONTEXT
  | 0, ctx => ([], ctx)
  | n + 1, ctx =>
    let r := read_call read ctx
    let rest := read_calls read n r.2
    (r.1 :: rest.1, rest.2)

/-- The context with every backend indicator cleared: the same register and
output buffer on the portable path. -/
def portableContext (ctx : CRC_CONTEXT) : CRC_CONTEXT :=
  { ctx with use_pclmul := false, use_pmull := false, use_vpmsum := false }

/-- An x86 build: of the three families of accelerated routines only the Intel
ones are compiled in (the preprocessor conditions of the three `USE_*` macros
name different target architectures). -/
def intelBuild (P : Platform) : Prop :=
  P.USE_INTEL_PCLMUL = true ∧ P.USE_ARM_PMULL = false ∧ P.USE_PPC_VPMSUM = false

/-- An AArch64 build: only the ARMv8 routines are compiled in. -/
def armBuild (P : Platform) : Prop :=
  P.USE_INTEL_PCLMUL = false ∧ P.USE_ARM_PMULL = true ∧ P.USE_PPC_VPMSUM = false

instance (P : Platform) : Decidable (intelBuild P) :=
  inferInstanceAs (Decidable (_ ∧ _ ∧ _))

instance (P : Platform) : Decidable (armBuild P) :=
  inferInstanceAs (Decidable (_ ∧ _ ∧ _))

/-- An AArch64 build with the ARMv8 routines compiled in, the routines being
the ones modelled from the spec; the two feature masks are example values. -/
def pmullPlatform : Platform where
  USE_INTEL_PCLMUL := false
  USE_ARM_PMULL := true
  USE_PPC_VPMSUM := false
  HWF_INTEL_SSE4_1 := 0
  HWF_INTEL_PCLMUL := 0
  HWF_ARM_NEON := 1
  HWF_ARM_PMULL := 16
  HWF_PPC_ARCH_2_07 := 0
  _gcry_crc32_intel_pclmul := crc32_accelerated
  _gcry_crc24rfc2440_intel_pclmul := crc24rfc2440_accelerated
  _gcry_crc32_armv8_ce_pmull := crc32_accelerated
  _gcry_crc24rfc2440_armv8_ce_pmull := crc24rfc2440_accelerated
  _gcry_crc32_ppc8_vpmsum := crc32_accelerated
  _gcry_crc24rfc2440_ppc8_vpmsum := crc24rfc2440_accelerated

/-- The slicing formula of the spec for a table `T`: with `x = crc xor word`,
`T[(x & 0xFF) + 768] xor T[((x >> 8) & 0xFF) + 512] xor T[((x >> 16) & 0xFF) + 256]
xor T[(x >> 24) & 0xFF]`. -/
def slicing_formula (T : List Nat) (crc word : Nat) : Nat :=
  let x := crc ^^^ word
  T.getD ((x &&& 0xFF) + 768) 0 ^^^ T.getD (((x >>> 8) &&& 0xFF) + 512) 0 ^^^
    T.getD (((x >>> 16) &&& 0xFF) + 256) 0 ^^^ T.getD ((x >>> 24) &&& 0xFF) 0

/-- The contexts left by the three init functions. -/
def initContexts (P : Platform) (hwf : Nat) (ctx : CRC_CONTEXT) : List CRC_CONTEXT :=
  [crc32_init P hwf ctx, crc32rfc1510_init P hwf ctx, crc24rfc2440_init P hwf ctx]

/-! ## Call sequences, table indices and traced loops -/

/-- One call on a context after its initialisation: a write of `inlen` bytes at
`inbuf`, or a final. -/
inductive md_call where
  | write (inbuf : Option (List Nat)) (inlen : Nat)
  | final
deriving DecidableEq, Repr

/-- A sequence of write and final calls of a descriptor, in order. -/
def md_calls (d : gcry_md_spec_t) (P : Platform) (ctx : CRC_CONTEXT) (calls : List md_call) :
    CRC_CONTEXT :=
  calls.foldl (fun c call =>
    match call with
    | .write inbuf inlen => d.write P c inbuf inlen
    | .final => d.final c) ctx

/-- The backend indicator of a context: its three `use_*` bits. -/
def backend_indicator (ctx : CRC_CONTEXT) : Bool × Bool × Bool :=
  (ctx.use_pclmul, ctx.use_pmull, ctx.use_vpmsum)

/-- The three descriptors of `crc.c`. -/
def descriptors : List gcry_md_spec_t :=
  [_gcry_digest_spec_crc32, _gcry_digest_spec_crc32_rfc1510, _gcry_digest_spec_crc24_rfc2440]

/-- The table index of the lookup in `crc32_next`. -/
def crc32_next_index (crc data : Nat) : Nat :=
  (crc &&& 0xff) ^^^ data

/-- The table indices of the four lookups in `crc32_next4`, in source order. -/
def crc32_next4_indices (crc data : Nat) : List Nat :=
  let crc := crc ^^^ data
  [(crc &&& 0xff) + 0x300, ((crc >>> 8) &&& 0xff) + 0x200, ((crc >>> 16) &&& 0xff) + 0x100,
    (crc >>> 24) &&& 0xff]

/-- The table index of the lookup in `crc24_next`. -/
def crc24_next_index (crc data : Nat) : Nat :=
  (crc &&& 0xff) ^^^ data

/-- The table indices of the four lookups in `crc24_next4`, in source order;
the last one is taken from `data`. -/
def crc24_next4_indices (crc data : Nat) : List Nat :=
  let crc := crc ^^^ data
  [(crc &&& 0xff) + 0x300, ((crc >>> 8) &&& 0xff) + 0x200, ((crc >>> 16) &&& 0xff) + 0x100,
    (data >>> 24) &&& 0xff]

/-- The exclusive-or of the entries of the table `T` at a list of indices. -/
def lookups (T : List Nat) (idx : List Nat) : Nat :=
  (idx.map (fun i => T.getD i 0)).foldl (· ^^^ ·) 0

/-- The byte positions that `buf_get_le32` reads at offset `pos` of a buffer. -/
def le32_positions (pos : Nat) : List Nat :=
  [pos, pos + 1, pos + 2, pos + 3]

/-- The loop `while (inlen >= 16)` of the two write functions, for the slicing
step `next4`, with the input pointer kept as an offset `pos` into the buffer
`buf` and with the list `tr` of the byte positions read so far: returns the
register, the offset, the remaining length and the positions read. -/
def write_while16_traced (next4 : Nat → Nat → Nat) (buf : List Nat) :
    Nat → Nat → Nat → List Nat → Nat × Nat × Nat × List Nat
  | inlen + 16, crc, pos, tr =>
    let crc := next4 crc (buf_get_le32 (buf.drop pos))
    let crc := next4 crc (buf_get_le32 (buf.drop (pos + 4)))
    let crc := next4 crc (buf_get_le32 (buf.drop (pos + 8)))
    let crc := next4 crc (buf_get_le32 (buf.drop (pos + 12)))
    write_while16_traced next4 buf inlen crc (pos + 16)
      (tr ++ le32_positions pos ++ le32_positions (pos + 4) ++ le32_positions (pos + 8) ++
        le32_positions (pos + 12))
  | inlen, crc, pos, tr => (crc, pos, inlen, tr)

/-- The loop `while (inlen >= 4)` with offset and positions read. -/
def write_while4_traced (next4 : Nat → Nat → Nat) (buf : List Nat) :
    Nat → Nat → Nat → List Nat → Nat × Nat × Nat × List Nat
  | inlen + 4, crc, pos, tr =>
    write_while4_traced next4 buf inlen (next4 crc (buf_get_le32 (buf.drop pos))) (pos + 4)
      (tr ++ le32_positions pos)
  | inlen, crc, pos, tr => (crc, pos, inlen, tr)

/-- The loop `while (inlen--)` with offset and positions read. -/
def write_while1_traced (next : Nat → Nat → Nat) (buf : List Nat) :
    Nat → Nat → Nat → List Nat → Nat × List Nat
  | inlen + 1, crc, pos, tr =>
    write_while1_traced next buf inlen (next crc (buf.getD pos 0)) (pos + 1) (tr ++ [pos])
  | 0, crc, _, tr => (crc, tr)

/-- The three loops in sequence from offset 0: the register they leave and the
byte positions of the buffer they read, in the order of the reads. -/
def write_traced (next next4 : Nat → Nat → Nat) (crc : Nat) (buf : List Nat) (inlen : Nat) :
    Nat × List Nat :=
  let r16 := write_while16_traced next4 buf inlen crc 0 []
  let r4 := write_while4_traced next4 buf r16.2.2.1 r16.1 r16.2.1 r16.2.2.2
  write_while1_traced next buf r4.2.2.1 r4.1 r4.2.1 r4.2.2.2

/-- The portable loops of `crc32_write` with the positions read. -/
def crc32_write_traced (crc : Nat) (buf : List Nat) (inlen : Nat) : Nat × List Nat :=
  write_traced crc32_next crc32_next4 crc buf inlen

/-- The portable loops of `crc24rfc2440_write` with the positions read. -/
def crc24rfc2440_write_traced (crc : Nat) (buf : List Nat) (inlen : Nat) : Nat × List Nat :=
  write_traced crc24_next crc24_next4 crc buf inlen

/-! ## Bit-level lemmas -/

theorem shiftRight_xor (a b k : Nat) : (a ^^^ b) >>> k = a >>> k ^^^ b >>> k := by
  apply Nat.eq_of_testBit_eq; intro i; simp

theorem shiftLeft_xor (a b k : Nat) : (a ^^^ b) <<< k = a <<< k ^^^ b <<< k := by
  apply Nat.eq_of_testBit_eq; intro i
  simp only [Nat.testBit_xor, Nat.testBit_shiftLeft]
  by_cases h : k ≤ i <;> simp [h]

theorem split_low (x k : Nat) : x = (x % 2 ^ k) ^^^ ((x >>> k) <<< k) := by
  apply Nat.eq_of_testBit_eq; intro i
  simp only [Nat.testBit_xor, Nat.testBit_shiftLeft, Nat.testBit_mod_two_pow, Nat.testBit_shiftRight]
  by_cases h : k ≤ i
  · have h2 : ¬ i < k := by omega
    have h3 : k + (i - k) = i := by omega
    simp [h, h2, h3]
  · have h2 : i < k := by omega
    simp [h, h2]

theorem or_shiftLeft_eq_xor (a b k : Nat) (h : a < 2 ^ k) : a ||| (b <<< k) = a ^^^ (b <<< k) := by
  apply Nat.eq_of_testBit_eq; intro i
  simp only [Nat.testBit_xor, Nat.testBit_or, Nat.testBit_shiftLeft]
  by_cases hi : k ≤ i
  · have : a.testBit i = false := by
      apply Nat.testBit_lt_two_pow
      exact lt_of_lt_of_le h (Nat.pow_le_pow_right (by decide) hi)
    simp [this]
  · simp [hi]

theorem xor_left_comm (a b c : Nat) : a ^^^ (b ^^^ c) = b ^^^ (a ^^^ c) := by
  rw [← Nat.xor_assoc, ← Nat.xor_assoc, Nat.xor_comm a b]

theorem crc32_bit_xor (a b : Nat) : crc32_bit (a ^^^ b) = crc32_bit a ^^^ crc32_bit b := by
  unfold crc32_bit
  by_cases ha : a % 2 = 1 <;> by_cases hb : b % 2 = 1 <;>
    simp only [Nat.xor_mod_two_eq_one, ha, hb, shiftRight_xor, if_true, if_false, iff_true, iff_false, not_true, not_false_eq_true, true_iff, false_iff] <;>
    simp only [Nat.xor_assoc, Nat.xor_comm, xor_left_comm, Nat.xor_self, Nat.xor_zero, Nat.zero_xor, Nat.xor_cancel_left]

theorem crc32_bit_iterate_xor (k a b : Nat) :
    crc32_bit^[k] (a ^^^ b) = crc32_bit^[k] a ^^^ crc32_bit^[k] b := by
  induction k generalizing a b with
  | zero => rfl
  | succ k ih => simp only [Function.iterate_succ_apply, crc32_bit_xor, ih]

theorem crc32_bit_shiftLeft (y k : Nat) : crc32_bit (y <<< (k + 1)) = y <<< k := by
  have h : ¬ (y <<< (k + 1)) % 2 = 1 := by simp
  unfold crc32_bit
  rw [if_neg h, Nat.shiftLeft_succ, Nat.shiftRight_succ]
  simp

theorem crc32_bit_iterate_shiftLeft (y k : Nat) : crc32_bit^[k] (y <<< k) = y := by
  induction k with
  | zero => rfl
  | succ k ih => rw [Function.iterate_succ_apply, crc32_bit_shiftLeft, ih]

theorem crc32_bit_iterate_split (x k : Nat) :
    crc32_bit^[k] x = (x >>> k) ^^^ crc32_bit^[k] (x % 2 ^ k) := by
  conv_lhs => rw [split_low x k]
  rw [crc32_bit_iterate_xor, crc32_bit_iterate_shiftLeft, Nat.xor_comm]

/-! ### The table-driven engine, for any table whose first slice is xor-linear -/

theorem and_ff_lt (x : Nat) : x &&& 0xff < 256 :=
  Nat.and_lt_two_pow x (n := 8) (by decide)

theorem and_ff_of_lt {x : Nat} (h : x < 256) : x &&& 0xff = x :=
  Nat.and_pow_two_sub_one_of_lt_two_pow (n := 8) h

theorem shiftRight_eq_zero_of_lt {x k : Nat} (h : x < 2 ^ k) : x >>> k = 0 := by
  rw [Nat.shiftRight_eq_div_pow]; exact Nat.div_eq_of_lt h

theorem shiftLeft_and_ff (y : Nat) : (y <<< 8) &&& 0xff = 0 := by
  apply Nat.eq_of_testBit_eq; intro i
  have : (0xff : Nat) = 2 ^ 8 - 1 := by decide
  rw [this, Nat.and_pow_two_sub_one_eq_mod]
  simp only [Nat.testBit_mod_two_pow, Nat.testBit_shiftLeft, Nat.zero_testBit]
  by_cases hi : i < 8
  · have : ¬ 8 ≤ i := by omega
    simp [this]
  · simp [hi]

theorem table_zero {T : Nat → Nat} (hlin : SliceLinear T) : T 0 = 0 := by
  have := hlin 0 0 (by decide) (by decide)
  simpa using this

theorem zeroStep_xor {T : Nat → Nat} (hlin : SliceLinear T) (a b : Nat) :
    zeroStep T (a ^^^ b) = zeroStep T a ^^^ zeroStep T b := by
  unfold zeroStep
  rw [shiftRight_xor, Nat.and_xor_distrib_right, hlin _ _ (and_ff_lt a) (and_ff_lt b)]
  simp only [Nat.xor_assoc, Nat.xor_comm, xor_left_comm]

theorem zeroStep_shiftLeft {T : Nat → Nat} (hlin : SliceLinear T) (y : Nat) :
    zeroStep T (y <<< 8) = y := by
  unfold zeroStep
  rw [shiftLeft_and_ff, table_zero hlin, Nat.shiftLeft_shiftRight, Nat.xor_zero]

theorem zeroStep_of_lt (T : Nat → Nat) {i : Nat} (h : i < 256) : zeroStep T i = T i := by
  unfold zeroStep
  rw [and_ff_of_lt h, shiftRight_eq_zero_of_lt (k := 8) h, Nat.zero_xor]

theorem zeroStep_split (T : Nat → Nat) (x : Nat) :
    zeroStep T x = (x >>> 8) ^^^ zeroStep T (x &&& 0xff) := by
  rw [zeroStep_of_lt T (and_ff_lt x)]; rfl

/-- The scalar step is a zero-byte step on the register with the byte folded in. -/
theorem scalar_eq_zeroStep (T : Nat → Nat) (c b : Nat) (hb : b < 256) :
    (c >>> 8) ^^^ T ((c &&& 0xff) ^^^ b) = zeroStep T (c ^^^ b) := by
  unfold zeroStep
  rw [shiftRight_xor, Nat.and_xor_distrib_right, and_ff_of_lt hb,
    shiftRight_eq_zero_of_lt (k := 8) hb, Nat.xor_zero]

/-- The four-lookup combination is four zero-byte steps on a 32-bit word. -/
theorem slicing_eq_zeroStep {T : Nat → Nat} (hlin : SliceLinear T) (hadv : SlicesAdvance T)
    (x : Nat) (hx : x < 2 ^ 32) :
    T ((x &&& 0xff) + 0x300) ^^^ T (((x >>> 8) &&& 0xff) + 0x200) ^^^
      T (((x >>> 16) &&& 0xff) + 0x100) ^^^ T ((x >>> 24) &&& 0xff)
    = zeroStep T (zeroStep T (zeroStep T (zeroStep T x))) := by
  have h0 := hadv _ (and_ff_lt x)
  have h1 := hadv _ (and_ff_lt (x >>> 8))
  have h2 := hadv _ (and_ff_lt (x >>> 16))
  have e3 : x >>> 24 >>> 8 = 0 := by
    rw [← Nat.shiftRight_add]; exact shiftRight_eq_zero_of_lt hx
  have s0 : zeroStep T x = (x >>> 8) ^^^ zeroStep T (x &&& 0xff) := zeroStep_split T x
  have s1 : zeroStep T (x >>> 8) = (x >>> 16) ^^^ zeroStep T ((x >>> 8) &&& 0xff) := by
    rw [zeroStep_split T (x >>> 8), ← Nat.shiftRight_add]
  have s2 : zeroStep T (x >>> 16) = (x >>> 24) ^^^ zeroStep T ((x >>> 16) &&& 0xff) := by
    rw [zeroStep_split T (x >>> 16), ← Nat.shiftRight_add]
  have s3 : zeroStep T (x >>> 24) = zeroStep T ((x >>> 24) &&& 0xff) := by
    rw [zeroStep_split T (x >>> 24), e3, Nat.zero_xor]
  rw [h0.2.2, h0.2.1, h0.1, h1.2.1, h1.1, h2.1]
  simp only [s0, zeroStep_xor hlin, s1, s2, s3]
  rw [← zeroStep_of_lt T (and_ff_lt x), ← zeroStep_of_lt T (and_ff_lt (x >>> 8)),
    ← zeroStep_of_lt T (and_ff_lt (x >>> 16)), ← zeroStep_of_lt T (and_ff_lt (x >>> 24))]
  simp only [Nat.xor_assoc, Nat.xor_comm, xor_left_comm]

theorem zeroStep_shiftLeft16 {T : Nat → Nat} (hlin : SliceLinear T) (y : Nat) :
    zeroStep T (y <<< 16) = y <<< 8 := by
  have : y <<< 16 = (y <<< 8) <<< 8 := by rw [← Nat.shiftLeft_add]
  rw [this, zeroStep_shiftLeft hlin]

theorem zeroStep_shiftLeft24 {T : Nat → Nat} (hlin : SliceLinear T) (y : Nat) :
    zeroStep T (y <<< 24) = y <<< 16 := by
  have : y <<< 24 = (y <<< 16) <<< 8 := by rw [← Nat.shiftLeft_add]
  rw [this, zeroStep_shiftLeft hlin]

/-- Four scalar steps are four zero-byte steps on the register with the
little-endian word folded in. -/
theorem four_scalar_eq_zeroStep {T : Nat → Nat} (hlin : SliceLinear T) (c b0 b1 b2 b3 : Nat) :
    zeroStep T (zeroStep T (zeroStep T (zeroStep T (c ^^^ b0) ^^^ b1) ^^^ b2) ^^^ b3)
    = zeroStep T (zeroStep T (zeroStep T (zeroStep T
        (c ^^^ (b0 ^^^ (b1 <<< 8) ^^^ (b2 <<< 16) ^^^ (b3 <<< 24)))))) := by
  simp only [zeroStep_xor hlin, zeroStep_shiftLeft hlin, zeroStep_shiftLeft16 hlin,
    zeroStep_shiftLeft24 hlin]
  simp only [Nat.xor_assoc, Nat.xor_comm, xor_left_comm]

/-- Modelled word read: four in-range bytes packed little-endian, as exclusive-or. -/
theorem le32_eq_xor (b0 b1 b2 b3 : Nat) (h0 : b0 < 256) (h1 : b1 < 256) (h2 : b2 < 256)
    (h3 : b3 < 256) :
    b0 ||| (b1 <<< 8) ||| (b2 <<< 16) ||| (b3 <<< 24)
      = b0 ^^^ (b1 <<< 8) ^^^ (b2 <<< 16) ^^^ (b3 <<< 24) ∧
    b0 ^^^ (b1 <<< 8) ^^^ (b2 <<< 16) ^^^ (b3 <<< 24) < 2 ^ 32 := by
  have s1 : b1 <<< 8 < 2 ^ 16 := by rw [Nat.shiftLeft_eq]; omega
  have s2 : b2 <<< 16 < 2 ^ 24 := by rw [Nat.shiftLeft_eq]; omega
  have s3 : b3 <<< 24 < 2 ^ 32 := by rw [Nat.shiftLeft_eq]; omega
  have a1 : b0 ^^^ (b1 <<< 8) < 2 ^ 16 :=
    Nat.xor_lt_two_pow (lt_of_lt_of_le h0 (by decide)) s1
  have a2 : b0 ^^^ (b1 <<< 8) ^^^ (b2 <<< 16) < 2 ^ 24 :=
    Nat.xor_lt_two_pow (lt_of_lt_of_le a1 (by decide)) s2
  have a3 : b0 ^^^ (b1 <<< 8) ^^^ (b2 <<< 16) ^^^ (b3 <<< 24) < 2 ^ 32 :=
    Nat.xor_lt_two_pow (lt_of_lt_of_le a2 (by decide)) s3
  refine ⟨?_, a3⟩
  rw [or_shiftLeft_eq_xor b0 b1 8 h0, or_shiftLeft_eq_xor _ b2 16 a1,
    or_shiftLeft_eq_xor _ b3 24 a2]

theorem and_ff_eq_mod (x : Nat) : x &&& 0xff = x % 256 :=
  Nat.and_pow_two_sub_one_eq_mod x 8

theorem and_ffffff_eq_mod (x : Nat) : x &&& 0xffffff = x % 16777216 :=
  Nat.and_pow_two_sub_one_eq_mod x 24

theorem xor_shiftLeft_eq_add (a b k : Nat) (h : a < 2 ^ k) : a ^^^ (b <<< k) = a + b * 2 ^ k := by
  rw [← or_shiftLeft_eq_xor a b k h, Nat.shiftLeft_eq, Nat.or_comm, Nat.mul_comm,
    ← Nat.mul_add_lt_is_or h, Nat.add_comm]

theorem or_shiftLeft_eq_add (a b k : Nat) (h : a < 2 ^ k) : (b <<< k) ||| a = a + b * 2 ^ k := by
  rw [Nat.shiftLeft_eq, Nat.mul_comm, ← Nat.mul_add_lt_is_or h, Nat.add_comm]

theorem swap24_eq (r : Nat) :
    swap24 r = r / 65536 % 256 + (r / 256 % 256) * 256 + (r % 256) * 65536 := by
  unfold swap24
  simp only [and_ff_eq_mod, Nat.shiftRight_eq_div_pow, Nat.reducePow]
  have h1 : r / 65536 % 256 < 2 ^ 8 := by omega
  rw [xor_shiftLeft_eq_add _ _ 8 h1]
  have h2 : r / 65536 % 256 + r / 256 % 256 * 2 ^ 8 < 2 ^ 16 := by omega
  rw [xor_shiftLeft_eq_add _ _ 16 h2]
  omega

theorem bswap32_eq (y : Nat) :
    bswap32 y = y / 16777216 % 256 + (y / 65536 % 256) * 256 + (y / 256 % 256) * 65536
      + (y % 256) * 16777216 := by
  unfold bswap32
  simp only [and_ff_eq_mod, Nat.shiftRight_eq_div_pow, Nat.reducePow]
  have h1 : y / 16777216 % 256 < 2 ^ 8 := by omega
  have h2 : y / 16777216 % 256 + y / 65536 % 256 * 2 ^ 8 < 2 ^ 16 := by omega
  have h3 : y / 16777216 % 256 + y / 65536 % 256 * 2 ^ 8 + y / 256 % 256 * 2 ^ 16 < 2 ^ 24 := by
    omega
  rw [Nat.or_assoc, Nat.or_assoc, or_shiftLeft_eq_add _ _ 8 h1, or_shiftLeft_eq_add _ _ 16 h2,
    or_shiftLeft_eq_add _ _ 24 h3]
  omega

/-- A 24-bit value split into its three bytes. -/
theorem bytes3 (r : Nat) (h : r < 2 ^ 24) :
    ∃ x0 x1 x2, x0 < 256 ∧ x1 < 256 ∧ x2 < 256 ∧ r = x0 + 256 * x1 + 65536 * x2 :=
  ⟨r % 256, r / 256 % 256, r / 65536, by omega, by omega, by omega, by omega⟩

theorem swap24_bytes (x0 x1 x2 : Nat) (h0 : x0 < 256) (h1 : x1 < 256) (h2 : x2 < 256) :
    swap24 (x0 + 256 * x1 + 65536 * x2) = x2 + 256 * x1 + 65536 * x0 := by
  rw [swap24_eq]; omega

theorem bswap32_shift (r : Nat) : bswap32 ((r &&& 0xffffff) <<< 8) = swap24 r := by
  rw [bswap32_eq, swap24_eq, and_ffffff_eq_mod, Nat.shiftLeft_eq]
  omega

theorem swap24_xor (a b : Nat) : swap24 (a ^^^ b) = swap24 a ^^^ swap24 b := by
  unfold swap24
  simp only [shiftRight_xor, Nat.and_xor_distrib_right, shiftLeft_xor]
  simp only [Nat.xor_assoc, Nat.xor_comm, xor_left_comm]

theorem swap24_lt (r : Nat) : swap24 r < 2 ^ 24 := by
  rw [swap24_eq]; omega

theorem swap24_swap24 (r : Nat) (h : r < 2 ^ 24) : swap24 (swap24 r) = r := by
  obtain ⟨x0, x1, x2, h0, h1, h2, rfl⟩ := bytes3 r h
  rw [swap24_bytes x0 x1 x2 h0 h1 h2]
  have := swap24_bytes x2 x1 x0 h2 h1 h0
  omega

theorem crc24_bit_eq (r : Nat) :
    crc24_bit r = (r <<< 1) ^^^ (if (r <<< 1).testBit 24 then 0x1864CFB else 0) := by
  unfold crc24_bit
  have h : (0x1000000 : Nat) = 2 ^ 24 := by decide
  simp only [h, Nat.and_two_pow]
  cases (r <<< 1).testBit 24 <;> simp

theorem crc24_bit_xor (a b : Nat) : crc24_bit (a ^^^ b) = crc24_bit a ^^^ crc24_bit b := by
  simp only [crc24_bit_eq, shiftLeft_xor, Nat.testBit_xor]
  cases (a <<< 1).testBit 24 <;> cases (b <<< 1).testBit 24 <;>
    simp [Nat.xor_assoc, Nat.xor_comm, xor_left_comm]

theorem crc24_bit_iterate_xor (k a b : Nat) :
    crc24_bit^[k] (a ^^^ b) = crc24_bit^[k] a ^^^ crc24_bit^[k] b := by
  induction k generalizing a b with
  | zero => rfl
  | succ k ih => simp only [Function.iterate_succ_apply, crc24_bit_xor, ih]

theorem crc24_bit_of_lt (x : Nat) (h : x < 2 ^ 23) : crc24_bit x = x <<< 1 := by
  have hb : (x <<< 1).testBit 24 = false := by
    apply Nat.testBit_lt_two_pow
    rw [Nat.shiftLeft_eq]; omega
  rw [crc24_bit_eq, hb]; simp

theorem crc24_bit_iterate_of_lt (k x : Nat) (hk : k ≤ 24) (h : x < 2 ^ (24 - k)) :
    crc24_bit^[k] x = x <<< k := by
  induction k generalizing x with
  | zero => rfl
  | succ k ih =>
    have h23 : x < 2 ^ 23 :=
      lt_of_lt_of_le h (Nat.pow_le_pow_right (by decide) (by omega))
    have h2 : x <<< 1 < 2 ^ (24 - k) := by
      rw [Nat.shiftLeft_eq, show 24 - k = (24 - (k + 1)) + 1 by omega, Nat.pow_succ]
      omega
    rw [Function.iterate_succ_apply, crc24_bit_of_lt x h23, ih _ (by omega) h2,
      ← Nat.shiftLeft_add, Nat.add_comm]

theorem crc24_bit_lt (r : Nat) (h : r < 2 ^ 24) : crc24_bit r < 2 ^ 24 := by
  have h25 : r <<< 1 < 2 ^ 25 := by rw [Nat.shiftLeft_eq]; omega
  have hp : (0x1864CFB : Nat) < 2 ^ 25 := by decide
  rw [crc24_bit_eq]
  apply Nat.lt_pow_two_of_testBit
  intro i hi
  have hhigh : 24 < i → (r <<< 1).testBit i = false ∧ (0x1864CFB : Nat).testBit i = false := by
    intro h24
    have hle : 2 ^ 25 ≤ 2 ^ i := Nat.pow_le_pow_right (by decide) (by omega)
    exact ⟨Nat.testBit_lt_two_pow (lt_of_lt_of_le h25 hle),
      Nat.testBit_lt_two_pow (lt_of_lt_of_le hp hle)⟩
  by_cases hb : (r <<< 1).testBit 24 = true
  · rw [if_pos hb, Nat.testBit_xor]
    rcases Nat.eq_or_lt_of_le hi with rfl | h24
    · rw [hb]; decide
    · rw [(hhigh h24).1, (hhigh h24).2]; rfl
  · rw [if_neg hb, Nat.xor_zero]
    rcases Nat.eq_or_lt_of_le hi with rfl | h24
    · simpa using hb
    · exact (hhigh h24).1

theorem crc24_bit_iterate_lt (k r : Nat) (h : r < 2 ^ 24) : crc24_bit^[k] r < 2 ^ 24 := by
  induction k generalizing r with
  | zero => exact h
  | succ k ih => rw [Function.iterate_succ_apply]; exact ih _ (crc24_bit_lt r h)

/-- The CRC-24 scalar step on a byte-swapped register is the byte-swapped image
of eight bit steps of the RFC 2440 register with the byte folded in at the top. -/
theorem crc24_scalar_conj (T : Nat → Nat)
    (hT : ∀ k, k < 256 → T k = swap24 (crc24_bit^[8] (k <<< 16)))
    (r b : Nat) (hr : r < 2 ^ 24) (hb : b < 256) :
    ((swap24 r) >>> 8) ^^^ T (((swap24 r) &&& 0xff) ^^^ b)
      = swap24 (crc24_bit^[8] (r ^^^ (b <<< 16))) := by
  obtain ⟨x0, x1, x2, h0, h1, h2, rfl⟩ := bytes3 r hr
  have hlo : x0 + 256 * x1 < 2 ^ 16 := by omega
  have hr' : x0 + 256 * x1 + 65536 * x2 = (x0 + 256 * x1) ^^^ (x2 <<< 16) := by
    rw [xor_shiftLeft_eq_add _ _ 16 hlo]; omega
  have hx : x2 ^^^ b < 256 := Nat.xor_lt_two_pow (n := 8) h2 hb
  rw [swap24_bytes x0 x1 x2 h0 h1 h2]
  have e1 : (x2 + 256 * x1 + 65536 * x0) &&& 0xff = x2 := by rw [and_ff_eq_mod]; omega
  have e2 : (x2 + 256 * x1 + 65536 * x0) >>> 8 = x1 + 256 * x0 := by
    rw [Nat.shiftRight_eq_div_pow]; omega
  have e3 : swap24 ((x0 + 256 * x1) <<< 8) = x1 + 256 * x0 := by
    have := swap24_bytes 0 x0 x1 (by decide) h0 h1
    rw [Nat.shiftLeft_eq]
    rw [show (x0 + 256 * x1) * 2 ^ 8 = 0 + 256 * x0 + 65536 * x1 by omega, this]; omega
  rw [e1, e2, hT _ hx, hr', Nat.xor_assoc, ← shiftLeft_xor, crc24_bit_iterate_xor,
    crc24_bit_iterate_of_lt 8 _ (by decide) hlo, swap24_xor, e3]

theorem Bytes.drop {p : List Nat} (h : Bytes p) (k : Nat) : Bytes (p.drop k) :=
  fun x hx => h x (List.mem_of_mem_drop hx)

theorem Bytes.take {p : List Nat} (h : Bytes p) (k : Nat) : Bytes (p.take k) :=
  fun x hx => h x (List.mem_of_mem_take hx)

theorem foldl_inv (next : Nat → Nat → Nat) (Inv : Nat → Prop)
    (hinv : ∀ crc b, Inv crc → b < 256 → Inv (next crc b)) :
    ∀ (p : List Nat) (crc : Nat), Inv crc → Bytes p → Inv (List.foldl next crc p) := by
  intro p
  induction p with
  | nil => intro crc h _; exact h
  | cons b q ih =>
    intro crc h hb
    exact ih _ (hinv _ _ h (hb b (List.mem_cons_self _ _)))
      (fun x hx => hb x (List.mem_cons_of_mem _ hx))

theorem take_add_foldl (next : Nat → Nat → Nat) (crc : Nat) (p : List Nat) (m n : Nat) :
    List.foldl next crc (p.take (n + m))
      = List.foldl next (List.foldl next crc (p.take m)) ((p.drop m).take n) := by
  rw [Nat.add_comm, List.take_add, List.foldl_append]

/-- The three loops of a write function compute the left fold of the scalar
step over the first `inlen` bytes, given the loop equations and that the
slicing step agrees with four scalar steps on registers satisfying `Inv`. -/
theorem loops_eq_foldl (next next4 : Nat → Nat → Nat)
    (W16 W4 : Nat → Nat → List Nat → Nat × List Nat × Nat) (W1 : Nat → Nat → List Nat → Nat)
    (Inv : Nat → Prop)
    (h16s : ∀ n crc p, W16 (n + 16) crc p =
      W16 n (next4 (next4 (next4 (next4 crc (buf_get_le32 p)) (buf_get_le32 (p.drop 4)))
        (buf_get_le32 (p.drop 8))) (buf_get_le32 (p.drop 12))) (p.drop 16))
    (h16b : ∀ n crc p, n < 16 → W16 n crc p = (crc, p, n))
    (h4s : ∀ n crc p, W4 (n + 4) crc p = W4 n (next4 crc (buf_get_le32 p)) (p.drop 4))
    (h4b : ∀ n crc p, n < 4 → W4 n crc p = (crc, p, n))
    (h1s : ∀ n crc p, W1 (n + 1) crc p = W1 n (next crc (p.getD 0 0)) (p.drop 1))
    (h1b : ∀ crc p, W1 0 crc p = crc)
    (hstep : ∀ crc p, Inv crc → Bytes p → 4 ≤ p.length →
      next4 crc (buf_get_le32 p) = List.foldl next crc (p.take 4))
    (hinv : ∀ crc b, Inv crc → b < 256 → Inv (next crc b)) :
    ∀ (n crc : Nat) (p : List Nat), Inv crc → Bytes p → n ≤ p.length →
      W1 (W4 (W16 n crc p).2.2 (W16 n crc p).1 (W16 n crc p).2.1).2.2
         (W4 (W16 n crc p).2.2 (W16 n crc p).1 (W16 n crc p).2.1).1
         (W4 (W16 n crc p).2.2 (W16 n crc p).1 (W16 n crc p).2.1).2.1
        = List.foldl next crc (p.take n) := by
  -- the last loop
  have w1 : ∀ (n crc : Nat) (p : List Nat), n ≤ p.length →
      W1 n crc p = List.foldl next crc (p.take n) := by
    intro n
    induction n with
    | zero => intro crc p _; rw [h1b]; rfl
    | succ n ih =>
      intro crc p hn
      cases p with
      | nil => simp at hn
      | cons b q =>
        rw [h1s, ih _ _ (by simpa using hn)]
        rfl
  -- the middle loop
  have w4 : ∀ (n crc : Nat) (p : List Nat), Inv crc → Bytes p → n ≤ p.length →
      W1 (W4 n crc p).2.2 (W4 n crc p).1 (W4 n crc p).2.1 = List.foldl next crc (p.take n) := by
    intro n
    induction n using Nat.strong_induction_on with
    | _ n ih =>
      intro crc p hc hb hn
      by_cases h : n < 4
      · rw [h4b n crc p h]; exact w1 n crc p hn
      · obtain ⟨m, rfl⟩ : ∃ m, n = m + 4 := ⟨n - 4, by omega⟩
        have hl : 4 ≤ p.length := by omega
        rw [h4s, hstep crc p hc hb hl,
          ih m (by omega) _ _ (foldl_inv next Inv hinv _ _ hc (hb.take 4)) (hb.drop 4)
            (by rw [List.length_drop]; omega),
          take_add_foldl]
  -- the first loop
  intro n
  induction n using Nat.strong_induction_on with
  | _ n ih =>
    intro crc p hc hb hn
    by_cases h : n < 16
    · rw [h16b n crc p h]; exact w4 n crc p hc hb hn
    · obtain ⟨m, rfl⟩ : ∃ m, n = m + 16 := ⟨n - 16, by omega⟩
      have i1 := foldl_inv next Inv hinv _ _ hc (hb.take 4)
      have i2 := foldl_inv next Inv hinv _ _ i1 ((hb.drop 4).take 4)
      have i3 := foldl_inv next Inv hinv _ _ i2 ((hb.drop 8).take 4)
      have i4 := foldl_inv next Inv hinv _ _ i3 ((hb.drop 12).take 4)
      have e1 := hstep crc p hc hb (by omega)
      have e2 := hstep _ (p.drop 4) i1 (hb.drop 4) (by rw [List.length_drop]; omega)
      have e3 := hstep _ (p.drop 8) i2 (hb.drop 8) (by rw [List.length_drop]; omega)
      have e4 := hstep _ (p.drop 12) i3 (hb.drop 12) (by rw [List.length_drop]; omega)
      have e16 : List.foldl next (List.foldl next (List.foldl next (List.foldl next crc
          (p.take 4)) ((p.drop 4).take 4)) ((p.drop 8).take 4)) ((p.drop 12).take 4)
          = List.foldl next crc (p.take 16) := by
        have t16 : p.take 16 = p.take 4 ++ (p.drop 4).take 4 ++ (p.drop 8).take 4
            ++ (p.drop 12).take 4 := by
          rw [show (16 : Nat) = 4 + (4 + (4 + 4)) from rfl, List.take_add, List.take_add,
            List.take_add, List.drop_drop, List.drop_drop]
          simp [List.append_assoc]
        rw [t16, List.foldl_append, List.foldl_append, List.foldl_append]
      rw [h16s, e1, e2, e3, e4, e16,
        ih m (by omega) _ _ (e16 ▸ i4) (hb.drop 16) (by rw [List.length_drop]; omega),
        take_add_foldl]

theorem crc32_table_eq_gen : crc32_table = (List.range 1024).map (tableGen crc32_slice0) := by
  decide!

theorem crc24_table_eq_gen : crc24_table = (List.range 1024).map (tableGen crc24_slice0) := by
  decide!

theorem getD_map_range (f : Nat → Nat) (n i : Nat) (h : i < n) :
    ((List.range n).map f).getD i 0 = f i := by
  simp [List.getD_eq_getElem?_getD, List.getElem?_map, List.getElem?_range h]

theorem tableGen_of_lt (g0 : Nat → Nat) (i : Nat) (h : i < 256) : tableGen g0 i = g0 i := by
  unfold tableGen
  rw [Nat.div_eq_of_lt h, Nat.mod_eq_of_lt h]; rfl

theorem tableGen_facts (T g0 : Nat → Nat) (hT : ∀ i, i < 1024 → T i = tableGen g0 i)
    (hg : ∀ i j, i < 256 → j < 256 → g0 (i ^^^ j) = g0 i ^^^ g0 j) :
    (∀ i, i < 256 → T i = g0 i) ∧ SliceLinear T ∧ SlicesAdvance T := by
  have h0 : ∀ i, i < 256 → T i = g0 i := fun i hi => by
    rw [hT i (by omega), tableGen_of_lt g0 i hi]
  have hz : ∀ x, zeroStep T x = zeroStep g0 x := fun x => by
    unfold zeroStep; rw [h0 _ (and_ff_lt x)]
  refine ⟨h0, ?_, ?_⟩
  · intro i j hi hj
    rw [h0 _ (Nat.xor_lt_two_pow (n := 8) hi hj), h0 i hi, h0 j hj, hg i j hi hj]
  · intro i hi
    have d1 : (i + 0x100) / 256 = 1 := by omega
    have d2 : (i + 0x200) / 256 = 2 := by omega
    have d3 : (i + 0x300) / 256 = 3 := by omega
    have m1 : (i + 0x100) % 256 = i := by omega
    have m2 : (i + 0x200) % 256 = i := by omega
    have m3 : (i + 0x300) % 256 = i := by omega
    have t1 : T (i + 0x100) = zeroStep g0 (g0 i) := by
      rw [hT _ (by omega)]; unfold tableGen; rw [d1, m1]; rfl
    have t2 : T (i + 0x200) = zeroStep g0 (zeroStep g0 (g0 i)) := by
      rw [hT _ (by omega)]; unfold tableGen; rw [d2, m2]; rfl
    have t3 : T (i + 0x300) = zeroStep g0 (zeroStep g0 (zeroStep g0 (g0 i))) := by
      rw [hT _ (by omega)]; unfold tableGen; rw [d3, m3]; rfl
    simp only [t1, t2, t3, hz, h0 i hi, and_self]

theorem T32_eq_gen (i : Nat) (h : i < 1024) : T32 i = tableGen crc32_slice0 i := by
  unfold T32; rw [crc32_table_eq_gen]; exact getD_map_range _ _ _ h

theorem T24_eq_gen (i : Nat) (h : i < 1024) : T24 i = tableGen crc24_slice0 i := by
  unfold T24; rw [crc24_table_eq_gen]; exact getD_map_range _ _ _ h

theorem crc32_slice0_xor (i j : Nat) : crc32_slice0 (i ^^^ j) = crc32_slice0 i ^^^ crc32_slice0 j :=
  crc32_bit_iterate_xor 8 i j

theorem crc24_slice0_eq (i : Nat) : crc24_slice0 i = swap24 (crc24_bit^[8] (i <<< 16)) :=
  bswap32_shift _

theorem crc24_slice0_xor (i j : Nat) : crc24_slice0 (i ^^^ j) = crc24_slice0 i ^^^ crc24_slice0 j := by
  simp only [crc24_slice0_eq, shiftLeft_xor, crc24_bit_iterate_xor, swap24_xor]

theorem T32_facts : (∀ i, i < 256 → T32 i = crc32_slice0 i) ∧ SliceLinear T32 ∧ SlicesAdvance T32 :=
  tableGen_facts T32 crc32_slice0 T32_eq_gen (fun i j _ _ => crc32_slice0_xor i j)

theorem T24_facts : (∀ i, i < 256 → T24 i = crc24_slice0 i) ∧ SliceLinear T24 ∧ SlicesAdvance T24 :=
  tableGen_facts T24 crc24_slice0 T24_eq_gen (fun i j _ _ => crc24_slice0_xor i j)

theorem zeroStep_T32 (x : Nat) : zeroStep T32 x = crc32_bit^[8] x := by
  unfold zeroStep
  rw [T32_facts.1 _ (and_ff_lt x), crc32_bit_iterate_split x 8, and_ff_eq_mod]; rfl

theorem crc32_next_eq (c b : Nat) (hb : b < 256) : crc32_next c b = crc32_bit^[8] (c ^^^ b) := by
  rw [← zeroStep_T32]; exact scalar_eq_zeroStep T32 c b hb

theorem crc24_next_eq (r b : Nat) (hr : r < 2 ^ 24) (hb : b < 256) :
    crc24_next (swap24 r) b = swap24 (crc24_bit^[8] (r ^^^ (b <<< 16))) :=
  crc24_scalar_conj T24 (fun k hk => by rw [T24_facts.1 k hk, crc24_slice0_eq]) r b hr hb

theorem crc32_bit_lt (r : Nat) (h : r < 2 ^ 32) : crc32_bit r < 2 ^ 32 := by
  have h1 : r >>> 1 < 2 ^ 32 := by rw [Nat.shiftRight_eq_div_pow]; omega
  unfold crc32_bit
  split
  · exact Nat.xor_lt_two_pow h1 (by decide)
  · exact h1

theorem crc32_bit_iterate_lt (k r : Nat) (h : r < 2 ^ 32) : crc32_bit^[k] r < 2 ^ 32 := by
  induction k generalizing r with
  | zero => exact h
  | succ k ih => rw [Function.iterate_succ_apply]; exact ih _ (crc32_bit_lt r h)

theorem crc32_next_lt (crc b : Nat) (hc : crc < 2 ^ 32) (hb : b < 256) :
    crc32_next crc b < 2 ^ 32 := by
  rw [crc32_next_eq crc b hb]
  exact crc32_bit_iterate_lt 8 _ (Nat.xor_lt_two_pow hc (lt_of_lt_of_le hb (by decide)))

theorem crc24_next_lt (crc b : Nat) (hc : crc < 2 ^ 24) (hb : b < 256) :
    crc24_next crc b < 2 ^ 24 := by
  rw [← swap24_swap24 crc hc, crc24_next_eq _ b (swap24_lt crc) hb]
  exact swap24_lt _

theorem buf_get_le32_cons (b0 b1 b2 b3 : Nat) (q : List Nat) :
    buf_get_le32 (b0 :: b1 :: b2 :: b3 :: q) = b0 ||| (b1 <<< 8) ||| (b2 <<< 16) ||| (b3 <<< 24) :=
  rfl

theorem exists_four (p : List Nat) (h : 4 ≤ p.length) :
    ∃ b0 b1 b2 b3 q, p = b0 :: b1 :: b2 :: b3 :: q := by
  match p, h with
  | b0 :: b1 :: b2 :: b3 :: q, _ => exact ⟨b0, b1, b2, b3, q, rfl⟩

theorem crc32_next_zeroStep (c b : Nat) (hb : b < 256) :
    crc32_next c b = zeroStep T32 (c ^^^ b) :=
  scalar_eq_zeroStep T32 c b hb

theorem crc24_next_zeroStep (c b : Nat) (hb : b < 256) :
    crc24_next c b = zeroStep T24 (c ^^^ b) :=
  scalar_eq_zeroStep T24 c b hb

/-- On a 32-bit register the CRC-32 slicing step is four zero-byte steps. -/
theorem crc32_next4_zeroStep (crc w : Nat) (hx : crc ^^^ w < 2 ^ 32) :
    crc32_next4 crc w
      = zeroStep T32 (zeroStep T32 (zeroStep T32 (zeroStep T32 (crc ^^^ w)))) :=
  slicing_eq_zeroStep T32_facts.2.1 T32_facts.2.2 _ hx

/-- On a 24-bit register the CRC-24 slicing step is four zero-byte steps: the
high byte of `crc ^ data` is then the high byte of `data`. -/
theorem crc24_next4_zeroStep (crc w : Nat) (hc : crc < 2 ^ 24) (hx : crc ^^^ w < 2 ^ 32) :
    crc24_next4 crc w
      = zeroStep T24 (zeroStep T24 (zeroStep T24 (zeroStep T24 (crc ^^^ w)))) := by
  have hhi : (w >>> 24) &&& 0xff = ((crc ^^^ w) >>> 24) &&& 0xff := by
    rw [shiftRight_xor, shiftRight_eq_zero_of_lt hc, Nat.zero_xor]
  have hn : crc24_next4 crc w = T24 (((crc ^^^ w) &&& 0xff) + 0x300) ^^^
      T24 ((((crc ^^^ w) >>> 8) &&& 0xff) + 0x200) ^^^
      T24 ((((crc ^^^ w) >>> 16) &&& 0xff) + 0x100) ^^^ T24 ((w >>> 24) &&& 0xff) := rfl
  rw [hn, hhi, slicing_eq_zeroStep T24_facts.2.1 T24_facts.2.2 _ hx]

theorem crc32_next4_eq (crc : Nat) (p : List Nat) (hc : crc < 2 ^ 32) (hb : Bytes p)
    (hl : 4 ≤ p.length) :
    crc32_next4 crc (buf_get_le32 p) = List.foldl crc32_next crc (p.take 4) := by
  obtain ⟨b0, b1, b2, b3, q, rfl⟩ := exists_four p hl
  have h0 : b0 < 256 := hb b0 (by simp)
  have h1 : b1 < 256 := hb b1 (by simp)
  have h2 : b2 < 256 := hb b2 (by simp)
  have h3 : b3 < 256 := hb b3 (by simp)
  obtain ⟨e, hlt⟩ := le32_eq_xor b0 b1 b2 b3 h0 h1 h2 h3
  have hx := Nat.xor_lt_two_pow hc hlt
  rw [buf_get_le32_cons, e, crc32_next4_zeroStep crc _ hx]
  simp only [List.take_succ_cons, List.take_zero, List.foldl_cons, List.foldl_nil]
  rw [crc32_next_zeroStep _ b3 h3, crc32_next_zeroStep _ b2 h2, crc32_next_zeroStep _ b1 h1,
    crc32_next_zeroStep _ b0 h0, four_scalar_eq_zeroStep T32_facts.2.1]

theorem crc24_next4_eq (crc : Nat) (p : List Nat) (hc : crc < 2 ^ 24) (hb : Bytes p)
    (hl : 4 ≤ p.length) :
    crc24_next4 crc (buf_get_le32 p) = List.foldl crc24_next crc (p.take 4) := by
  obtain ⟨b0, b1, b2, b3, q, rfl⟩ := exists_four p hl
  have h0 : b0 < 256 := hb b0 (by simp)
  have h1 : b1 < 256 := hb b1 (by simp)
  have h2 : b2 < 256 := hb b2 (by simp)
  have h3 : b3 < 256 := hb b3 (by simp)
  obtain ⟨e, hlt⟩ := le32_eq_xor b0 b1 b2 b3 h0 h1 h2 h3
  have hx := Nat.xor_lt_two_pow (lt_of_lt_of_le hc (by decide : 2 ^ 24 ≤ 2 ^ 32)) hlt
  rw [buf_get_le32_cons, e, crc24_next4_zeroStep crc _ hc hx]
  simp only [List.take_succ_cons, List.take_zero, List.foldl_cons, List.foldl_nil]
  rw [crc24_next_zeroStep _ b3 h3, crc24_next_zeroStep _ b2 h2, crc24_next_zeroStep _ b1 h1,
    crc24_next_zeroStep _ b0 h0, four_scalar_eq_zeroStep T24_facts.2.1]

/-! ### The write loops -/

theorem crc32_while16_step (n crc : Nat) (p : List Nat) :
    crc32_write_while16 (n + 16) crc p =
      crc32_write_while16 n (crc32_next4 (crc32_next4 (crc32_next4 (crc32_next4 crc
        (buf_get_le32 p)) (buf_get_le32 (p.drop 4))) (buf_get_le32 (p.drop 8)))
        (buf_get_le32 (p.drop 12))) (p.drop 16) := rfl

theorem crc32_while16_base (n crc : Nat) (p : List Nat) (h : n < 16) :
    crc32_write_while16 n crc p = (crc, p, n) := by
  interval_cases n <;> rfl

theorem crc32_while4_step (n crc : Nat) (p : List Nat) :
    crc32_write_while4 (n + 4) crc p =
      crc32_write_while4 n (crc32_next4 crc (buf_get_le32 p)) (p.drop 4) := rfl

theorem crc32_while4_base (n crc : Nat) (p : List Nat) (h : n < 4) :
    crc32_write_while4 n crc p = (crc, p, n) := by
  interval_cases n <;> rfl

theorem crc24_while16_step (n crc : Nat) (p : List Nat) :
    crc24rfc2440_write_while16 (n + 16) crc p =
      crc24rfc2440_write_while16 n (crc24_next4 (crc24_next4 (crc24_next4 (crc24_next4 crc
        (buf_get_le32 p)) (buf_get_le32 (p.drop 4))) (buf_get_le32 (p.drop 8)))
        (buf_get_le32 (p.drop 12))) (p.drop 16) := rfl

theorem crc24_while16_base (n crc : Nat) (p : List Nat) (h : n < 16) :
    crc24rfc2440_write_while16 n crc p = (crc, p, n) := by
  interval_cases n <;> rfl

theorem crc24_while4_step (n crc : Nat) (p : List Nat) :
    crc24rfc2440_write_while4 (n + 4) crc p =
      crc24rfc2440_write_while4 n (crc24_next4 crc (buf_get_le32 p)) (p.drop 4) := rfl

theorem crc24_while4_base (n crc : Nat) (p : List Nat) (h : n < 4) :
    crc24rfc2440_write_while4 n crc p = (crc, p, n) := by
  interval_cases n <;> rfl

/-- The portable loops of `crc32_write` fold `crc32_next` over the first
`inlen` bytes of the buffer. -/
theorem crc32_engine_eq_foldl (crc : Nat) (p : List Nat) (n : Nat) (hc : crc < 2 ^ 32)
    (hb : Bytes p) (hn : n ≤ p.length) :
    crc32_engine crc p n = List.foldl crc32_next crc (p.take n) :=
  loops_eq_foldl crc32_next crc32_next4 crc32_write_while16 crc32_write_while4
    crc32_write_while1 (fun c => c < 2 ^ 32) crc32_while16_step crc32_while16_base
    crc32_while4_step crc32_while4_base (fun _ _ _ => rfl) (fun _ _ => rfl)
    crc32_next4_eq crc32_next_lt n crc p hc hb hn

/-- The portable loops of `crc24rfc2440_write` fold `crc24_next` over the first
`inlen` bytes of the buffer, from a 24-bit register. -/
theorem crc24_engine_eq_foldl (crc : Nat) (p : List Nat) (n : Nat) (hc : crc < 2 ^ 24)
    (hb : Bytes p) (hn : n ≤ p.length) :
    crc24_engine crc p n = List.foldl crc24_next crc (p.take n) :=
  loops_eq_foldl crc24_next crc24_next4 crc24rfc2440_write_while16 crc24rfc2440_write_while4
    crc24rfc2440_write_while1 (fun c => c < 2 ^ 24) crc24_while16_step crc24_while16_base
    crc24_while4_step crc24_while4_base (fun _ _ _ => rfl) (fun _ _ => rfl)
    crc24_next4_eq crc24_next_lt n crc p hc hb hn

theorem crc32_foldl_lt (crc : Nat) (p : List Nat) (hc : crc < 2 ^ 32) (hb : Bytes p) :
    List.foldl crc32_next crc p < 2 ^ 32 :=
  foldl_inv crc32_next (fun c => c < 2 ^ 32) crc32_next_lt p crc hc hb

theorem crc24_foldl_lt (crc : Nat) (p : List Nat) (hc : crc < 2 ^ 24) (hb : Bytes p) :
    List.foldl crc24_next crc p < 2 ^ 24 :=
  foldl_inv crc24_next (fun c => c < 2 ^ 24) crc24_next_lt p crc hc hb

/-! ### The write functions on the portable path -/

theorem portable_congr (P : Platform) (ctx ctx2 : CRC_CONTEXT)
    (h1 : ctx2.use_pclmul = ctx.use_pclmul) (h2 : ctx2.use_pmull = ctx.use_pmull)
    (h3 : ctx2.use_vpmsum = ctx.use_vpmsum) (hp : portable P ctx) : portable P ctx2 := by
  unfold portable at hp ⊢; rw [h1, h2, h3]; exact hp

theorem crc32_write_portable (P : Platform) (ctx : CRC_CONTEXT) (p : List Nat) (n : Nat)
    (hp : portable P ctx) :
    crc32_write P ctx (some p) n = { ctx with CRC := crc32_engine ctx.CRC p n } := by
  obtain ⟨h1, h2, h3⟩ := hp
  unfold crc32_write
  rw [h1, h2, h3]
  by_cases hn : n = 0
  · subst hn; cases ctx; rfl
  · simp only [Bool.false_eq_true, if_false, hn]; rfl

theorem crc24rfc2440_write_portable (P : Platform) (ctx : CRC_CONTEXT) (p : List Nat) (n : Nat)
    (hp : portable P ctx) :
    crc24rfc2440_write P ctx (some p) n = { ctx with CRC := crc24_engine ctx.CRC p n } := by
  obtain ⟨h1, h2, h3⟩ := hp
  unfold crc24rfc2440_write
  rw [h1, h2, h3]
  by_cases hn : n = 0
  · subst hn; cases ctx; rfl
  · simp only [Bool.false_eq_true, if_false, hn]; rfl

theorem crc32_write_null_portable (P : Platform) (ctx : CRC_CONTEXT) (n : Nat)
    (hp : portable P ctx) : crc32_write P ctx none n = ctx := by
  obtain ⟨h1, h2, h3⟩ := hp
  unfold crc32_write
  rw [h1, h2, h3]; rfl

theorem crc24rfc2440_write_null_portable (P : Platform) (ctx : CRC_CONTEXT) (n : Nat)
    (hp : portable P ctx) : crc24rfc2440_write P ctx none n = ctx := by
  obtain ⟨h1, h2, h3⟩ := hp
  unfold crc24rfc2440_write
  rw [h1, h2, h3]; rfl

theorem crc32_write_zero_portable (P : Platform) (ctx : CRC_CONTEXT) (inbuf : Option (List Nat))
    (hp : portable P ctx) : crc32_write P ctx inbuf 0 = ctx := by
  cases inbuf with
  | none => exact crc32_write_null_portable P ctx 0 hp
  | some p => rw [crc32_write_portable P ctx p 0 hp]; cases ctx; rfl

theorem crc24rfc2440_write_zero_portable (P : Platform) (ctx : CRC_CONTEXT)
    (inbuf : Option (List Nat)) (hp : portable P ctx) :
    crc24rfc2440_write P ctx inbuf 0 = ctx := by
  cases inbuf with
  | none => exact crc24rfc2440_write_null_portable P ctx 0 hp
  | some p => rw [crc24rfc2440_write_portable P ctx p 0 hp]; cases ctx; rfl

/-- A portable `crc32_write` of a whole buffer of bytes folds `crc32_next`. -/
theorem crc32_write_eq_foldl (P : Platform) (ctx : CRC_CONTEXT) (p : List Nat)
    (hp : portable P ctx) (hc : ctx.CRC < 2 ^ 32) (hb : Bytes p) :
    crc32_write P ctx (some p) p.length = { ctx with CRC := List.foldl crc32_next ctx.CRC p } := by
  rw [crc32_write_portable P ctx p _ hp, crc32_engine_eq_foldl _ _ _ hc hb (Nat.le_refl _),
    List.take_length]

/-- A portable `crc24rfc2440_write` of a whole buffer of bytes folds `crc24_next`. -/
theorem crc24rfc2440_write_eq_foldl (P : Platform) (ctx : CRC_CONTEXT) (p : List Nat)
    (hp : portable P ctx) (hc : ctx.CRC < 2 ^ 24) (hb : Bytes p) :
    crc24rfc2440_write P ctx (some p) p.length
      = { ctx with CRC := List.foldl crc24_next ctx.CRC p } := by
  rw [crc24rfc2440_write_portable P ctx p _ hp,
    crc24_engine_eq_foldl _ _ _ hc hb (Nat.le_refl _), List.take_length]

/-! ### Initialisation and finalisation -/

theorem crc32_init_CRC (P : Platform) (hwf : Nat) (ctx : CRC_CONTEXT) :
    (crc32_init P hwf ctx).CRC = 0xffffffff := rfl

theorem crc32rfc1510_init_CRC (P : Platform) (hwf : Nat) (ctx : CRC_CONTEXT) :
    (crc32rfc1510_init P hwf ctx).CRC = 0 := rfl

theorem crc24rfc2440_init_CRC (P : Platform) (hwf : Nat) (ctx : CRC_CONTEXT) :
    (crc24rfc2440_init P hwf ctx).CRC = 0xce04b7 := rfl

theorem crc32_check_engine : crc32_engine 0xffffffff check123456789 9 = 0x340bc6d9 := by
  decide!

theorem crc32rfc1510_check_engine : crc32_engine 0 check123456789 9 = 0x2dfd2d88 := by
  decide!

theorem crc24_check_engine : crc24_engine 0xce04b7 check123456789 9 = 0x02cf21 := by
  decide!

theorem buf_put_be32_eq (v : Nat) : buf_put_be32 v = bigEndian4 v := by
  unfold buf_put_be32 bigEndian4
  simp only [Nat.shiftRight_eq_div_pow, Nat.reducePow]

theorem crc32_foldl_eq_bitwise (m : List Nat) (hb : Bytes m) (c : Nat) :
    List.foldl crc32_next c m = crc32_bitwise c m := by
  induction m generalizing c with
  | nil => rfl
  | cons b q ih =>
    have h0 : b < 256 := hb b (List.mem_cons_self _ _)
    unfold crc32_bitwise at ih ⊢
    rw [List.foldl_cons, List.foldl_cons, crc32_next_eq c b h0]
    exact ih (fun x hx => hb x (List.mem_cons_of_mem _ hx)) _

theorem crc24_foldl_eq_bitwise (m : List Nat) (hb : Bytes m) (r : Nat) (hr : r < 2 ^ 24) :
    List.foldl crc24_next (swap24 r) m = swap24 (crc24_bitwise r m) ∧
      crc24_bitwise r m < 2 ^ 24 := by
  induction m generalizing r with
  | nil => exact ⟨rfl, hr⟩
  | cons b q ih =>
    have h0 : b < 256 := hb b (List.mem_cons_self _ _)
    have hlt : r ^^^ (b <<< 16) < 2 ^ 24 := by
      apply Nat.xor_lt_two_pow hr
      rw [Nat.shiftLeft_eq]; omega
    have := ih (fun x hx => hb x (List.mem_cons_of_mem _ hx)) _
      (crc24_bit_iterate_lt 8 _ hlt)
    unfold crc24_bitwise at this ⊢
    rw [List.foldl_cons, List.foldl_cons, crc24_next_eq r b hr h0]
    exact this

theorem bytes_join (chunks : List (List Nat)) (h : ∀ ch ∈ chunks, Bytes ch) :
    Bytes chunks.flatten := by
  intro x hx
  obtain ⟨ch, hch, hxc⟩ := List.mem_flatten.mp hx
  exact h ch hch x hxc

theorem bytes_append (a b : List Nat) (ha : Bytes a) (hb : Bytes b) : Bytes (a ++ b) := by
  intro x hx
  rcases List.mem_append.mp hx with h | h
  · exact ha x h
  · exact hb x h

/-- Successive portable `crc32_write` calls fold `crc32_next` over the
concatenation of the sub-buffers. -/
theorem crc32_write_all_eq (P : Platform) (chunks : List (List Nat))
    (hch : ∀ ch ∈ chunks, Bytes ch) (ctx : CRC_CONTEXT) (hp : portable P ctx)
    (hc : ctx.CRC < 2 ^ 32) :
    crc32_write_all P ctx chunks
      = { ctx with CRC := List.foldl crc32_next ctx.CRC chunks.flatten } := by
  induction chunks generalizing ctx with
  | nil => cases ctx; rfl
  | cons ch rest ih =>
    have hb : Bytes ch := hch ch (List.mem_cons_self _ _)
    have hrest : ∀ c ∈ rest, Bytes c := fun c h => hch c (List.mem_cons_of_mem _ h)
    show crc32_write_all P (crc32_write P ctx (some ch) ch.length) rest = _
    rw [crc32_write_eq_foldl P ctx ch hp hc hb,
      ih hrest { ctx with CRC := List.foldl crc32_next ctx.CRC ch }
        (portable_congr P ctx _ rfl rfl rfl hp) (crc32_foldl_lt _ _ hc hb),
      List.flatten_cons, List.foldl_append]

/-- Successive portable `crc24rfc2440_write` calls fold `crc24_next` over the
concatenation of the sub-buffers, from a 24-bit register. -/
theorem crc24rfc2440_write_all_eq (P : Platform) (chunks : List (List Nat))
    (hch : ∀ ch ∈ chunks, Bytes ch) (ctx : CRC_CONTEXT) (hp : portable P ctx)
    (hc : ctx.CRC < 2 ^ 24) :
    crc24rfc2440_write_all P ctx chunks
      = { ctx with CRC := List.foldl crc24_next ctx.CRC chunks.flatten } := by
  induction chunks generalizing ctx with
  | nil => cases ctx; rfl
  | cons ch rest ih =>
    have hb : Bytes ch := hch ch (List.mem_cons_self _ _)
    have hrest : ∀ c ∈ rest, Bytes c := fun c h => hch c (List.mem_cons_of_mem _ h)
    show crc24rfc2440_write_all P (crc24rfc2440_write P ctx (some ch) ch.length) rest = _
    rw [crc24rfc2440_write_eq_foldl P ctx ch hp hc hb,
      ih hrest { ctx with CRC := List.foldl crc24_next ctx.CRC ch }
        (portable_congr P ctx _ rfl rfl rfl hp) (crc24_foldl_lt _ _ hc hb),
      List.flatten_cons, List.foldl_append]

theorem crc32_write_all_eq_write (P : Platform) (chunks : List (List Nat))
    (hch : ∀ ch ∈ chunks, Bytes ch) (ctx : CRC_CONTEXT) (hp : portable P ctx)
    (hc : ctx.CRC < 2 ^ 32) :
    crc32_write_all P ctx chunks = crc32_write P ctx (some chunks.flatten) chunks.flatten.length := by
  rw [crc32_write_all_eq P chunks hch ctx hp hc,
    crc32_write_eq_foldl P ctx _ hp hc (bytes_join chunks hch)]

theorem crc24rfc2440_write_all_eq_write (P : Platform) (chunks : List (List Nat))
    (hch : ∀ ch ∈ chunks, Bytes ch) (ctx : CRC_CONTEXT) (hp : portable P ctx)
    (hc : ctx.CRC < 2 ^ 24) :
    crc24rfc2440_write_all P ctx chunks
      = crc24rfc2440_write P ctx (some chunks.flatten) chunks.flatten.length := by
  rw [crc24rfc2440_write_all_eq P chunks hch ctx hp hc,
    crc24rfc2440_write_eq_foldl P ctx _ hp hc (bytes_join chunks hch)]

theorem crc32_write_write (P : Platform) (ctx : CRC_CONTEXT) (a b : List Nat)
    (hp : portable P ctx) (hc : ctx.CRC < 2 ^ 32) (ha : Bytes a) (hb : Bytes b) :
    crc32_write P (crc32_write P ctx (some a) a.length) (some b) b.length
      = crc32_write P ctx (some (a ++ b)) (a ++ b).length := by
  rw [crc32_write_eq_foldl P ctx a hp hc ha,
    crc32_write_eq_foldl P { ctx with CRC := List.foldl crc32_next ctx.CRC a } b
      (portable_congr P ctx _ rfl rfl rfl hp)
      (crc32_foldl_lt _ _ hc ha) hb,
    crc32_write_eq_foldl P ctx _ hp hc (bytes_append a b ha hb), List.foldl_append]

theorem crc24rfc2440_write_write (P : Platform) (ctx : CRC_CONTEXT) (a b : List Nat)
    (hp : portable P ctx) (hc : ctx.CRC < 2 ^ 24) (ha : Bytes a) (hb : Bytes b) :
    crc24rfc2440_write P (crc24rfc2440_write P ctx (some a) a.length) (some b) b.length
      = crc24rfc2440_write P ctx (some (a ++ b)) (a ++ b).length := by
  rw [crc24rfc2440_write_eq_foldl P ctx a hp hc ha,
    crc24rfc2440_write_eq_foldl P { ctx with CRC := List.foldl crc24_next ctx.CRC a } b
      (portable_congr P ctx _ rfl rfl rfl hp)
      (crc24_foldl_lt _ _ hc ha) hb,
    crc24rfc2440_write_eq_foldl P ctx _ hp hc (bytes_append a b ha hb), List.foldl_append]

/-- The three init functions set the same backend indicators. -/
theorem portable_init (P : Platform) (hwf : Nat) (ctx : CRC_CONTEXT) :
    (portable P (crc32rfc1510_init P hwf ctx) ↔ portable P (crc32_init P hwf ctx)) ∧
    (portable P (crc24rfc2440_init P hwf ctx) ↔ portable P (crc32_init P hwf ctx)) :=
  ⟨Iff.rfl, Iff.rfl⟩

theorem crc32_final_read (ctx : CRC_CONTEXT) :
    crc32_read (crc32_final ctx) = bigEndian4 (ctx.CRC ^^^ 0xffffffff) :=
  buf_put_be32_eq _

theorem crc32rfc1510_final_read (ctx : CRC_CONTEXT) :
    crc32_read (crc32rfc1510_final ctx) = bigEndian4 ctx.CRC :=
  buf_put_be32_eq _

theorem bytes3_parts (x0 x1 x2 : Nat) (h0 : x0 < 256) (h1 : x1 < 256) (h2 : x2 < 256) :
    (x0 + 256 * x1 + 65536 * x2) % 256 = x0 ∧
    (x0 + 256 * x1 + 65536 * x2) / 256 % 256 = x1 ∧
    (x0 + 256 * x1 + 65536 * x2) / 65536 % 256 = x2 ∧
    (x0 + 256 * x1 + 65536 * x2) / 16777216 % 256 = 0 := by
  refine ⟨?_, ?_, ?_, ?_⟩ <;> omega

theorem crc24rfc2440_final_read (ctx : CRC_CONTEXT) (r : Nat) (hr : r < 2 ^ 24)
    (h : ctx.CRC = swap24 r) :
    crc32_read (crc24rfc2440_final ctx) = bigEndian3 r ++ [0] := by
  show buf_put_le32 (crc24_final ctx.CRC) = _
  unfold buf_put_le32 crc24_final bigEndian3
  rw [h, and_ffffff_eq_mod, Nat.mod_eq_of_lt (show swap24 r < 16777216 from swap24_lt r)]
  obtain ⟨x0, x1, x2, h0, h1, h2, rfl⟩ := bytes3 r hr
  obtain ⟨r0, r1, r2, _⟩ := bytes3_parts x0 x1 x2 h0 h1 h2
  obtain ⟨s0, s1, s2, s3⟩ := bytes3_parts x2 x1 x0 h2 h1 h0
  rw [swap24_bytes x0 x1 x2 h0 h1 h2]
  simp only [Nat.shiftRight_eq_div_pow, Nat.reducePow, r0, r1, r2, s0, s1, s2, s3]
  rfl

/-! ### Writes through a backend modelled from the spec -/

theorem crc32_write_eq_accelerated (P : Platform) (ctx : CRC_CONTEXT)
    (inbuf : Option (List Nat)) (inlen : Nat) (h : portable P ctx ∨ SpecBackends P) :
    crc32_write P ctx inbuf inlen
      = { ctx with CRC := crc32_accelerated ctx.CRC inbuf inlen } := by
  have hport : portable P ctx → crc32_write P ctx inbuf inlen
      = { ctx with CRC := crc32_accelerated ctx.CRC inbuf inlen } := by
    intro hp
    cases inbuf with
    | none => rw [crc32_write_null_portable P ctx inlen hp]; cases ctx; rfl
    | some p =>
      rw [crc32_write_portable P ctx p inlen hp]
      by_cases hn : inlen = 0
      · subst hn; rfl
      · simp only [crc32_accelerated, hn, if_false]
  rcases h with hp | ⟨h1, h2, h3, -, -, -⟩
  · exact hport hp
  · by_cases c1 : (P.USE_INTEL_PCLMUL && ctx.use_pclmul) = true
    · unfold crc32_write; rw [if_pos c1, h1]
    · by_cases c2 : (P.USE_ARM_PMULL && ctx.use_pmull) = true
      · unfold crc32_write; rw [if_neg c1, if_pos c2, h2]
      · by_cases c3 : (P.USE_PPC_VPMSUM && ctx.use_vpmsum) = true
        · unfold crc32_write; rw [if_neg c1, if_neg c2, if_pos c3, h3]
        · exact hport ⟨by simpa using c1, by simpa using c2, by simpa using c3⟩

theorem crc24rfc2440_write_eq_accelerated (P : Platform) (ctx : CRC_CONTEXT)
    (inbuf : Option (List Nat)) (inlen : Nat) (h : portable P ctx ∨ SpecBackends P) :
    crc24rfc2440_write P ctx inbuf inlen
      = { ctx with CRC := crc24rfc2440_accelerated ctx.CRC inbuf inlen } := by
  have hport : portable P ctx → crc24rfc2440_write P ctx inbuf inlen
      = { ctx with CRC := crc24rfc2440_accelerated ctx.CRC inbuf inlen } := by
    intro hp
    cases inbuf with
    | none => rw [crc24rfc2440_write_null_portable P ctx inlen hp]; cases ctx; rfl
    | some p =>
      rw [crc24rfc2440_write_portable P ctx p inlen hp]
      by_cases hn : inlen = 0
      · subst hn; rfl
      · simp only [crc24rfc2440_accelerated, hn, if_false]
  rcases h with hp | ⟨-, -, -, h1, h2, h3⟩
  · exact hport hp
  · by_cases c1 : (P.USE_INTEL_PCLMUL && ctx.use_pclmul) = true
    · unfold crc24rfc2440_write; rw [if_pos c1, h1]
    · by_cases c2 : (P.USE_ARM_PMULL && ctx.use_pmull) = true
      · unfold crc24rfc2440_write; rw [if_neg c1, if_pos c2, h2]
      · by_cases c3 : (P.USE_PPC_VPMSUM && ctx.use_vpmsum) = true
        · unfold crc24rfc2440_write; rw [if_neg c1, if_neg c2, if_pos c3, h3]
        · exact hport ⟨by simpa using c1, by simpa using c2, by simpa using c3⟩

theorem crc32_accelerated_zero (crc : Nat) (inbuf : Option (List Nat)) :
    crc32_accelerated crc inbuf 0 = crc := by
  cases inbuf <;> rfl

theorem crc24rfc2440_accelerated_zero (crc : Nat) (inbuf : Option (List Nat)) :
    crc24rfc2440_accelerated crc inbuf 0 = crc := by
  cases inbuf <;> rfl

theorem crc32_write_zero (P : Platform) (ctx : CRC_CONTEXT) (inbuf : Option (List Nat))
    (h : portable P ctx ∨ SpecBackends P) : crc32_write P ctx inbuf 0 = ctx := by
  rw [crc32_write_eq_accelerated P ctx inbuf 0 h, crc32_accelerated_zero]

theorem crc24rfc2440_write_zero (P : Platform) (ctx : CRC_CONTEXT) (inbuf : Option (List Nat))
    (h : portable P ctx ∨ SpecBackends P) : crc24rfc2440_write P ctx inbuf 0 = ctx := by
  rw [crc24rfc2440_write_eq_accelerated P ctx inbuf 0 h, crc24rfc2440_accelerated_zero]

theorem crc32_write_null (P : Platform) (ctx : CRC_CONTEXT) (inlen : Nat)
    (h : portable P ctx ∨ SpecBackends P) : crc32_write P ctx none inlen = ctx := by
  rw [crc32_write_eq_accelerated P ctx none inlen h]; rfl

theorem crc24rfc2440_write_null (P : Platform) (ctx : CRC_CONTEXT) (inlen : Nat)
    (h : portable P ctx ∨ SpecBackends P) : crc24rfc2440_write P ctx none inlen = ctx := by
  rw [crc24rfc2440_write_eq_accelerated P ctx none inlen h]; rfl

theorem crc32_write_empty_eq (P : Platform) (bufs : List (Option (List Nat)))
    (ctx : CRC_CONTEXT) (h : portable P ctx ∨ SpecBackends P) :
    crc32_write_empty P ctx bufs = ctx := by
  induction bufs with
  | nil => rfl
  | cons p rest ih =>
    show crc32_write_empty P (crc32_write P ctx p 0) rest = ctx
    rw [crc32_write_zero P ctx p h, ih]

theorem crc24rfc2440_write_empty_eq (P : Platform) (bufs : List (Option (List Nat)))
    (ctx : CRC_CONTEXT) (h : portable P ctx ∨ SpecBackends P) :
    crc24rfc2440_write_empty P ctx bufs = ctx := by
  induction bufs with
  | nil => rfl
  | cons p rest ih =>
    show crc24rfc2440_write_empty P (crc24rfc2440_write P ctx p 0) rest = ctx
    rw [crc24rfc2440_write_zero P ctx p h, ih]

theorem crc32_reference_check : crc32_reference check123456789 = 0xCBF43926 := by
  decide!

theorem crc32rfc1510_reference_check : crc32rfc1510_reference check123456789 = 0x2DFD2D88 := by
  decide!

theorem crc24_reference_check : crc24_reference check123456789 = 0x21CF02 := by
  decide!

theorem crc32_write_frame (P : Platform) (ctx : CRC_CONTEXT) (inbuf : Option (List Nat))
    (inlen : Nat) : sameFrame (crc32_write P ctx inbuf inlen) ctx := by
  unfold crc32_write sameFrame
  split_ifs <;> first
    | exact ⟨rfl, rfl, rfl, rfl⟩
    | (cases inbuf <;> exact ⟨rfl, rfl, rfl, rfl⟩)

theorem crc24rfc2440_write_frame (P : Platform) (ctx : CRC_CONTEXT)
    (inbuf : Option (List Nat)) (inlen : Nat) :
    sameFrame (crc24rfc2440_write P ctx inbuf inlen) ctx := by
  unfold crc24rfc2440_write sameFrame
  split_ifs <;> first
    | exact ⟨rfl, rfl, rfl, rfl⟩
    | (cases inbuf <;> exact ⟨rfl, rfl, rfl, rfl⟩)

theorem specBackends_pclmulPlatform : SpecBackends pclmulPlatform :=
  ⟨rfl, rfl, rfl, rfl, rfl, rfl⟩

/-! ### Initialisation, reads and words -/

theorem read_calls_crc32_read (n : Nat) (ctx : CRC_CONTEXT) :
    read_calls crc32_read n ctx = (List.replicate n ctx.buf, ctx) := by
  induction n with
  | zero => rfl
  | succ n ih =>
    show (crc32_read ctx :: (read_calls crc32_read n ctx).1, (read_calls crc32_read n ctx).2) = _
    rw [ih]; rfl

theorem portable_portableContext (P : Platform) (ctx : CRC_CONTEXT) :
    portable P (portableContext ctx) := by
  unfold portable portableContext
  simp

theorem init_use_pclmul (P : Platform) (hwf : Nat) (ctx : CRC_CONTEXT)
    (h : P.USE_INTEL_PCLMUL = true) :
    (crc32_init P hwf ctx).use_pclmul
      = ((hwf &&& P.HWF_INTEL_SSE4_1 != 0) && (hwf &&& P.HWF_INTEL_PCLMUL != 0)) := by
  unfold crc32_init
  rw [h]
  by_cases h2 : P.USE_ARM_PMULL = true <;> by_cases h3 : P.USE_PPC_VPMSUM = true <;>
    simp [h2, h3]

theorem init_use_pmull (P : Platform) (hwf : Nat) (ctx : CRC_CONTEXT)
    (h : P.USE_ARM_PMULL = true) :
    (crc32_init P hwf ctx).use_pmull
      = ((hwf &&& P.HWF_ARM_NEON != 0) && (hwf &&& P.HWF_ARM_PMULL != 0)) := by
  unfold crc32_init
  rw [h]
  by_cases h1 : P.USE_INTEL_PCLMUL = true <;> by_cases h3 : P.USE_PPC_VPMSUM = true <;>
    simp [h1, h3]

theorem bne_zero_and (a b : Nat) :
    ((a != 0) && (b != 0)) = true ↔ a ≠ 0 ∧ b ≠ 0 := by
  simp

/-- A 32-bit word is the exclusive-or of its four bytes, each at its place. -/
theorem word_split (w : Nat) (hw : w < 2 ^ 32) :
    (w &&& 0xff) ^^^ (((w >>> 8) &&& 0xff) <<< 8) ^^^ (((w >>> 16) &&& 0xff) <<< 16)
      ^^^ (((w >>> 24) &&& 0xff) <<< 24) = w := by
  simp only [and_ff_eq_mod, Nat.shiftRight_eq_div_pow, Nat.reducePow]
  have h1 : w % 256 < 2 ^ 8 := by omega
  rw [xor_shiftLeft_eq_add _ _ 8 h1]
  have h2 : w % 256 + w / 256 % 256 * 2 ^ 8 < 2 ^ 16 := by omega
  rw [xor_shiftLeft_eq_add _ _ 16 h2]
  have h3 : w % 256 + w / 256 % 256 * 2 ^ 8 + w / 65536 % 256 * 2 ^ 16 < 2 ^ 24 := by omega
  rw [xor_shiftLeft_eq_add _ _ 24 h3]
  omega

theorem initContexts_indicators (P : Platform) (hwf : Nat) (ctx c : CRC_CONTEXT)
    (hc : c ∈ initContexts P hwf ctx) :
    c.use_pclmul = (crc32_init P hwf ctx).use_pclmul ∧
    c.use_pmull = (crc32_init P hwf ctx).use_pmull ∧
    c.use_vpmsum = (crc32_init P hwf ctx).use_vpmsum := by
  simp only [initContexts, List.mem_cons, List.mem_singleton, List.not_mem_nil, or_false] at hc
  rcases hc with rfl | rfl | rfl <;> exact ⟨rfl, rfl, rfl⟩

/-! ### Slices, frames, bounds and traced loops -/

theorem slices_advance_getD {T : Nat → Nat} (hadv : SlicesAdvance T) (k i : Nat)
    (hk : k = 1 ∨ k = 2 ∨ k = 3) (hi : i < 256) :
    T (256 * k + i) = (T (256 * (k - 1) + i) >>> 8) ^^^ T (T (256 * (k - 1) + i) &&& 0xFF) := by
  obtain ⟨h1, h2, h3⟩ := hadv i hi
  rcases hk with rfl | rfl | rfl
  · rw [show 256 * 1 + i = i + 0x100 by omega, show 256 * (1 - 1) + i = i by omega, h1]; rfl
  · rw [show 256 * 2 + i = i + 0x200 by omega, show 256 * (2 - 1) + i = i + 0x100 by omega, h2]; rfl
  · rw [show 256 * 3 + i = i + 0x300 by omega, show 256 * (3 - 1) + i = i + 0x200 by omega, h3]; rfl

theorem scalar_xor {T : Nat → Nat} (hlin : SliceLinear T) (a b x y : Nat) (hx : x < 256)
    (hy : y < 256) :
    ((a ^^^ b) >>> 8) ^^^ T (((a ^^^ b) &&& 0xff) ^^^ (x ^^^ y))
      = ((a >>> 8) ^^^ T ((a &&& 0xff) ^^^ x)) ^^^ ((b >>> 8) ^^^ T ((b &&& 0xff) ^^^ y)) := by
  have hxy : x ^^^ y < 256 := Nat.xor_lt_two_pow (n := 8) hx hy
  rw [scalar_eq_zeroStep T _ _ hxy, scalar_eq_zeroStep T _ _ hx, scalar_eq_zeroStep T _ _ hy,
    ← zeroStep_xor hlin]
  congr 1
  simp only [Nat.xor_assoc, Nat.xor_comm, xor_left_comm]

theorem slices_linear {T : Nat → Nat} (hlin : SliceLinear T) (hadv : SlicesAdvance T)
    (k i j : Nat) (hk : k < 4) (hi : i < 256) (hj : j < 256) :
    T (256 * k + (i ^^^ j)) = T (256 * k + i) ^^^ T (256 * k + j) := by
  have hij : i ^^^ j < 256 := Nat.xor_lt_two_pow (n := 8) hi hj
  obtain ⟨a1, a2, a3⟩ := hadv (i ^^^ j) hij
  obtain ⟨b1, b2, b3⟩ := hadv i hi
  obtain ⟨c1, c2, c3⟩ := hadv j hj
  have e0 := hlin i j hi hj
  have e1 : T ((i ^^^ j) + 0x100) = T (i + 0x100) ^^^ T (j + 0x100) := by
    rw [a1, b1, c1, e0, zeroStep_xor hlin]
  have e2 : T ((i ^^^ j) + 0x200) = T (i + 0x200) ^^^ T (j + 0x200) := by
    rw [a2, b2, c2, e1, zeroStep_xor hlin]
  have e3 : T ((i ^^^ j) + 0x300) = T (i + 0x300) ^^^ T (j + 0x300) := by
    rw [a3, b3, c3, e2, zeroStep_xor hlin]
  interval_cases k
  · simpa using e0
  · rw [show 256 * 1 + (i ^^^ j) = (i ^^^ j) + 0x100 by omega,
      show 256 * 1 + i = i + 0x100 by omega, show 256 * 1 + j = j + 0x100 by omega]; exact e1
  · rw [show 256 * 2 + (i ^^^ j) = (i ^^^ j) + 0x200 by omega,
      show 256 * 2 + i = i + 0x200 by omega, show 256 * 2 + j = j + 0x200 by omega]; exact e2
  · rw [show 256 * 3 + (i ^^^ j) = (i ^^^ j) + 0x300 by omega,
      show 256 * 3 + i = i + 0x300 by omega, show 256 * 3 + j = j + 0x300 by omega]; exact e3

theorem md_calls_indicator (d : gcry_md_spec_t) (hd : d ∈ descriptors) (P : Platform)
    (calls : List md_call) (ctx : CRC_CONTEXT) :
    backend_indicator (md_calls d P ctx calls) = backend_indicator ctx := by
  have hw : ∀ c inbuf inlen, backend_indicator (d.write P c inbuf inlen) = backend_indicator c := by
    intro c inbuf inlen
    simp only [descriptors, List.mem_cons, List.mem_singleton, List.not_mem_nil, or_false] at hd
    rcases hd with rfl | rfl | rfl
    · obtain ⟨h1, h2, h3, _⟩ := crc32_write_frame P c inbuf inlen
      exact Prod.ext h1 (Prod.ext h2 h3)
    · obtain ⟨h1, h2, h3, _⟩ := crc32_write_frame P c inbuf inlen
      exact Prod.ext h1 (Prod.ext h2 h3)
    · obtain ⟨h1, h2, h3, _⟩ := crc24rfc2440_write_frame P c inbuf inlen
      exact Prod.ext h1 (Prod.ext h2 h3)
  have hf : ∀ c, backend_indicator (d.final c) = backend_indicator c := by
    intro c
    simp only [descriptors, List.mem_cons, List.mem_singleton, List.not_mem_nil, or_false] at hd
    rcases hd with rfl | rfl | rfl <;> rfl
  induction calls generalizing ctx with
  | nil => rfl
  | cons call rest ih =>
    show backend_indicator (md_calls d P _ rest) = _
    rw [ih]
    cases call with
    | write inbuf inlen => exact hw _ _ _
    | final => exact hf _

theorem crc24_table_lt : ∀ v ∈ crc24_table, v < 2 ^ 24 := by
  decide!

theorem T24_lt (i : Nat) : T24 i < 2 ^ 24 := by
  unfold T24
  rw [List.getD_eq_getElem?_getD]
  cases h : crc24_table[i]? with
  | none => decide
  | some v => exact crc24_table_lt v (List.getElem?_mem h)

theorem crc24_next4_lt (crc w : Nat) : crc24_next4 crc w < 2 ^ 24 :=
  Nat.xor_lt_two_pow (Nat.xor_lt_two_pow (Nat.xor_lt_two_pow (T24_lt _) (T24_lt _)) (T24_lt _))
    (T24_lt _)

theorem and_ffffff_of_lt {x : Nat} (h : x < 2 ^ 24) : x &&& 0xffffff = x :=
  Nat.and_pow_two_sub_one_of_lt_two_pow (n := 24) h

theorem crc24rfc2440_write_lt (P : Platform) (ctx : CRC_CONTEXT) (inbuf : Option (List Nat))
    (inlen : Nat) (hp : portable P ctx) (hc : ctx.CRC < 2 ^ 24)
    (hb : ∀ p, inbuf = some p → Bytes p ∧ inlen ≤ p.length) :
    (crc24rfc2440_write P ctx inbuf inlen).CRC < 2 ^ 24 := by
  cases inbuf with
  | none => rw [crc24rfc2440_write_null_portable P ctx inlen hp]; exact hc
  | some p =>
    obtain ⟨h1, h2⟩ := hb p rfl
    rw [crc24rfc2440_write_portable P ctx p inlen hp, crc24_engine_eq_foldl _ _ _ hc h1 h2]
    exact crc24_foldl_lt _ _ hc (Bytes.take h1 inlen)

theorem crc32_foldl_zeros (n : Nat) : List.foldl crc32_next 0 (List.replicate n 0) = 0 := by
  induction n with
  | zero => rfl
  | succ n ih =>
    rw [List.replicate_succ, List.foldl_cons]
    have h0 : crc32_next 0 0 = 0 := by
      rw [crc32_next_zeroStep 0 0 (by decide)]
      show (0 >>> 8) ^^^ T32 (0 &&& 0xff) = 0
      rw [show (0 : Nat) &&& 0xff = 0 by decide, table_zero T32_facts.2.1]; rfl
    rw [h0, ih]

theorem bytes_replicate_zero (n : Nat) : Bytes (List.replicate n 0) := by
  intro x hx
  rw [List.eq_of_mem_replicate hx]; decide

theorem le32_positions_eq (pos : Nat) : le32_positions pos = List.range' pos 4 := rfl

theorem while16_traced_eq (next4 : Nat → Nat → Nat)
    (W16 : Nat → Nat → List Nat → Nat × List Nat × Nat)
    (h16s : ∀ n crc p, W16 (n + 16) crc p =
      W16 n (next4 (next4 (next4 (next4 crc (buf_get_le32 p)) (buf_get_le32 (p.drop 4)))
        (buf_get_le32 (p.drop 8))) (buf_get_le32 (p.drop 12))) (p.drop 16))
    (h16b : ∀ n crc p, n < 16 → W16 n crc p = (crc, p, n)) (buf : List Nat) :
    ∀ (n crc pos : Nat) (tr : List Nat),
      ∃ k, k ≤ n ∧
        write_while16_traced next4 buf n crc pos tr
          = ((W16 n crc (buf.drop pos)).1, pos + k, n - k, tr ++ List.range' pos k) ∧
        W16 n crc (buf.drop pos) = ((W16 n crc (buf.drop pos)).1, buf.drop (pos + k), n - k) := by
  intro n
  induction n using Nat.strong_induction_on with
  | _ n ih =>
    intro crc pos tr
    by_cases h : n < 16
    · refine ⟨0, Nat.zero_le _, ?_, ?_⟩
      · rw [h16b n crc _ h]
        have : write_while16_traced next4 buf n crc pos tr = (crc, pos, n, tr) := by
          interval_cases n <;> rfl
        rw [this]; simp
      · rw [h16b n crc _ h]; rfl
    · obtain ⟨m, rfl⟩ : ∃ m, n = m + 16 := ⟨n - 16, by omega⟩
      rw [h16s]
      simp only [List.drop_drop]
      obtain ⟨k, hk, e1, e2⟩ := ih m (by omega)
        (next4 (next4 (next4 (next4 crc (buf_get_le32 (buf.drop pos)))
          (buf_get_le32 (buf.drop (pos + 4)))) (buf_get_le32 (buf.drop (pos + 8))))
          (buf_get_le32 (buf.drop (pos + 12)))) (pos + 16)
        (tr ++ le32_positions pos ++ le32_positions (pos + 4) ++ le32_positions (pos + 8) ++
          le32_positions (pos + 12))
      refine ⟨k + 16, by omega, ?_, ?_⟩
      · show write_while16_traced next4 buf m _ (pos + 16) _ = _
        rw [e1]
        refine Prod.ext rfl (Prod.ext (by simp only []; omega) (Prod.ext (by simp only []; omega) ?_))
        simp only [le32_positions_eq, List.append_assoc]
        congr 1
      · rw [e2]
        refine Prod.ext rfl (Prod.ext ?_ ?_)
        · simp only []; congr 1; omega
        · simp only []; omega

theorem while4_traced_eq (next4 : Nat → Nat → Nat)
    (W4 : Nat → Nat → List Nat → Nat × List Nat × Nat)
    (h4s : ∀ n crc p, W4 (n + 4) crc p = W4 n (next4 crc (buf_get_le32 p)) (p.drop 4))
    (h4b : ∀ n crc p, n < 4 → W4 n crc p = (crc, p, n)) (buf : List Nat) :
    ∀ (n crc pos : Nat) (tr : List Nat),
      ∃ k, k ≤ n ∧
        write_while4_traced next4 buf n crc pos tr
          = ((W4 n crc (buf.drop pos)).1, pos + k, n - k, tr ++ List.range' pos k) ∧
        W4 n crc (buf.drop pos) = ((W4 n crc (buf.drop pos)).1, buf.drop (pos + k), n - k) := by
  intro n
  induction n using Nat.strong_induction_on with
  | _ n ih =>
    intro crc pos tr
    by_cases h : n < 4
    · refine ⟨0, Nat.zero_le _, ?_, ?_⟩
      · rw [h4b n crc _ h]
        have : write_while4_traced next4 buf n crc pos tr = (crc, pos, n, tr) := by
          interval_cases n <;> rfl
        rw [this]; simp
      · rw [h4b n crc _ h]; rfl
    · obtain ⟨m, rfl⟩ : ∃ m, n = m + 4 := ⟨n - 4, by omega⟩
      rw [h4s]
      simp only [List.drop_drop]
      obtain ⟨k, hk, e1, e2⟩ := ih m (by omega) (next4 crc (buf_get_le32 (buf.drop pos)))
        (pos + 4) (tr ++ le32_positions pos)
      refine ⟨k + 4, by omega, ?_, ?_⟩
      · show write_while4_traced next4 buf m _ (pos + 4) _ = _
        rw [e1]
        refine Prod.ext rfl (Prod.ext (by simp only []; omega) (Prod.ext (by simp only []; omega) ?_))
        simp only [le32_positions_eq, List.append_assoc]
        congr 1
      · rw [e2]
        refine Prod.ext rfl (Prod.ext ?_ ?_)
        · simp only []; congr 1; omega
        · simp only []; omega

theorem while1_traced_eq (next : Nat → Nat → Nat) (W1 : Nat → Nat → List Nat → Nat)
    (h1s : ∀ n crc p, W1 (n + 1) crc p = W1 n (next crc (p.getD 0 0)) (p.drop 1))
    (h1b : ∀ crc p, W1 0 crc p = crc) (buf : List Nat) :
    ∀ (n crc pos : Nat) (tr : List Nat),
      write_while1_traced next buf n crc pos tr
        = (W1 n crc (buf.drop pos), tr ++ List.range' pos n) := by
  intro n
  induction n with
  | zero => intro crc pos tr; rw [h1b]; simp [write_while1_traced]
  | succ n ih =>
    intro crc pos tr
    have hg : (buf.drop pos).getD 0 0 = buf.getD pos 0 := by
      simp [List.getD_eq_getElem?_getD, List.getElem?_drop]
    rw [h1s, List.drop_drop, hg]
    show write_while1_traced next buf n _ (pos + 1) _ = _
    rw [ih, List.append_assoc]
    rfl

theorem write_traced_eq (next next4 : Nat → Nat → Nat)
    (W16 W4 : Nat → Nat → List Nat → Nat × List Nat × Nat) (W1 : Nat → Nat → List Nat → Nat)
    (h16s : ∀ n crc p, W16 (n + 16) crc p =
      W16 n (next4 (next4 (next4 (next4 crc (buf_get_le32 p)) (buf_get_le32 (p.drop 4)))
        (buf_get_le32 (p.drop 8))) (buf_get_le32 (p.drop 12))) (p.drop 16))
    (h16b : ∀ n crc p, n < 16 → W16 n crc p = (crc, p, n))
    (h4s : ∀ n crc p, W4 (n + 4) crc p = W4 n (next4 crc (buf_get_le32 p)) (p.drop 4))
    (h4b : ∀ n crc p, n < 4 → W4 n crc p = (crc, p, n))
    (h1s : ∀ n crc p, W1 (n + 1) crc p = W1 n (next crc (p.getD 0 0)) (p.drop 1))
    (h1b : ∀ crc p, W1 0 crc p = crc) (crc : Nat) (buf : List Nat) (n : Nat) :
    write_traced next next4 crc buf n
      = (W1 (W4 (W16 n crc buf).2.2 (W16 n crc buf).1 (W16 n crc buf).2.1).2.2
           (W4 (W16 n crc buf).2.2 (W16 n crc buf).1 (W16 n crc buf).2.1).1
           (W4 (W16 n crc buf).2.2 (W16 n crc buf).1 (W16 n crc buf).2.1).2.1,
         List.range n) := by
  obtain ⟨k, hk, e1, e2⟩ := while16_traced_eq next4 W16 h16s h16b buf n crc 0 []
  rw [List.drop_zero] at e1 e2
  obtain ⟨j, hj, f1, f2⟩ := while4_traced_eq next4 W4 h4s h4b buf (n - k) (W16 n crc buf).1
    (0 + k) ([] ++ List.range' 0 k)
  unfold write_traced
  simp only [e1, f1]
  rw [while1_traced_eq next W1 h1s h1b]
  rw [e2]
  simp only []
  rw [f2]
  simp only []
  congr 1
  rw [List.nil_append, List.append_assoc, List.range_eq_range']
  rw [List.range'_append_1, List.range'_append_1]
  congr 1; omega

theorem crc32_table_length : crc32_table.length = 1024 := by decide!

theorem crc24_table_length : crc24_table.length = 1024 := by decide!

theorem crc32_write_traced_eq (crc : Nat) (buf : List Nat) (n : Nat) :
    crc32_write_traced crc buf n = (crc32_engine crc buf n, List.range n) :=
  write_traced_eq crc32_next crc32_next4 crc32_write_while16 crc32_write_while4
    crc32_write_while1 crc32_while16_step crc32_while16_base crc32_while4_step
    crc32_while4_base (fun _ _ _ => rfl) (fun _ _ => rfl) crc buf n

theorem crc24rfc2440_write_traced_eq (crc : Nat) (buf : List Nat) (n : Nat) :
    crc24rfc2440_write_traced crc buf n = (crc24_engine crc buf n, List.range n) :=
  write_traced_eq crc24_next crc24_next4 crc24rfc2440_write_while16 crc24rfc2440_write_while4
    crc24rfc2440_write_while1 crc24_while16_step crc24_while16_base crc24_while4_step
    crc24_while4_base (fun _ _ _ => rfl) (fun _ _ => rfl) crc buf n

theorem next4_indices_lt (x y : Nat) :
    ∀ i ∈ [(x &&& 0xff) + 0x300, ((x >>> 8) &&& 0xff) + 0x200, ((x >>> 16) &&& 0xff) + 0x100,
      (y >>> 24) &&& 0xff], i < 1024 := by
  have h0 := and_ff_lt x
  have h1 := and_ff_lt (x >>> 8)
  have h2 := and_ff_lt (x >>> 16)
  have h3 := and_ff_lt (y >>> 24)
  intro i hi
  simp only [List.mem_cons, List.mem_singleton, List.not_mem_nil, or_false] at hi
  rcases hi with rfl | rfl | rfl | rfl <;> omega

theorem next_index_lt (crc b : Nat) (hb : b < 256) : (crc &&& 0xff) ^^^ b < 256 :=
  Nat.xor_lt_two_pow (n := 8) (and_ff_lt crc) hb

/-! ## The claims -/

/-- C1: on the portable path, `crc32_init`, `crc32_write` of the nine ASCII
bytes `123456789` and `crc32_final` leave the output buffer returned by
`crc32_read` equal to `CB F4 39 26`, the checksum `0xCBF43926` most significant
byte first. -/
theorem crc32_check_vector (P : Platform) (hwf : Nat) (ctx : CRC_CONTEXT)
    (hp : portable P (crc32_init P hwf ctx)) :
    crc32_read (crc32_final (crc32_write P (crc32_init P hwf ctx) (some check123456789) 9))
      = [0xCB, 0xF4, 0x39, 0x26] ∧
    (crc32_final (crc32_write P (crc32_init P hwf ctx) (some check123456789) 9)).CRC
      = 0xCBF43926 := by
  rw [crc32_write_portable P _ _ _ hp, crc32_init_CRC, crc32_check_engine]
  refine ⟨?_, ?_⟩
  · show buf_put_be32 (0x340bc6d9 ^^^ 0xffffffff) = _
    decide
  · show 0x340bc6d9 ^^^ 0xffffffff = _
    decide

theorem crc32_check_vector_witness :
    portable genericPlatform (crc32_init genericPlatform 0 blankContext) ∧
    crc32_read (crc32_final (crc32_write genericPlatform
      (crc32_init genericPlatform 0 blankContext) (some check123456789) 9))
      = [0xCB, 0xF4, 0x39, 0x26] :=
  ⟨by decide, (crc32_check_vector genericPlatform 0 blankContext (by decide)).1⟩

/-- C2: on the portable path, `crc32rfc1510_init`, `crc32_write` of the nine
ASCII bytes `123456789` and `crc32rfc1510_final` leave the output buffer equal
to `2D FD 2D 88`, the checksum `0x2DFD2D88` most significant byte first. -/
theorem crc32rfc1510_check_vector (P : Platform) (hwf : Nat) (ctx : CRC_CONTEXT)
    (hp : portable P (crc32rfc1510_init P hwf ctx)) :
    crc32_read (crc32rfc1510_final
      (crc32_write P (crc32rfc1510_init P hwf ctx) (some check123456789) 9))
      = [0x2D, 0xFD, 0x2D, 0x88] ∧
    (crc32rfc1510_final
      (crc32_write P (crc32rfc1510_init P hwf ctx) (some check123456789) 9)).CRC
      = 0x2DFD2D88 := by
  rw [crc32_write_portable P _ _ _ hp, crc32rfc1510_init_CRC, crc32rfc1510_check_engine]
  refine ⟨?_, rfl⟩
  show buf_put_be32 0x2dfd2d88 = _
  decide

theorem crc32rfc1510_check_vector_witness :
    portable genericPlatform (crc32rfc1510_init genericPlatform 0 blankContext) ∧
    crc32_read (crc32rfc1510_final (crc32_write genericPlatform
      (crc32rfc1510_init genericPlatform 0 blankContext) (some check123456789) 9))
      = [0x2D, 0xFD, 0x2D, 0x88] :=
  ⟨by decide, (crc32rfc1510_check_vector genericPlatform 0 blankContext (by decide)).1⟩

/-- C3: on the portable path, `crc24rfc2440_init`, `crc24rfc2440_write` of the
nine ASCII bytes `123456789` and `crc24rfc2440_final` leave the first three
bytes of the output buffer equal to `21 CF 02` and the fourth equal to `00`. -/
theorem crc24rfc2440_check_vector (P : Platform) (hwf : Nat) (ctx : CRC_CONTEXT)
    (hp : portable P (crc24rfc2440_init P hwf ctx)) :
    crc32_read (crc24rfc2440_final
      (crc24rfc2440_write P (crc24rfc2440_init P hwf ctx) (some check123456789) 9))
      = [0x21, 0xCF, 0x02, 0x00] := by
  rw [crc24rfc2440_write_portable P _ _ _ hp, crc24rfc2440_init_CRC, crc24_check_engine]
  show buf_put_le32 (crc24_final 0x02cf21) = _
  decide

theorem crc24rfc2440_check_vector_witness :
    portable genericPlatform (crc24rfc2440_init genericPlatform 0 blankContext) ∧
    crc32_read (crc24rfc2440_final (crc24rfc2440_write genericPlatform
      (crc24rfc2440_init genericPlatform 0 blankContext) (some check123456789) 9))
      = [0x21, 0xCF, 0x02, 0x00] :=
  ⟨by decide, crc24rfc2440_check_vector genericPlatform 0 blankContext (by decide)⟩

/-- C4: chunking invariance of the CRC-32 family on the portable path.  From a
32-bit register, writing `a` and then `b` leaves the context that one write of
`a ++ b` leaves; writing the sub-buffers of any partition one after the other
leaves the context that a single write of their concatenation leaves; so the
CRC-32 and the CRC-32/RFC1510 checksums of a partitioned input are those of a
single write of the whole input. -/
theorem crc32_chunking_invariance (P : Platform) (ctx : CRC_CONTEXT) (a b : List Nat)
    (chunks : List (List Nat)) (hwf : Nat) (ctx0 : CRC_CONTEXT)
    (hp : portable P ctx) (hc : ctx.CRC < 2 ^ 32) (ha : Bytes a) (hb : Bytes b)
    (hch : ∀ ch ∈ chunks, Bytes ch) (hp0 : portable P (crc32_init P hwf ctx0)) :
    crc32_write P (crc32_write P ctx (some a) a.length) (some b) b.length
      = crc32_write P ctx (some (a ++ b)) (a ++ b).length ∧
    crc32_write_all P ctx chunks = crc32_write P ctx (some chunks.flatten) chunks.flatten.length ∧
    crc32_read (crc32_final (crc32_write_all P (crc32_init P hwf ctx0) chunks))
      = crc32_read (crc32_final
          (crc32_write P (crc32_init P hwf ctx0) (some chunks.flatten) chunks.flatten.length)) ∧
    crc32_read (crc32rfc1510_final (crc32_write_all P (crc32rfc1510_init P hwf ctx0) chunks))
      = crc32_read (crc32rfc1510_final
          (crc32_write P (crc32rfc1510_init P hwf ctx0) (some chunks.flatten)
            chunks.flatten.length)) := by
  refine ⟨crc32_write_write P ctx a b hp hc ha hb,
    crc32_write_all_eq_write P chunks hch ctx hp hc, ?_, ?_⟩
  · rw [crc32_write_all_eq_write P chunks hch _ hp0
      (show (0xffffffff : Nat) < 2 ^ 32 by decide)]
  · rw [crc32_write_all_eq_write P chunks hch _ ((portable_init P hwf ctx0).1.mpr hp0)
      (show (0 : Nat) < 2 ^ 32 by decide)]

theorem crc32_chunking_invariance_witness :
    portable genericPlatform (crc32_init genericPlatform 0 blankContext) ∧
    (crc32_init genericPlatform 0 blankContext).CRC < 2 ^ 32 ∧
    Bytes [0x31, 0x32, 0x33, 0x34, 0x35] ∧ Bytes [0x36, 0x37, 0x38, 0x39] ∧
    (∀ ch ∈ [[0x31], [0x32, 0x33, 0x34, 0x35, 0x36], [0x37, 0x38, 0x39]], Bytes ch) ∧
    crc32_write genericPlatform
        (crc32_write genericPlatform (crc32_init genericPlatform 0 blankContext)
          (some [0x31, 0x32, 0x33, 0x34, 0x35]) 5) (some [0x36, 0x37, 0x38, 0x39]) 4
      = crc32_write genericPlatform (crc32_init genericPlatform 0 blankContext)
          (some check123456789) 9 ∧
    crc32_write_all genericPlatform (crc32_init genericPlatform 0 blankContext)
        [[0x31], [0x32, 0x33, 0x34, 0x35, 0x36], [0x37, 0x38, 0x39]]
      = crc32_write genericPlatform (crc32_init genericPlatform 0 blankContext)
          (some check123456789) 9 :=
  ⟨by decide, by decide, by decide, by decide, by decide,
    (crc32_chunking_invariance genericPlatform (crc32_init genericPlatform 0 blankContext)
      [0x31, 0x32, 0x33, 0x34, 0x35] [0x36, 0x37, 0x38, 0x39]
      [[0x31], [0x32, 0x33, 0x34, 0x35, 0x36], [0x37, 0x38, 0x39]] 0 blankContext
      (by decide) (by decide) (by decide) (by decide) (by decide) (by decide)).1,
    (crc32_chunking_invariance genericPlatform (crc32_init genericPlatform 0 blankContext)
      [0x31, 0x32, 0x33, 0x34, 0x35] [0x36, 0x37, 0x38, 0x39]
      [[0x31], [0x32, 0x33, 0x34, 0x35, 0x36], [0x37, 0x38, 0x39]] 0 blankContext
      (by decide) (by decide) (by decide) (by decide) (by decide) (by decide)).2.1⟩

/-- C5: chunking invariance of CRC-24/RFC2440 on the portable path.  From the
context left by `crc24rfc2440_init` (and from any context whose register is
below `2 ^ 24`), writing the sub-buffers of any partition one after the other
leaves the context, hence the register, that a single `crc24rfc2440_write` of
their concatenation leaves, and the finalised output bytes agree. -/
theorem crc24rfc2440_chunking_invariance (P : Platform) (ctx : CRC_CONTEXT) (a b : List Nat)
    (chunks : List (List Nat)) (hwf : Nat) (ctx0 : CRC_CONTEXT)
    (hp : portable P ctx) (hc : ctx.CRC < 2 ^ 24) (ha : Bytes a) (hb : Bytes b)
    (hch : ∀ ch ∈ chunks, Bytes ch) (hp0 : portable P (crc24rfc2440_init P hwf ctx0)) :
    crc24rfc2440_write_all P (crc24rfc2440_init P hwf ctx0) chunks
      = crc24rfc2440_write P (crc24rfc2440_init P hwf ctx0) (some chunks.flatten)
          chunks.flatten.length ∧
    (crc24rfc2440_write_all P (crc24rfc2440_init P hwf ctx0) chunks).CRC
      = (crc24rfc2440_write P (crc24rfc2440_init P hwf ctx0) (some chunks.flatten)
          chunks.flatten.length).CRC ∧
    crc32_read (crc24rfc2440_final
        (crc24rfc2440_write_all P (crc24rfc2440_init P hwf ctx0) chunks))
      = crc32_read (crc24rfc2440_final
          (crc24rfc2440_write P (crc24rfc2440_init P hwf ctx0) (some chunks.flatten)
            chunks.flatten.length)) ∧
    crc24rfc2440_write P (crc24rfc2440_write P ctx (some a) a.length) (some b) b.length
      = crc24rfc2440_write P ctx (some (a ++ b)) (a ++ b).length ∧
    crc24rfc2440_write_all P ctx chunks
      = crc24rfc2440_write P ctx (some chunks.flatten) chunks.flatten.length := by
  have h := crc24rfc2440_write_all_eq_write P chunks hch _ hp0
    (show (0xce04b7 : Nat) < 2 ^ 24 by decide)
  exact ⟨h, by rw [h], by rw [h], crc24rfc2440_write_write P ctx a b hp hc ha hb,
    crc24rfc2440_write_all_eq_write P chunks hch ctx hp hc⟩

theorem crc24rfc2440_chunking_invariance_witness :
    portable genericPlatform (crc24rfc2440_init genericPlatform 0 blankContext) ∧
    (∀ ch ∈ [[0x31], [0x32, 0x33, 0x34, 0x35, 0x36], [0x37, 0x38, 0x39]], Bytes ch) ∧
    crc24rfc2440_write_all genericPlatform (crc24rfc2440_init genericPlatform 0 blankContext)
        [[0x31], [0x32, 0x33, 0x34, 0x35, 0x36], [0x37, 0x38, 0x39]]
      = crc24rfc2440_write genericPlatform (crc24rfc2440_init genericPlatform 0 blankContext)
          (some check123456789) 9 :=
  ⟨by decide, by decide,
    (crc24rfc2440_chunking_invariance genericPlatform
      (crc24rfc2440_init genericPlatform 0 blankContext) [0x31] [0x32]
      [[0x31], [0x32, 0x33, 0x34, 0x35, 0x36], [0x37, 0x38, 0x39]] 0 blankContext
      (by decide) (by decide) (by decide) (by decide) (by decide) (by decide)).1⟩

/-- C6: for every byte sequence `m`, init / write / final / read of CRC-32 on
the portable path returns the big-endian four-byte encoding of the bit-by-bit
reference value (register all-ones, each byte folded in and followed by eight
reflected bit steps with `0xEDB88320`, final complement). -/
theorem crc32_eq_reference (P : Platform) (hwf : Nat) (ctx : CRC_CONTEXT) (m : List Nat)
    (hp : portable P (crc32_init P hwf ctx)) (hm : Bytes m) :
    crc32_read (crc32_final (crc32_write P (crc32_init P hwf ctx) (some m) m.length))
      = bigEndian4 (crc32_reference m) := by
  rw [crc32_write_eq_foldl P _ m hp (show (0xffffffff : Nat) < 2 ^ 32 by decide) hm,
    crc32_final_read, crc32_init_CRC, crc32_foldl_eq_bitwise m hm]
  rfl

theorem crc32_eq_reference_witness :
    portable genericPlatform (crc32_init genericPlatform 0 blankContext) ∧
    Bytes check123456789 ∧
    crc32_read (crc32_final (crc32_write genericPlatform
        (crc32_init genericPlatform 0 blankContext) (some check123456789)
        check123456789.length))
      = bigEndian4 (crc32_reference check123456789) :=
  ⟨by decide, by decide,
    crc32_eq_reference genericPlatform 0 blankContext check123456789 (by decide) (by decide)⟩

/-- C7: for every byte sequence `m`, init / write / final / read of
CRC-24/RFC2440 on the portable path returns a buffer whose first three bytes
are the most-significant, middle and least-significant byte of the RFC 2440
bit-by-bit reference value (register `0xB704CE`, each byte folded in at bit 16
and followed by eight left-shift steps with `0x1864CFB`, masked to 24 bits);
the fourth byte is zero. -/
theorem crc24rfc2440_eq_reference (P : Platform) (hwf : Nat) (ctx : CRC_CONTEXT)
    (m : List Nat) (hp : portable P (crc24rfc2440_init P hwf ctx)) (hm : Bytes m) :
    (crc32_read (crc24rfc2440_final
        (crc24rfc2440_write P (crc24rfc2440_init P hwf ctx) (some m) m.length))).take 3
      = bigEndian3 (crc24_reference m) ∧
    crc32_read (crc24rfc2440_final
        (crc24rfc2440_write P (crc24rfc2440_init P hwf ctx) (some m) m.length))
      = bigEndian3 (crc24_reference m) ++ [0] := by
  obtain ⟨hfold, hlt⟩ := crc24_foldl_eq_bitwise m hm 0xB704CE (by decide)
  have hseed : (0xce04b7 : Nat) = swap24 0xB704CE := by decide
  have href : crc24_reference m = crc24_bitwise 0xB704CE m := by
    unfold crc24_reference
    rw [and_ffffff_eq_mod, Nat.mod_eq_of_lt (show _ < 16777216 from hlt)]
  have hread := crc24rfc2440_final_read
    (crc24rfc2440_write P (crc24rfc2440_init P hwf ctx) (some m) m.length) _ hlt
    (by rw [crc24rfc2440_write_eq_foldl P _ m hp (show (0xce04b7 : Nat) < 2 ^ 24 by decide) hm,
          crc24rfc2440_init_CRC]
        show List.foldl crc24_next 0xce04b7 m = _
        rw [hseed, hfold])
  rw [href, hread]
  exact ⟨rfl, rfl⟩

theorem crc24rfc2440_eq_reference_witness :
    portable genericPlatform (crc24rfc2440_init genericPlatform 0 blankContext) ∧
    Bytes check123456789 ∧
    (crc32_read (crc24rfc2440_final (crc24rfc2440_write genericPlatform
        (crc24rfc2440_init genericPlatform 0 blankContext) (some check123456789)
        check123456789.length))).take 3
      = bigEndian3 (crc24_reference check123456789) :=
  ⟨by decide, by decide,
    (crc24rfc2440_eq_reference genericPlatform 0 blankContext check123456789 (by decide)
      (by decide)).1⟩

/-- C8: for every byte sequence `m`, `crc32rfc1510_init` / `crc32_write` /
`crc32rfc1510_final` / `crc32_read` on the portable path returns the big-endian
four-byte encoding of the same reflected bit-by-bit CRC with register zero at
the start and no final complement. -/
theorem crc32rfc1510_eq_reference (P : Platform) (hwf : Nat) (ctx : CRC_CONTEXT)
    (m : List Nat) (hp : portable P (crc32rfc1510_init P hwf ctx)) (hm : Bytes m) :
    crc32_read (crc32rfc1510_final
        (crc32_write P (crc32rfc1510_init P hwf ctx) (some m) m.length))
      = bigEndian4 (crc32rfc1510_reference m) := by
  rw [crc32_write_eq_foldl P _ m hp (show (0 : Nat) < 2 ^ 32 by decide) hm,
    crc32rfc1510_final_read, crc32rfc1510_init_CRC, crc32_foldl_eq_bitwise m hm]
  rfl

theorem crc32rfc1510_eq_reference_witness :
    portable genericPlatform (crc32rfc1510_init genericPlatform 0 blankContext) ∧
    Bytes check123456789 ∧
    crc32_read (crc32rfc1510_final (crc32_write genericPlatform
        (crc32rfc1510_init genericPlatform 0 blankContext) (some check123456789)
        check123456789.length))
      = bigEndian4 (crc32rfc1510_reference check123456789) :=
  ⟨by decide, by decide,
    crc32rfc1510_eq_reference genericPlatform 0 blankContext check123456789 (by decide)
      (by decide)⟩

/-- C9: empty input.  For each variant, init followed directly by final gives
the defined value: CRC-32 output bytes `00 00 00 00`, CRC-32/RFC1510 output
bytes `00 00 00 00`, CRC-24/RFC2440 first three output bytes `B7 04 CE`.  The
same holds with any number of zero-length writes in between, whatever their
buffer pointers: on the portable path by the null/length test of the write
functions, and with a backend selected when the accelerated routines are the
ones modelled from the spec. -/
theorem empty_input (P : Platform) (hwf : Nat) (ctx : CRC_CONTEXT)
    (bufs : List (Option (List Nat))) :
    crc32_read (crc32_final (crc32_init P hwf ctx)) = [0x00, 0x00, 0x00, 0x00] ∧
    crc32_read (crc32rfc1510_final (crc32rfc1510_init P hwf ctx)) = [0x00, 0x00, 0x00, 0x00] ∧
    (crc32_read (crc24rfc2440_final (crc24rfc2440_init P hwf ctx))).take 3
      = [0xB7, 0x04, 0xCE] ∧
    (portable P (crc32_init P hwf ctx) ∨ SpecBackends P →
      crc32_read (crc32_final (crc32_write_empty P (crc32_init P hwf ctx) bufs))
        = [0x00, 0x00, 0x00, 0x00] ∧
      crc32_read (crc32rfc1510_final
          (crc32_write_empty P (crc32rfc1510_init P hwf ctx) bufs))
        = [0x00, 0x00, 0x00, 0x00] ∧
      (crc32_read (crc24rfc2440_final
          (crc24rfc2440_write_empty P (crc24rfc2440_init P hwf ctx) bufs))).take 3
        = [0xB7, 0x04, 0xCE]) := by
  have e1 : crc32_read (crc32_final (crc32_init P hwf ctx)) = [0x00, 0x00, 0x00, 0x00] := by
    show buf_put_be32 (0xffffffff ^^^ 0xffffffff) = _
    decide
  have e2 : crc32_read (crc32rfc1510_final (crc32rfc1510_init P hwf ctx))
      = [0x00, 0x00, 0x00, 0x00] := by
    show buf_put_be32 0 = _
    decide
  have e3 : (crc32_read (crc24rfc2440_final (crc24rfc2440_init P hwf ctx))).take 3
      = [0xB7, 0x04, 0xCE] := by
    show (buf_put_le32 (crc24_final 0xce04b7)).take 3 = _
    decide
  refine ⟨e1, e2, e3, fun h => ?_⟩
  rw [crc32_write_empty_eq P bufs _ h,
    crc32_write_empty_eq P bufs _ (h.imp (portable_init P hwf ctx).1.mpr id),
    crc24rfc2440_write_empty_eq P bufs _ (h.imp (portable_init P hwf ctx).2.mpr id)]
  exact ⟨e1, e2, e3⟩

theorem empty_input_witness :
    (portable genericPlatform (crc32_init genericPlatform 0 blankContext)
      ∨ SpecBackends genericPlatform) ∧
    crc32_read (crc32_final (crc32_write_empty genericPlatform
        (crc32_init genericPlatform 0 blankContext) [none, some [], some [1, 2, 3]]))
      = [0x00, 0x00, 0x00, 0x00] ∧
    SpecBackends pclmulPlatform ∧
    ¬ portable pclmulPlatform (crc24rfc2440_init pclmulPlatform 768 blankContext) ∧
    (crc32_read (crc24rfc2440_final (crc24rfc2440_write_empty pclmulPlatform
        (crc24rfc2440_init pclmulPlatform 768 blankContext) [none, some [1, 2, 3]]))).take 3
      = [0xB7, 0x04, 0xCE] :=
  ⟨Or.inl (by decide),
    ((empty_input genericPlatform 0 blankContext [none, some [], some [1, 2, 3]]).2.2.2
      (Or.inl (by decide))).1,
    specBackends_pclmulPlatform, by decide,
    ((empty_input pclmulPlatform 768 blankContext [none, some [1, 2, 3]]).2.2.2
      (Or.inr specBackends_pclmulPlatform)).2.2⟩

/-- C10: write is a no-op on an absent or empty buffer.  For every context,
`crc32_write` and `crc24rfc2440_write` called with a null buffer or with
length 0 return the whole context (register, backend indicators, output
buffer) unchanged: on the portable path by the null/length test of the write
functions, and with a backend selected, where the call is forwarded before
that test, when the accelerated routines are the ones modelled from the spec. -/
theorem write_null_or_empty (P : Platform) (ctx : CRC_CONTEXT) (inbuf : Option (List Nat))
    (inlen : Nat) (h : portable P ctx ∨ SpecBackends P) :
    crc32_write P ctx none inlen = ctx ∧ crc32_write P ctx inbuf 0 = ctx ∧
    crc24rfc2440_write P ctx none inlen = ctx ∧ crc24rfc2440_write P ctx inbuf 0 = ctx :=
  ⟨crc32_write_null P ctx inlen h, crc32_write_zero P ctx inbuf h,
    crc24rfc2440_write_null P ctx inlen h, crc24rfc2440_write_zero P ctx inbuf h⟩

theorem write_null_or_empty_witness :
    (portable genericPlatform blankContext ∨ SpecBackends genericPlatform) ∧
    crc32_write genericPlatform blankContext none 7 = blankContext ∧
    crc32_write genericPlatform blankContext (some [1, 2, 3]) 0 = blankContext ∧
    (portable pclmulPlatform pclmulContext ∨ SpecBackends pclmulPlatform) ∧
    ¬ portable pclmulPlatform pclmulContext ∧
    crc24rfc2440_write pclmulPlatform pclmulContext none 7 = pclmulContext ∧
    crc24rfc2440_write pclmulPlatform pclmulContext (some [1, 2, 3]) 0 = pclmulContext :=
  ⟨Or.inl (by decide),
    (write_null_or_empty genericPlatform blankContext (some [1, 2, 3]) 7
      (Or.inl (by decide))).1,
    (write_null_or_empty genericPlatform blankContext (some [1, 2, 3]) 7
      (Or.inl (by decide))).2.1,
    Or.inr specBackends_pclmulPlatform, by decide,
    (write_null_or_empty pclmulPlatform pclmulContext (some [1, 2, 3]) 7
      (Or.inr specBackends_pclmulPlatform)).2.2.1,
    (write_null_or_empty pclmulPlatform pclmulContext (some [1, 2, 3]) 7
      (Or.inr specBackends_pclmulPlatform)).2.2.2⟩

/-- C11: for every context with register `r`, `crc32_final` sets the register
to `r xor 0xFFFFFFFF` and the output buffer to the big-endian bytes of that
value (`buf[0]` bits 31..24, ..., `buf[3]` bits 7..0); `crc32rfc1510_final`
leaves the register equal to `r` and sets the output buffer to the big-endian
bytes of `r`. -/
theorem final_big_endian (ctx : CRC_CONTEXT) :
    (crc32_final ctx).CRC = ctx.CRC ^^^ 0xFFFFFFFF ∧
    (crc32_final ctx).buf = bigEndian4 (ctx.CRC ^^^ 0xFFFFFFFF) ∧
    (crc32_final ctx).buf
      = [((ctx.CRC ^^^ 0xFFFFFFFF) >>> 24) &&& 0xff, ((ctx.CRC ^^^ 0xFFFFFFFF) >>> 16) &&& 0xff,
          ((ctx.CRC ^^^ 0xFFFFFFFF) >>> 8) &&& 0xff, (ctx.CRC ^^^ 0xFFFFFFFF) &&& 0xff] ∧
    (crc32rfc1510_final ctx).CRC = ctx.CRC ∧
    (crc32rfc1510_final ctx).buf = bigEndian4 ctx.CRC ∧
    (crc32rfc1510_final ctx).buf
      = [(ctx.CRC >>> 24) &&& 0xff, (ctx.CRC >>> 16) &&& 0xff, (ctx.CRC >>> 8) &&& 0xff,
          ctx.CRC &&& 0xff] := by
  refine ⟨rfl, buf_put_be32_eq _, ?_, rfl, buf_put_be32_eq _, ?_⟩
  · show buf_put_be32 _ = _
    simp only [buf_put_be32, and_ff_eq_mod]
  · show buf_put_be32 _ = _
    simp only [buf_put_be32, and_ff_eq_mod]

/-- C12: for every context with register `r`, also when `r` is `2 ^ 24` or
more, `crc24rfc2440_final` sets the register to `r and 0xFFFFFF` and the output
buffer to the little-endian bytes of that masked value: `buf[0]` is bits 7..0,
`buf[1]` bits 15..8, `buf[2]` bits 23..16 of `r`, and `buf[3]` is 0. -/
theorem final_little_endian (ctx : CRC_CONTEXT) :
    (crc24rfc2440_final ctx).CRC = ctx.CRC &&& 0xFFFFFF ∧
    (crc24rfc2440_final ctx).buf = buf_put_le32 (ctx.CRC &&& 0xFFFFFF) ∧
    (crc24rfc2440_final ctx).buf
      = [ctx.CRC &&& 0xff, (ctx.CRC >>> 8) &&& 0xff, (ctx.CRC >>> 16) &&& 0xff, 0] := by
  refine ⟨rfl, rfl, ?_⟩
  show buf_put_le32 (crc24_final ctx.CRC) = _
  simp only [buf_put_le32, crc24_final, and_ff_eq_mod, and_ffffff_eq_mod,
    Nat.shiftRight_eq_div_pow, Nat.reducePow, List.cons.injEq, and_true]
  refine ⟨?_, ?_, ?_, ?_⟩ <;> omega

/-- C13: read is stable.  `crc32_read`, the read operation of all three
descriptors, returns the output buffer of the context and leaves the context
as it was, so any number of reads, after a final or at any other time, return
the same bytes. -/
theorem read_stable (ctx : CRC_CONTEXT) (n : Nat) :
    _gcry_digest_spec_crc32.read = crc32_read ∧
    _gcry_digest_spec_crc32_rfc1510.read = crc32_read ∧
    _gcry_digest_spec_crc24_rfc2440.read = crc32_read ∧
    read_call crc32_read ctx = (ctx.buf, ctx) ∧
    read_calls crc32_read n ctx = (List.replicate n ctx.buf, ctx) ∧
    read_calls crc32_read n (crc32_final ctx)
      = (List.replicate n (crc32_final ctx).buf, crc32_final ctx) ∧
    read_calls crc32_read n (crc32rfc1510_final ctx)
      = (List.replicate n (crc32rfc1510_final ctx).buf, crc32rfc1510_final ctx) ∧
    read_calls crc32_read n (crc24rfc2440_final ctx)
      = (List.replicate n (crc24rfc2440_final ctx).buf, crc24rfc2440_final ctx) :=
  ⟨rfl, rfl, rfl, rfl, read_calls_crc32_read n ctx, read_calls_crc32_read n _,
    read_calls_crc32_read n _, read_calls_crc32_read n _⟩

/-- C14: backend equivalence.  With the accelerated routines modelled from the
spec, for every context and every input buffer a write, whichever backend it
is dispatched to, leaves the register that the portable path of `crc32_write`
(of `crc24rfc2440_write`) leaves on the same register and input; so does each
of the six routines called on its own. -/
theorem backend_equivalence (P : Platform) (ctx : CRC_CONTEXT) (inbuf : Option (List Nat))
    (inlen : Nat) (hs : SpecBackends P) :
    (crc32_write P ctx inbuf inlen).CRC
      = (crc32_write P (portableContext ctx) inbuf inlen).CRC ∧
    (crc24rfc2440_write P ctx inbuf inlen).CRC
      = (crc24rfc2440_write P (portableContext ctx) inbuf inlen).CRC ∧
    P._gcry_crc32_intel_pclmul ctx.CRC inbuf inlen
      = (crc32_write P (portableContext ctx) inbuf inlen).CRC ∧
    P._gcry_crc32_armv8_ce_pmull ctx.CRC inbuf inlen
      = (crc32_write P (portableContext ctx) inbuf inlen).CRC ∧
    P._gcry_crc32_ppc8_vpmsum ctx.CRC inbuf inlen
      = (crc32_write P (portableContext ctx) inbuf inlen).CRC ∧
    P._gcry_crc24rfc2440_intel_pclmul ctx.CRC inbuf inlen
      = (crc24rfc2440_write P (portableContext ctx) inbuf inlen).CRC ∧
    P._gcry_crc24rfc2440_armv8_ce_pmull ctx.CRC inbuf inlen
      = (crc24rfc2440_write P (portableContext ctx) inbuf inlen).CRC ∧
    P._gcry_crc24rfc2440_ppc8_vpmsum ctx.CRC inbuf inlen
      = (crc24rfc2440_write P (portableContext ctx) inbuf inlen).CRC := by
  have e32 := crc32_write_eq_accelerated P (portableContext ctx) inbuf inlen
    (Or.inl (portable_portableContext P ctx))
  have e24 := crc24rfc2440_write_eq_accelerated P (portableContext ctx) inbuf inlen
    (Or.inl (portable_portableContext P ctx))
  obtain ⟨h1, h2, h3, h4, h5, h6⟩ := hs
  rw [crc32_write_eq_accelerated P ctx inbuf inlen (Or.inr ⟨h1, h2, h3, h4, h5, h6⟩),
    crc24rfc2440_write_eq_accelerated P ctx inbuf inlen (Or.inr ⟨h1, h2, h3, h4, h5, h6⟩),
    e32, e24, h1, h2, h3, h4, h5, h6]
  exact ⟨rfl, rfl, rfl, rfl, rfl, rfl, rfl, rfl⟩

theorem backend_equivalence_witness :
    SpecBackends pclmulPlatform ∧ ¬ portable pclmulPlatform pclmulContext ∧
    (crc32_write pclmulPlatform pclmulContext (some check123456789) 9).CRC
      = (crc32_write pclmulPlatform (portableContext pclmulContext)
          (some check123456789) 9).CRC :=
  ⟨specBackends_pclmulPlatform, by decide,
    (backend_equivalence pclmulPlatform pclmulContext (some check123456789) 9
      specBackends_pclmulPlatform).1⟩

/-- C15: backend selection needs every required capability bit.  For every
hardware-feature word `hwf`, in a build with the Intel routines each of the
three init functions records the Intel backend if and only if both the SSE4.1
bit and the PCLMUL bit are set in `hwf`, and in a build with the ARMv8 routines
it records the ARM backend if and only if both the NEON bit and the PMULL bit
are set; with either bit of the pair missing the indicator is 0, the context
is on the portable path and the writes run their own loops. -/
theorem backend_selection (P : Platform) (hwf : Nat) (ctx : CRC_CONTEXT) (inbuf : List Nat)
    (inlen : Nat) :
    (P.USE_INTEL_PCLMUL = true → ∀ c ∈ initContexts P hwf ctx,
      (c.use_pclmul = true ↔
        hwf &&& P.HWF_INTEL_SSE4_1 ≠ 0 ∧ hwf &&& P.HWF_INTEL_PCLMUL ≠ 0)) ∧
    (P.USE_ARM_PMULL = true → ∀ c ∈ initContexts P hwf ctx,
      (c.use_pmull = true ↔ hwf &&& P.HWF_ARM_NEON ≠ 0 ∧ hwf &&& P.HWF_ARM_PMULL ≠ 0)) ∧
    (intelBuild P → hwf &&& P.HWF_INTEL_SSE4_1 = 0 ∨ hwf &&& P.HWF_INTEL_PCLMUL = 0 →
      ∀ c ∈ initContexts P hwf ctx, c.use_pclmul = false ∧ portable P c ∧
        crc32_write P c (some inbuf) inlen = { c with CRC := crc32_engine c.CRC inbuf inlen } ∧
        crc24rfc2440_write P c (some inbuf) inlen
          = { c with CRC := crc24_engine c.CRC inbuf inlen }) ∧
    (armBuild P → hwf &&& P.HWF_ARM_NEON = 0 ∨ hwf &&& P.HWF_ARM_PMULL = 0 →
      ∀ c ∈ initContexts P hwf ctx, c.use_pmull = false ∧ portable P c ∧
        crc32_write P c (some inbuf) inlen = { c with CRC := crc32_engine c.CRC inbuf inlen } ∧
        crc24rfc2440_write P c (some inbuf) inlen
          = { c with CRC := crc24_engine c.CRC inbuf inlen }) := by
  refine ⟨fun h c hc => ?_, fun h c hc => ?_, fun hb hm c hc => ?_, fun hb hm c hc => ?_⟩
  · rw [(initContexts_indicators P hwf ctx c hc).1, init_use_pclmul P hwf ctx h]
    exact bne_zero_and _ _
  · rw [(initContexts_indicators P hwf ctx c hc).2.1, init_use_pmull P hwf ctx h]
    exact bne_zero_and _ _
  · obtain ⟨h1, h2, h3⟩ := hb
    have hf : c.use_pclmul = false := by
      rw [(initContexts_indicators P hwf ctx c hc).1, init_use_pclmul P hwf ctx h1]
      rcases hm with hm | hm <;> simp [hm]
    have hp : portable P c := ⟨by rw [hf]; simp, by rw [h2]; rfl, by rw [h3]; rfl⟩
    exact ⟨hf, hp, crc32_write_portable P c inbuf inlen hp,
      crc24rfc2440_write_portable P c inbuf inlen hp⟩
  · obtain ⟨h1, h2, h3⟩ := hb
    have hf : c.use_pmull = false := by
      rw [(initContexts_indicators P hwf ctx c hc).2.1, init_use_pmull P hwf ctx h2]
      rcases hm with hm | hm <;> simp [hm]
    have hp : portable P c := ⟨by rw [h1]; rfl, by rw [hf]; simp, by rw [h3]; rfl⟩
    exact ⟨hf, hp, crc32_write_portable P c inbuf inlen hp,
      crc24rfc2440_write_portable P c inbuf inlen hp⟩

theorem backend_selection_witness :
    pclmulPlatform.USE_INTEL_PCLMUL = true ∧
    ((crc32_init pclmulPlatform 768 blankContext).use_pclmul = true ↔
      768 &&& pclmulPlatform.HWF_INTEL_SSE4_1 ≠ 0 ∧ 768 &&& pclmulPlatform.HWF_INTEL_PCLMUL ≠ 0) ∧
    (crc32_init pclmulPlatform 768 blankContext).use_pclmul = true ∧
    intelBuild pclmulPlatform ∧ 256 &&& pclmulPlatform.HWF_INTEL_PCLMUL = 0 ∧
    (crc24rfc2440_init pclmulPlatform 256 blankContext).use_pclmul = false ∧
    portable pclmulPlatform (crc24rfc2440_init pclmulPlatform 256 blankContext) ∧
    armBuild pmullPlatform ∧ 16 &&& pmullPlatform.HWF_ARM_NEON = 0 ∧
    portable pmullPlatform (crc32rfc1510_init pmullPlatform 16 blankContext) :=
  ⟨rfl,
    (backend_selection pclmulPlatform 768 blankContext [] 0).1 rfl _ (List.mem_cons_self _ _),
    by decide, by decide, by decide,
    ((backend_selection pclmulPlatform 256 blankContext [] 0).2.2.1 (by decide)
      (Or.inr (by decide)) (crc24rfc2440_init pclmulPlatform 256 blankContext)
      (by simp [initContexts])).1,
    ((backend_selection pclmulPlatform 256 blankContext [] 0).2.2.1 (by decide)
      (Or.inr (by decide)) (crc24rfc2440_init pclmulPlatform 256 blankContext)
      (by simp [initContexts])).2.1,
    by decide, by decide,
    ((backend_selection pmullPlatform 16 blankContext [] 0).2.2.2 (by decide)
      (Or.inl (by decide)) (crc32rfc1510_init pmullPlatform 16 blankContext)
      (by simp [initContexts])).2.1⟩

/-- C16: engine equivalence for the CRC-32 family.  On the portable path, for
every 32-bit starting register and every byte buffer of every length, the
register left by `crc32_write` is the left fold of `crc32_next` over the
bytes of the buffer in order; the same holds for a write of the first `n`
bytes of the buffer. -/
theorem crc32_write_eq_scalar (P : Platform) (ctx : CRC_CONTEXT) (p : List Nat) (n : Nat)
    (hp : portable P ctx) (hc : ctx.CRC < 2 ^ 32) (hb : Bytes p) (hn : n ≤ p.length) :
    (crc32_write P ctx (some p) p.length).CRC = List.foldl crc32_next ctx.CRC p ∧
    (crc32_write P ctx (some p) n).CRC = List.foldl crc32_next ctx.CRC (p.take n) := by
  rw [crc32_write_eq_foldl P ctx p hp hc hb, crc32_write_portable P ctx p n hp,
    crc32_engine_eq_foldl _ _ _ hc hb hn]
  exact ⟨rfl, rfl⟩

theorem crc32_write_eq_scalar_witness :
    portable genericPlatform blankContext ∧ blankContext.CRC < 2 ^ 32 ∧
    Bytes (List.range 21) ∧ 17 ≤ (List.range 21).length ∧
    (crc32_write genericPlatform blankContext (some (List.range 21)) (List.range 21).length).CRC
      = List.foldl crc32_next blankContext.CRC (List.range 21) ∧
    (crc32_write genericPlatform blankContext (some (List.range 21)) 17).CRC
      = List.foldl crc32_next blankContext.CRC ((List.range 21).take 17) :=
  ⟨by decide, by decide, by decide, by decide,
    crc32_write_eq_scalar genericPlatform blankContext (List.range 21) 17 (by decide)
      (by decide) (by decide) (by decide)⟩

/-- C17: the CRC-32 slicing step equals four scalar steps.  For every 32-bit
`crc` and every 32-bit word `w` with bytes `b0` (least significant) to `b3`,
`crc32_next4 (crc, w)` is `crc32_next` applied to `b0`, `b1`, `b2`, `b3` in
turn. -/
theorem crc32_next4_eq_four_next (crc w : Nat) (hc : crc < 2 ^ 32) (hw : w < 2 ^ 32) :
    crc32_next4 crc w
      = crc32_next (crc32_next (crc32_next (crc32_next crc (w &&& 0xff))
          ((w >>> 8) &&& 0xff)) ((w >>> 16) &&& 0xff)) ((w >>> 24) &&& 0xff) := by
  rw [crc32_next_zeroStep _ _ (and_ff_lt (w >>> 24)), crc32_next_zeroStep _ _ (and_ff_lt (w >>> 16)),
    crc32_next_zeroStep _ _ (and_ff_lt (w >>> 8)), crc32_next_zeroStep _ _ (and_ff_lt w),
    four_scalar_eq_zeroStep T32_facts.2.1, word_split w hw,
    crc32_next4_zeroStep crc w (Nat.xor_lt_two_pow hc hw)]

theorem crc32_next4_eq_four_next_witness :
    (0xffffffff : Nat) < 2 ^ 32 ∧ (0x34333231 : Nat) < 2 ^ 32 ∧
    crc32_next4 0xffffffff 0x34333231
      = crc32_next (crc32_next (crc32_next (crc32_next 0xffffffff (0x34333231 &&& 0xff))
          ((0x34333231 >>> 8) &&& 0xff)) ((0x34333231 >>> 16) &&& 0xff))
          ((0x34333231 >>> 24) &&& 0xff) :=
  ⟨by decide, by decide, crc32_next4_eq_four_next 0xffffffff 0x34333231 (by decide) (by decide)⟩

/-- C18, as stated, fails: for the 32-bit register `0x01000000` and the word 0,
`crc24_next4` returns 0 while the documented slicing formula gives `0xfb4c86`;
the last lookup of `crc24_next4` is indexed by the high byte of the word, which
is 0, and that of the formula by the high byte of `crc xor word`, which is 1. -/
theorem crc24_next4_formula_fails :
    (0x01000000 : Nat) < 2 ^ 32 ∧ crc24_next4 0x01000000 0 = 0 ∧
    slicing_formula crc24_table 0x01000000 0 = 0xfb4c86 ∧
    crc24_next4 0x01000000 0 ≠ slicing_formula crc24_table 0x01000000 0 := by
  decide!

/-- C18, amended: for every `crc` and `word`, with `x = crc xor word` and
`T = crc24_table`, `crc24_next4 (crc, word)` is `T[(x & 0xFF) + 768] xor
T[((x >> 8) & 0xFF) + 512] xor T[((x >> 16) & 0xFF) + 256] xor
T[(word >> 24) & 0xFF]`; for every `crc` below `2 ^ 24` this is the documented
slicing formula, whose last index is `(x >> 24) & 0xFF`. -/
theorem crc24_next4_formula (crc word : Nat) :
    crc24_next4 crc word
      = crc24_table.getD (((crc ^^^ word) &&& 0xFF) + 768) 0 ^^^
        crc24_table.getD ((((crc ^^^ word) >>> 8) &&& 0xFF) + 512) 0 ^^^
        crc24_table.getD ((((crc ^^^ word) >>> 16) &&& 0xFF) + 256) 0 ^^^
        crc24_table.getD ((word >>> 24) &&& 0xFF) 0 ∧
    (crc < 2 ^ 24 → crc24_next4 crc word = slicing_formula crc24_table crc word) := by
  refine ⟨rfl, fun hc => ?_⟩
  have hhi : (word >>> 24) &&& 0xFF = ((crc ^^^ word) >>> 24) &&& 0xFF := by
    rw [shiftRight_xor, shiftRight_eq_zero_of_lt hc, Nat.zero_xor]
  show _ ^^^ _ ^^^ _ ^^^ crc24_table.getD ((word >>> 24) &&& 0xFF) 0 = _
  rw [hhi]
  rfl

theorem crc24_next4_formula_witness :
    (0xce04b7 : Nat) < 2 ^ 24 ∧
    crc24_next4 0xce04b7 0x34333231 = slicing_formula crc24_table 0xce04b7 0x34333231 :=
  ⟨by decide, (crc24_next4_formula 0xce04b7 0x34333231).2 (by decide)⟩

/-- C19: slice 0 of the CRC-32 table is the classic reflected byte table of the
polynomial: for every `i` in 0..255, `crc32_table[i]` is obtained from `i` by
eight steps `r := (r >> 1) xor 0xEDB88320` if `r` is odd, else `r >> 1`. -/
theorem crc32_table_slice0 (i : Nat) (h : i < 256) :
    crc32_table.getD i 0 = crc32_bit^[8] i :=
  T32_facts.1 i h

theorem crc32_table_slice0_witness :
    (1 : Nat) < 256 ∧ crc32_table.getD 1 0 = crc32_bit^[8] 1 :=
  ⟨by decide, crc32_table_slice0 1 (by decide)⟩

/-- C20: slice 0 of the CRC-24 table is the classic non-reflected byte table of
polynomial `0x864CFB` in byte-swapped form: for every `i` in 0..255,
`crc24_table[i] = bswap32 (t(i) << 8)`, where `t(i)` is obtained from `i << 16`
by eight steps (`r := r << 1`, then `r := r xor 0x1864CFB` if bit 24 is set)
followed by `r and 0xFFFFFF`. -/
theorem crc24_table_slice0 (i : Nat) (h : i < 256) :
    crc24_table.getD i 0 = bswap32 ((crc24_bit^[8] (i <<< 16) &&& 0xFFFFFF) <<< 8) :=
  T24_facts.1 i h

theorem crc24_table_slice0_witness :
    (1 : Nat) < 256 ∧
    crc24_table.getD 1 0 = bswap32 ((crc24_bit^[8] (1 <<< 16) &&& 0xFFFFFF) <<< 8) :=
  ⟨by decide, crc24_table_slice0 1 (by decide)⟩

/-- C21: in `crc32_table` and in `crc24_table`, for `k` in 1, 2, 3 and `i` below
256, the entry at `256 * k + i` is the entry `e` at `256 * (k - 1) + i` advanced
by a zero byte: `(e >> 8) xor T[e and 0xFF]`. -/
theorem table_slices_advance (k i : Nat) (hk : k = 1 ∨ k = 2 ∨ k = 3) (hi : i < 256) :
    crc32_table.getD (256 * k + i) 0
      = (crc32_table.getD (256 * (k - 1) + i) 0 >>> 8) ^^^
        crc32_table.getD (crc32_table.getD (256 * (k - 1) + i) 0 &&& 0xFF) 0 ∧
    crc24_table.getD (256 * k + i) 0
      = (crc24_table.getD (256 * (k - 1) + i) 0 >>> 8) ^^^
        crc24_table.getD (crc24_table.getD (256 * (k - 1) + i) 0 &&& 0xFF) 0 :=
  ⟨slices_advance_getD T32_facts.2.2 k i hk hi, slices_advance_getD T24_facts.2.2 k i hk hi⟩

theorem table_slices_advance_witness :
    crc32_table.getD (256 * 2 + 7) 0
      = (crc32_table.getD (256 * (2 - 1) + 7) 0 >>> 8) ^^^
        crc32_table.getD (crc32_table.getD (256 * (2 - 1) + 7) 0 &&& 0xFF) 0 ∧
    crc24_table.getD (256 * 2 + 7) 0
      = (crc24_table.getD (256 * (2 - 1) + 7) 0 >>> 8) ^^^
        crc24_table.getD (crc24_table.getD (256 * (2 - 1) + 7) 0 &&& 0xFF) 0 :=
  table_slices_advance 2 7 (by decide) (by decide)

/-- C22: `crc32_write` and `crc24rfc2440_write` leave the three `use_*` bits and
the output buffer of every context as they were (the accelerated routines get
the address of the register alone, so this holds with a backend selected as
well as on the portable path); the three final functions leave the `use_*` bits
as they were; and for each of the three descriptors the `use_*` bits after init
and any sequence of write and final calls are the ones init set. -/
theorem write_final_frame (P : Platform) (ctx : CRC_CONTEXT) (inbuf : Option (List Nat))
    (inlen hwf : Nat) (d : gcry_md_spec_t) (calls : List md_call) (hd : d ∈ descriptors) :
    sameFrame (crc32_write P ctx inbuf inlen) ctx ∧
    sameFrame (crc24rfc2440_write P ctx inbuf inlen) ctx ∧
    backend_indicator (crc32_final ctx) = backend_indicator ctx ∧
    backend_indicator (crc32rfc1510_final ctx) = backend_indicator ctx ∧
    backend_indicator (crc24rfc2440_final ctx) = backend_indicator ctx ∧
    backend_indicator (md_calls d P (d.init P hwf ctx) calls)
      = backend_indicator (d.init P hwf ctx) :=
  ⟨crc32_write_frame P ctx inbuf inlen, crc24rfc2440_write_frame P ctx inbuf inlen, rfl, rfl, rfl,
    md_calls_indicator d hd P calls _⟩

theorem write_final_frame_witness :
    _gcry_digest_spec_crc24_rfc2440 ∈ descriptors ∧
    backend_indicator (md_calls _gcry_digest_spec_crc24_rfc2440 genericPlatform
        (_gcry_digest_spec_crc24_rfc2440.init genericPlatform 0 blankContext)
        [.write (some check123456789) 9, .final, .write none 3, .final])
      = backend_indicator (_gcry_digest_spec_crc24_rfc2440.init genericPlatform 0 blankContext) :=
  ⟨by simp [descriptors],
    (write_final_frame genericPlatform blankContext (some check123456789) 9 0
      _gcry_digest_spec_crc24_rfc2440 [.write (some check123456789) 9, .final, .write none 3, .final]
      (by simp [descriptors])).2.2.2.2.2⟩

/-- C23: for all registers `a`, `b` and all bytes `x`, `y`, `crc32_next` and
`crc24_next` of `a xor b` and `x xor y` are the exclusive-or of the steps on
`a`, `x` and on `b`, `y`; and in both tables each of the four slices `k` sends
`i xor j` to the exclusive-or of its entries at `i` and `j`, for `i`, `j`
below 256. -/
theorem next_xor_linear (a b x y i j k : Nat)
    (hx : x < 256) (hy : y < 256) (hi : i < 256) (hj : j < 256) (hk : k < 4) :
    crc32_next (a ^^^ b) (x ^^^ y) = crc32_next a x ^^^ crc32_next b y ∧
    crc24_next (a ^^^ b) (x ^^^ y) = crc24_next a x ^^^ crc24_next b y ∧
    crc32_table.getD (256 * k + (i ^^^ j)) 0
      = crc32_table.getD (256 * k + i) 0 ^^^ crc32_table.getD (256 * k + j) 0 ∧
    crc24_table.getD (256 * k + (i ^^^ j)) 0
      = crc24_table.getD (256 * k + i) 0 ^^^ crc24_table.getD (256 * k + j) 0 :=
  ⟨scalar_xor T32_facts.2.1 a b x y hx hy, scalar_xor T24_facts.2.1 a b x y hx hy,
    slices_linear T32_facts.2.1 T32_facts.2.2 k i j hk hi hj,
    slices_linear T24_facts.2.1 T24_facts.2.2 k i j hk hi hj⟩

theorem next_xor_linear_witness :
    (0x31 : Nat) < 256 ∧ (0x80 : Nat) < 256 ∧ (3 : Nat) < 4 ∧
    crc32_next (0xffffffff ^^^ 0x12345678) (0x31 ^^^ 0x80)
      = crc32_next 0xffffffff 0x31 ^^^ crc32_next 0x12345678 0x80 ∧
    crc24_next (0xce04b7 ^^^ 0x123456) (0x31 ^^^ 0x80)
      = crc24_next 0xce04b7 0x31 ^^^ crc24_next 0x123456 0x80 :=
  ⟨by decide, by decide, by decide,
    (next_xor_linear 0xffffffff 0x12345678 0x31 0x80 0x31 0x80 3 (by decide) (by decide)
      (by decide) (by decide) (by decide)).1,
    (next_xor_linear 0xce04b7 0x123456 0x31 0x80 0x31 0x80 3 (by decide) (by decide)
      (by decide) (by decide) (by decide)).2.1⟩

/-- C24: every entry of `crc24_table` is below `2^24`; `crc24_init` is
`0xCE04B7`, below `2^24`; from a register below `2^24`, `crc24_next` on a byte
and `crc24_next4` on any word stay below `2^24`, and so does the register left
by a portable `crc24rfc2440_write` (null pointer, or `inlen` bytes of a buffer);
the register after `crc24rfc2440_init` and any list of portable writes is below
`2^24`, and `crc24_final` returns it as it is. -/
theorem crc24_register_bound (P : Platform) (hwf : Nat) (ctx : CRC_CONTEXT) (r b w inlen : Nat)
    (inbuf : Option (List Nat)) (chunks : List (List Nat))
    (hr : r < 2 ^ 24) (hb : b < 256)
    (hp : portable P ctx) (hc : ctx.CRC < 2 ^ 24)
    (hbuf : ∀ p, inbuf = some p → Bytes p ∧ inlen ≤ p.length)
    (hpi : portable P (crc24rfc2440_init P hwf ctx)) (hch : ∀ ch ∈ chunks, Bytes ch) :
    (∀ v ∈ crc24_table, v < 2 ^ 24) ∧
    crc24_init = 0xCE04B7 ∧ crc24_init < 2 ^ 24 ∧
    crc24_next r b < 2 ^ 24 ∧
    crc24_next4 r w < 2 ^ 24 ∧
    (crc24rfc2440_write P ctx inbuf inlen).CRC < 2 ^ 24 ∧
    (crc24rfc2440_write_all P (crc24rfc2440_init P hwf ctx) chunks).CRC < 2 ^ 24 ∧
    crc24_final (crc24rfc2440_write_all P (crc24rfc2440_init P hwf ctx) chunks).CRC
      = (crc24rfc2440_write_all P (crc24rfc2440_init P hwf ctx) chunks).CRC := by
  have hreach : (crc24rfc2440_write_all P (crc24rfc2440_init P hwf ctx) chunks).CRC < 2 ^ 24 := by
    rw [crc24rfc2440_write_all_eq P chunks hch _ hpi (by rw [crc24rfc2440_init_CRC]; decide)]
    refine crc24_foldl_lt _ _ (by rw [crc24rfc2440_init_CRC]; decide) ?_
    intro x hx
    obtain ⟨ch, h1, h2⟩ := List.mem_flatten.mp hx
    exact hch ch h1 x h2
  exact ⟨crc24_table_lt, rfl, by decide, crc24_next_lt r b hr hb, crc24_next4_lt r w,
    crc24rfc2440_write_lt P ctx inbuf inlen hp hc hbuf, hreach, and_ffffff_of_lt hreach⟩

theorem crc24_register_bound_witness :
    portable genericPlatform blankContext ∧
    portable genericPlatform (crc24rfc2440_init genericPlatform 0 blankContext) ∧
    Bytes check123456789 ∧
    (crc24rfc2440_write genericPlatform blankContext (some check123456789) 9).CRC < 2 ^ 24 ∧
    (crc24rfc2440_write_all genericPlatform (crc24rfc2440_init genericPlatform 0 blankContext)
      [[0x31, 0x32], [], [0x33]]).CRC < 2 ^ 24 :=
  ⟨by decide, by decide, by decide,
    (crc24_register_bound genericPlatform 0 blankContext 0xce04b7 0x31 0x34333231 9
      (some check123456789) [[0x31, 0x32], [], [0x33]] (by decide) (by decide) (by decide)
      (by decide) (fun p h => by cases h; exact ⟨by decide, by decide⟩) (by decide)
      (by decide)).2.2.2.2.2.1,
    (crc24_register_bound genericPlatform 0 blankContext 0xce04b7 0x31 0x34333231 9
      (some check123456789) [[0x31, 0x32], [], [0x33]] (by decide) (by decide) (by decide)
      (by decide) (fun p h => by cases h; exact ⟨by decide, by decide⟩) (by decide)
      (by decide)).2.2.2.2.2.2.1⟩

/-- C25: for a register below `2^24` and a 32-bit word `w`, `crc24_next4` is
four `crc24_next` steps on the bytes of `w`, least significant first; the model
of `crc24_next4` indexes its last lookup by `data >> 24`, as the source does. -/
theorem crc24_next4_eq_four_next (crc w : Nat) (hc : crc < 2 ^ 24) (hw : w < 2 ^ 32) :
    crc24_next4 crc w
      = crc24_next (crc24_next (crc24_next (crc24_next crc (w &&& 0xff))
          ((w >>> 8) &&& 0xff)) ((w >>> 16) &&& 0xff)) ((w >>> 24) &&& 0xff) := by
  rw [crc24_next_zeroStep _ _ (and_ff_lt (w >>> 24)), crc24_next_zeroStep _ _ (and_ff_lt (w >>> 16)),
    crc24_next_zeroStep _ _ (and_ff_lt (w >>> 8)), crc24_next_zeroStep _ _ (and_ff_lt w),
    four_scalar_eq_zeroStep T24_facts.2.1, word_split w hw,
    crc24_next4_zeroStep crc w hc
      (Nat.xor_lt_two_pow (Nat.lt_of_lt_of_le hc (by decide)) hw)]

theorem crc24_next4_eq_four_next_witness :
    (0xce04b7 : Nat) < 2 ^ 24 ∧ (0x34333231 : Nat) < 2 ^ 32 ∧
    crc24_next4 0xce04b7 0x34333231
      = crc24_next (crc24_next (crc24_next (crc24_next 0xce04b7 (0x34333231 &&& 0xff))
          ((0x34333231 >>> 8) &&& 0xff)) ((0x34333231 >>> 16) &&& 0xff))
          ((0x34333231 >>> 24) &&& 0xff) :=
  ⟨by decide, by decide, crc24_next4_eq_four_next 0xce04b7 0x34333231 (by decide) (by decide)⟩

/-- C26: on the portable path, `crc32rfc1510_init`, a `crc32_write` of `n` zero
bytes followed by the bytes `m`, and `crc32rfc1510_final` leave the same context
(register and output buffer) as with `m` alone; for `n` zero bytes alone the
output buffer is `00 00 00 00` and the register 0. -/
theorem crc32rfc1510_leading_zeros (P : Platform) (hwf : Nat) (ctx : CRC_CONTEXT) (n : Nat)
    (m : List Nat) (hp : portable P (crc32rfc1510_init P hwf ctx)) (hm : Bytes m) :
    crc32rfc1510_final (crc32_write P (crc32rfc1510_init P hwf ctx)
        (some (List.replicate n 0 ++ m)) (List.replicate n 0 ++ m).length)
      = crc32rfc1510_final (crc32_write P (crc32rfc1510_init P hwf ctx) (some m) m.length) ∧
    crc32_read (crc32rfc1510_final (crc32_write P (crc32rfc1510_init P hwf ctx)
        (some (List.replicate n 0)) (List.replicate n 0).length)) = [0, 0, 0, 0] ∧
    (crc32rfc1510_final (crc32_write P (crc32rfc1510_init P hwf ctx)
        (some (List.replicate n 0)) (List.replicate n 0).length)).CRC = 0 := by
  have h0 : (crc32rfc1510_init P hwf ctx).CRC < 2 ^ 32 := by
    rw [crc32rfc1510_init_CRC]; decide
  have hz := bytes_replicate_zero n
  have hzm : Bytes (List.replicate n 0 ++ m) := by
    intro x hx
    rcases List.mem_append.mp hx with h | h
    · exact hz x h
    · exact hm x h
  rw [crc32_write_eq_foldl P _ _ hp h0 hzm, crc32_write_eq_foldl P _ m hp h0 hm,
    crc32_write_eq_foldl P _ _ hp h0 hz, List.foldl_append, crc32rfc1510_init_CRC,
    crc32_foldl_zeros]
  refine ⟨rfl, ?_, rfl⟩
  show buf_put_be32 0 = _
  decide

theorem crc32rfc1510_leading_zeros_witness :
    portable genericPlatform (crc32rfc1510_init genericPlatform 0 blankContext) ∧
    Bytes check123456789 ∧
    crc32rfc1510_final (crc32_write genericPlatform (crc32rfc1510_init genericPlatform 0 blankContext)
        (some (List.replicate 5 0 ++ check123456789)) (List.replicate 5 0 ++ check123456789).length)
      = crc32rfc1510_final (crc32_write genericPlatform
          (crc32rfc1510_init genericPlatform 0 blankContext) (some check123456789)
          check123456789.length) :=
  ⟨by decide, by decide,
    (crc32rfc1510_leading_zeros genericPlatform 0 blankContext 5 check123456789 (by decide)
      (by decide)).1⟩

/-- C27: for every context, a second `crc32rfc1510_final` or
`crc24rfc2440_final` leaves the context as the first call left it; two calls of
`crc32_final` give back the register from before the first call, store its
big-endian bytes in the output buffer, and that buffer is not the one the first
call stored. -/
theorem final_twice (ctx : CRC_CONTEXT) :
    crc32rfc1510_final (crc32rfc1510_final ctx) = crc32rfc1510_final ctx ∧
    crc24rfc2440_final (crc24rfc2440_final ctx) = crc24rfc2440_final ctx ∧
    (crc32_final (crc32_final ctx)).CRC = ctx.CRC ∧
    (crc32_final (crc32_final ctx)).buf = bigEndian4 ctx.CRC ∧
    (crc32_final (crc32_final ctx)).buf ≠ (crc32_final ctx).buf := by
  have hx : ctx.CRC ^^^ 0xffffffff ^^^ 0xffffffff = ctx.CRC := by
    rw [Nat.xor_assoc, Nat.xor_self, Nat.xor_zero]
  refine ⟨rfl, ?_, hx, ?_, ?_⟩
  · unfold crc24rfc2440_final crc24_final
    simp only [Nat.and_assoc, Nat.and_self]
  · show buf_put_be32 (ctx.CRC ^^^ 0xffffffff ^^^ 0xffffffff) = _
    rw [hx, buf_put_be32_eq]
  · show buf_put_be32 (ctx.CRC ^^^ 0xffffffff ^^^ 0xffffffff) ≠ buf_put_be32 (ctx.CRC ^^^ 0xffffffff)
    rw [hx]
    intro h
    unfold buf_put_be32 at h
    have h4 : ctx.CRC % 256 = (ctx.CRC ^^^ 0xffffffff) % 256 := by
      injection h with _ h; injection h with _ h; injection h with _ h; injection h with h _
    have h5 : ctx.CRC % 2 = (ctx.CRC ^^^ 0xffffffff) % 2 := by omega
    have h6 := Nat.testBit_xor ctx.CRC 0xffffffff 0
    simp only [Nat.testBit_zero] at h6
    rw [← h5] at h6
    simp at h6

/-- C28: both tables have 1024 entries; the lookup of `crc32_next` and of
`crc24_next` on a byte uses an index below 256; the four lookups of
`crc32_next4` and of `crc24_next4` use indices below 1024, for every register
and word; and the loops of the two write functions, which are total, leave the
register of `crc32_engine` / `crc24_engine` and read the byte positions
`0, 1, ..., n - 1` of a buffer of length `n`, in this order and once each. -/
theorem lookups_and_reads_in_bounds (crc b w : Nat) (buf : List Nat) (hb : b < 256) :
    crc32_table.length = 1024 ∧ crc24_table.length = 1024 ∧
    crc32_next crc b = (crc >>> 8) ^^^ crc32_table.getD (crc32_next_index crc b) 0 ∧
    crc32_next_index crc b < 256 ∧
    crc24_next crc b = (crc >>> 8) ^^^ crc24_table.getD (crc24_next_index crc b) 0 ∧
    crc24_next_index crc b < 256 ∧
    crc32_next4 crc w = lookups crc32_table (crc32_next4_indices crc w) ∧
    (∀ i ∈ crc32_next4_indices crc w, i < 1024) ∧
    crc24_next4 crc w = lookups crc24_table (crc24_next4_indices crc w) ∧
    (∀ i ∈ crc24_next4_indices crc w, i < 1024) ∧
    crc32_write_traced crc buf buf.length
      = (crc32_engine crc buf buf.length, List.range buf.length) ∧
    crc24rfc2440_write_traced crc buf buf.length
      = (crc24_engine crc buf buf.length, List.range buf.length) := by
  refine ⟨crc32_table_length, crc24_table_length, rfl, next_index_lt crc b hb, rfl,
    next_index_lt crc b hb, ?_, next4_indices_lt _ _, ?_, next4_indices_lt _ _,
    crc32_write_traced_eq _ _ _, crc24rfc2440_write_traced_eq _ _ _⟩
  · simp only [lookups, crc32_next4_indices, crc32_next4, List.map, List.foldl, Nat.zero_xor]
  · simp only [lookups, crc24_next4_indices, crc24_next4, List.map, List.foldl, Nat.zero_xor]

theorem lookups_and_reads_in_bounds_witness :
    (0x31 : Nat) < 256 ∧
    (∀ i ∈ crc24_next4_indices 0xce04b7 0x34333231, i < 1024) ∧
    crc24rfc2440_write_traced 0xce04b7 check123456789 check123456789.length
      = (crc24_engine 0xce04b7 check123456789 check123456789.length,
          List.range check123456789.length) :=
  ⟨by decide,
    (lookups_and_reads_in_bounds 0xce04b7 0x31 0x34333231 check123456789 (by decide)).2.2.2.2.2.2.2.2.2.1,
    (lookups_and_reads_in_bounds 0xce04b7 0x31 0x34333231 check123456789 (by decide)).2.2.2.2.2.2.2.2.2.2.2⟩

end Crc
